import Mathlib

/-!
# HM SVM (AMD-V) ring-0 control layer

MSR permission bitmap, physical-CPU activation, tagged-TLB flush, per-VM
allocation and teardown, VMCB configuration, module initialization.

Shallow embedding of `src/VBox/VMM/VMMR0/HMSVMR0.cpp`.

* Memory reachable from `pvMsrBitmap` is a bit string indexed from the first bit
  of the bitmap (bit `8 * byte + k` is bit `k` of the byte at offset `byte`),
  the addressing that `ASMBitSet` / `ASMBitClear` use.
* Machine integers are natural numbers; an increment of a 32-bit field is
  written `% 2 ^ 32`, of a 64-bit field `% 2 ^ 64`.
* A call returns the state it leaves behind: the memory for
  `hmR0SvmSetMSRPermission`, the physical-CPU and virtual-CPU records for
  `hmR0SvmFlushTaggedTlb`, status code, registers and CPU record for
  `SVMR0EnableCpu` / `SVMR0DisableCpu`.
* Scheduling is a sequence of events (world switches, activation calls, flush
  requests), on one physical CPU (`World`) or on several (`Machine`).
* Memory objects follow a block model: the address of an object is represented
  by its handle, the contents are kept per object, as a bit string and, for the
  page used as VMCB, as the record of the VMCB fields.
* The source does not compile as it stands; four places are read as follows.
  The allocation loop of `SVMR0InitVM` uses `pVCpu` without declaring it: it is
  read as `&pVM->aCpus[i]`. `hmR0SvmFreeVMStructs`, which is called, is
  `hmR0SvmFreeStructs`, which is defined. The statement `failure_cleanup;`
  after the third allocation has no `goto` and is read as written: nothing
  jumps. `SVMR0GlobalInit` fills `pVM->hm.s.svm.pvIOBitmap` although it has no
  `pVM`: the address is read as `g_pvIOBitmap`; the function ends without a
  `return` statement on its success path, which is kept as written.
-/

namespace HMSVMR0

/-! ## MSR permission bitmap -/

/-- MSR-bitmap read permissions (`SVMMSREXITREAD`). -/
inductive SVMMSREXITREAD where
  | SVMMSREXIT_INTERCEPT_READ
  | SVMMSREXIT_PASSTHRU_READ
  deriving DecidableEq, Repr

/-- MSR-bitmap write permissions (`SVMMSREXITWRITE`). -/
inductive SVMMSREXITWRITE where
  | SVMMSREXIT_INTERCEPT_WRITE
  | SVMMSREXIT_PASSTHRU_WRITE
  deriving DecidableEq, Repr

open SVMMSREXITREAD SVMMSREXITWRITE

/-- Bit-addressed memory, indexed from the first bit of the MSR bitmap page
(`pvMsrBitmap`). The bitmap itself is the first `0x2000 * 8` bits; larger
indices are whatever memory follows the allocation. -/
abbrev BitMem := Nat → Bool

/-- Modelled from the spec: `ASMBitSet` (IPRT, not part of the sources) sets
bit `iBit` of the bitmap that starts at byte offset `pb`. -/
def ASMBitSet (mem : BitMem) (pb iBit : Nat) : BitMem :=
  fun b => if b = pb * 8 + iBit then true else mem b

/-- Modelled from the spec: `ASMBitClear` (IPRT, not part of the sources)
clears bit `iBit` of the bitmap that starts at byte offset `pb`. -/
def ASMBitClear (mem : BitMem) (pb iBit : Nat) : BitMem :=
  fun b => if b = pb * 8 + iBit then false else mem b

/-- The range dispatch of `hmR0SvmSetMSRPermission` (lines 471-494): the byte
offset added to `pbMsrBitmap` and the value of `ulBit`, or `none` for the
`AssertFailed(); return;` branch. -/
def hmR0SvmMsrBitPos (uMsr : Nat) : Option (Nat × Nat) :=
  if uMsr ≤ 0x00001FFF then
    some (0, (uMsr * 2) % 2 ^ 32)
  else if 0xC0000000 ≤ uMsr ∧ uMsr ≤ 0xC0001FFF then
    some (0x800, ((uMsr - 0xC0000000) * 2) % 2 ^ 32)
  else if 0xC0010000 ≤ uMsr ∧ uMsr ≤ 0xC0011FFF then
    some (0x1000, ((uMsr - 0xC0001000) * 2) % 2 ^ 32)
  else
    none

/-- Sets the permission bits for the specified MSR (`hmR0SvmSetMSRPermission`,
release build: the `Assert` on `ulBit` compiles to nothing). -/
def hmR0SvmSetMSRPermission (mem : BitMem) (uMsr : Nat)
    (enmRead : SVMMSREXITREAD) (enmWrite : SVMMSREXITWRITE) : BitMem :=
  match hmR0SvmMsrBitPos uMsr with
  | none => mem
  | some (pb, ulBit) =>
    let mem1 :=
      if enmRead = SVMMSREXIT_INTERCEPT_READ then ASMBitSet mem pb ulBit
      else ASMBitClear mem pb ulBit
    if enmWrite = SVMMSREXIT_INTERCEPT_WRITE then ASMBitSet mem1 pb (ulBit + 1)
    else ASMBitClear mem1 pb (ulBit + 1)

/-- The layout comment of `hmR0SvmSetMSRPermission` (lines 463-470) and the
addressing table of the specification: byte offset of the window and first MSR
of the range that `uMsr` belongs to. -/
def msrWindow (uMsr : Nat) : Option (Nat × Nat) :=
  if uMsr ≤ 0x00001FFF then some (0, 0)
  else if 0xC0000000 ≤ uMsr ∧ uMsr ≤ 0xC0001FFF then some (0x800, 0xC0000000)
  else if 0xC0010000 ≤ uMsr ∧ uMsr ≤ 0xC0011FFF then some (0x1000, 0xC0010000)
  else none

/-- Index, in bits from the start of the bitmap, of the read-intercept bit the
documented layout assigns to `uMsr` (the write-intercept bit is the next one). -/
def msrDocBit (uMsr : Nat) : Option Nat :=
  (msrWindow uMsr).map fun p => p.1 * 8 + 2 * (uMsr - p.2)

/-- Reads the (read-intercept, write-intercept) bit pair of `uMsr` at its
documented position. -/
def msrBitmapRead (mem : BitMem) (uMsr : Nat) : Option (Bool × Bool) :=
  (msrDocBit uMsr).map fun b => (mem b, mem (b + 1))

/-- The MSR lies in one of the three ranges the bitmap covers. -/
def validMsr (uMsr : Nat) : Prop :=
  uMsr ≤ 0x00001FFF ∨ (0xC0000000 ≤ uMsr ∧ uMsr ≤ 0xC0001FFF) ∨
    (0xC0010000 ≤ uMsr ∧ uMsr ≤ 0xC0011FFF)

instance (uMsr : Nat) : Decidable (validMsr uMsr) := by
  unfold validMsr; infer_instance

/-- The bitmap as `SVMR0InitVM` leaves it (`ASMMemFill32` with `0xffffffff`):
every bit set. -/
def allIntercept : BitMem := fun _ => true

/-! ## Physical-CPU activation -/

/-- Status codes returned by the functions of this file. -/
inductive Rc where
  | VINF_SUCCESS
  | VERR_INVALID_PARAMETER
  | VERR_SVM_IN_USE
  | VERR_NO_MEMORY
  | VERR_INTERNAL_ERROR_5
  | VERR_SVM_INVALID_PVMCB
  deriving DecidableEq, Repr

/-- Modelled from the spec: `MSR_K6_EFER_SVME` (x86 header, not part of the
sources), the virtualization-enable bit of the feature-control register EFER
(bit 12). The header defines it with `RT_BIT`, an `unsigned int` constant of 32
bits. -/
def MSR_K6_EFER_SVME : Nat := 0x1000

/-- Modelled from the spec: `NIL_RTHCPHYS` (IPRT, not part of the sources), the
all-ones 64-bit physical address. -/
def NIL_RTHCPHYS : Nat := 2 ^ 64 - 1

/-- The two model-specific registers the activation manager touches. -/
structure HwState where
  efer : Nat
  vmHsavePa : Nat
  deriving DecidableEq, Repr

/-- Modelled from the spec: the per physical CPU record `HMGLOBLCPUINFO`, whose
declaration is not part of the sources. The fields are those the functions of
this file read and write; the spec gives `currentAsid : uint32` (here
`uCurrentAsid`) and `tlbFlushGeneration : uint64` (here `cTlbFlushes`). -/
structure HMGLOBLCPUINFO where
  idCpu : Nat
  uCurrentAsid : Nat
  cTlbFlushes : Nat
  fFlushAsidBeforeUse : Bool
  fIgnoreAMDVInUseError : Bool
  deriving DecidableEq, Repr

/-- Sets up and activates AMD-V on the current CPU (`SVMR0EnableCpu`).
`pVM` is `none` for a null VM pointer and otherwise carries
`pVM->hm.s.svm.fIgnoreInUseError`; `pvCpuPage = 0` is the null pointer. -/
def SVMR0EnableCpu (hw : HwState) (pCpu : HMGLOBLCPUINFO) (pVM : Option Bool)
    (pvCpuPage HCPhysCpuPage : Nat) (fEnabledByHost : Bool) :
    Rc × HwState × HMGLOBLCPUINFO :=
  if fEnabledByHost then (Rc.VERR_INVALID_PARAMETER, hw, pCpu)
  else if ¬ (HCPhysCpuPage ≠ 0 ∧ HCPhysCpuPage ≠ NIL_RTHCPHYS) then
    (Rc.VERR_INVALID_PARAMETER, hw, pCpu)
  else if pvCpuPage = 0 then (Rc.VERR_INVALID_PARAMETER, hw, pCpu)
  else
    let u64HostEfer := hw.efer
    let pCpu1 :=
      if u64HostEfer &&& MSR_K6_EFER_SVME ≠ 0 ∧ pVM = some true then
        { pCpu with fIgnoreAMDVInUseError := true }
      else pCpu
    if u64HostEfer &&& MSR_K6_EFER_SVME ≠ 0 ∧ pCpu1.fIgnoreAMDVInUseError = false then
      (Rc.VERR_SVM_IN_USE, hw, pCpu1)
    else
      let hw1 : HwState := { hw with efer := u64HostEfer ||| MSR_K6_EFER_SVME }
      let hw2 : HwState := { hw1 with vmHsavePa := HCPhysCpuPage }
      let pCpu2 := { pCpu1 with fFlushAsidBeforeUse := true }
      let pCpu3 := { pCpu2 with cTlbFlushes := (pCpu2.cTlbFlushes + 1) % 2 ^ 64 }
      (Rc.VINF_SUCCESS, hw2, pCpu3)

/-- Deactivates AMD-V on the current CPU (`SVMR0DisableCpu`). In
`u64HostEfer & ~MSR_K6_EFER_SVME` (line 147) the complement is taken at the
width of the constant, which is 32 bits, and the result `0xFFFFEFFF` is
zero-extended for the `&` with the 64-bit EFER value: the write clears bit 12
and bits 32-63 and keeps the other bits below 32. -/
def SVMR0DisableCpu (hw : HwState) (pCpu : HMGLOBLCPUINFO)
    (pvCpuPage HCPhysCpuPage : Nat) : Rc × HwState × HMGLOBLCPUINFO :=
  if ¬ (HCPhysCpuPage ≠ 0 ∧ HCPhysCpuPage ≠ NIL_RTHCPHYS) then
    (Rc.VERR_INVALID_PARAMETER, hw, pCpu)
  else if pvCpuPage = 0 then (Rc.VERR_INVALID_PARAMETER, hw, pCpu)
  else
    let u64HostEfer := hw.efer
    if u64HostEfer &&& MSR_K6_EFER_SVME ≠ 0 then
      let hw1 : HwState := { hw with efer := u64HostEfer &&& (2 ^ 32 - 1 - MSR_K6_EFER_SVME) }
      (Rc.VINF_SUCCESS, { hw1 with vmHsavePa := 0 }, pCpu)
    else (Rc.VINF_SUCCESS, hw, pCpu)

/-! ## Tagged-TLB flush -/

/-- TLB flush directives of the VMCB (`SVM_TLB_FLUSH_*`). -/
inductive TlbFlush where
  | SVM_TLB_FLUSH_NOTHING
  | SVM_TLB_FLUSH_ENTIRE
  | SVM_TLB_FLUSH_SINGLE_CONTEXT
  | SVM_TLB_FLUSH_SINGLE_CONTEXT_RETAIN_GLOBALS
  deriving DecidableEq, Repr

open TlbFlush

/-- Modelled from the spec: `AMD_CPUID_SVM_FEATURE_EDX_FLUSH_BY_ASID` (x86
header, not part of the sources), the flush-by-ASID bit (bit 6) of the SVM
feature word. -/
def AMD_CPUID_SVM_FEATURE_EDX_FLUSH_BY_ASID : Nat := 0x40

/-- The per-VM settings `hmR0SvmFlushTaggedTlb` reads (`pVM->hm.s`):
`svm.fAlwaysFlushTLB`, `uMaxAsid` and `svm.u32Features`. -/
structure VM where
  fAlwaysFlushTLB : Bool
  uMaxAsid : Nat
  u32Features : Nat
  deriving DecidableEq, Repr

/-- Modelled from the spec: the per virtual CPU state `VMCPU`, whose
declaration is not part of the sources. The fields are those
`hmR0SvmFlushTaggedTlb` reads and writes: the `hm.s` fields, the two
force-action flags `VMCPU_FF_TLB_FLUSH` and `VMCPU_FF_TLB_SHOOTDOWN`, and the
TLB-control fields of the virtual CPU's VMCB; the spec gives
`currentAsid : uint32` and `localFlushGeneration : uint64` (here
`cTlbFlushes`). -/
structure VMCPU where
  idLastCpu : Nat
  cTlbFlushes : Nat
  uCurrentAsid : Nat
  fForceTLBFlush : Bool
  fCheckedTLBFlush : Bool
  ffTlbFlush : Bool
  ffTlbShootdown : Bool
  cPages : Nat
  aPages : List Nat
  u8TLBFlush : TlbFlush
  u32ASID : Nat
  deriving DecidableEq, Repr

/-- Outcome of one `hmR0SvmFlushTaggedTlb` call: the updated physical-CPU and
virtual-CPU records and the `SVMR0InvlpgA (page, asid)` calls it issued. -/
structure FlushResult where
  cpu : HMGLOBLCPUINFO
  vcpu : VMCPU
  invlpga : List (Nat × Nat)
  deriving DecidableEq, Repr

/-- The migration/generation test at lines 528-529. -/
def fNewAsid (pCpu : HMGLOBLCPUINFO) (pVCpu : VMCPU) : Bool :=
  pVCpu.idLastCpu != pCpu.idCpu || pVCpu.cTlbFlushes != pCpu.cTlbFlushes

/-- Whether the VM's feature word advertises flush-by-ASID. -/
def flushByAsid (vm : VM) : Bool :=
  vm.u32Features &&& AMD_CPUID_SVM_FEATURE_EDX_FLUSH_BY_ASID != 0

/-- The `if (fNewAsid)` block of `hmR0SvmFlushTaggedTlb` (lines 563-596). -/
def flushNewAsid (vm : VM) (pCpu : HMGLOBLCPUINFO) (v : VMCPU) :
    HMGLOBLCPUINFO × VMCPU :=
  let c1 := { pCpu with uCurrentAsid := (pCpu.uCurrentAsid + 1) % 2 ^ 32 }
  let fHitASIDLimit := decide (vm.uMaxAsid ≤ c1.uCurrentAsid)
  let (c2, v2) :=
    if fHitASIDLimit then
      let c := { c1 with uCurrentAsid := 1, cTlbFlushes := (c1.cTlbFlushes + 1) % 2 ^ 64 }
      if flushByAsid vm then
        ({ c with fFlushAsidBeforeUse := true },
         { v with u8TLBFlush := SVM_TLB_FLUSH_SINGLE_CONTEXT })
      else
        ({ c with fFlushAsidBeforeUse := false },
         { v with u8TLBFlush := SVM_TLB_FLUSH_ENTIRE })
    else (c1, v)
  let (c3, v3) :=
    if !fHitASIDLimit && c2.fFlushAsidBeforeUse then
      if flushByAsid vm then
        (c2, { v2 with u8TLBFlush := SVM_TLB_FLUSH_SINGLE_CONTEXT })
      else
        ({ c2 with fFlushAsidBeforeUse := false },
         { v2 with u8TLBFlush := SVM_TLB_FLUSH_ENTIRE })
    else (c2, v2)
  (c3, { v3 with uCurrentAsid := c3.uCurrentAsid, cTlbFlushes := c3.cTlbFlushes })

/-- Flushes the appropriate tagged-TLB entries (`hmR0SvmFlushTaggedTlb`). -/
def hmR0SvmFlushTaggedTlb (vm : VM) (pCpu : HMGLOBLCPUINFO) (pVCpu : VMCPU) :
    FlushResult :=
  let fNew := fNewAsid pCpu pVCpu
  let v1 := if fNew then { pVCpu with fForceTLBFlush := true } else pVCpu
  let v2 := { v1 with fCheckedTLBFlush := true }
  let v3 :=
    if v2.ffTlbFlush then { v2 with ffTlbFlush := false, fForceTLBFlush := true }
    else v2
  let v4 := { v3 with idLastCpu := pCpu.idCpu }
  let v5 := { v4 with u8TLBFlush := SVM_TLB_FLUSH_NOTHING }
  let (c6, v6, inv) : HMGLOBLCPUINFO × VMCPU × List (Nat × Nat) :=
    if vm.fAlwaysFlushTLB then
      ({ pCpu with uCurrentAsid := 1 },
       { v5 with uCurrentAsid := 1, cTlbFlushes := pCpu.cTlbFlushes,
                 u8TLBFlush := SVM_TLB_FLUSH_ENTIRE }, [])
    else if v5.fForceTLBFlush then
      let (c, v) :=
        if fNew then flushNewAsid vm pCpu v5
        else if flushByAsid vm then
          (pCpu, { v5 with u8TLBFlush := SVM_TLB_FLUSH_SINGLE_CONTEXT })
        else (pCpu, { v5 with u8TLBFlush := SVM_TLB_FLUSH_ENTIRE })
      (c, { v with fForceTLBFlush := false }, [])
    else if v5.ffTlbShootdown then
      (pCpu, v5, (List.range v5.cPages).map fun i => (v5.aPages.getD i 0, v5.u32ASID))
    else (pCpu, v5, [])
  let v7 := { v6 with cPages := 0 }
  let v8 := { v7 with ffTlbShootdown := false }
  let v9 := { v8 with u32ASID := v8.uCurrentAsid }
  { cpu := c6, vcpu := v9, invlpga := inv }

/-! ## Virtual CPUs time-sharing one physical CPU -/

/-- One physical CPU, its two registers, and the virtual CPUs scheduled on it. -/
structure World where
  hw : HwState
  cpu : HMGLOBLCPUINFO
  vcpus : Nat → VMCPU

/-- What can happen on the physical CPU: a world switch of virtual CPU `i`
(which runs `hmR0SvmFlushTaggedTlb`), an `SVMR0EnableCpu` or `SVMR0DisableCpu`
call, or paging code elsewhere raising flush requests on virtual CPU `i`. -/
inductive Event where
  | flush (i : Nat)
  | enable (pVM : Option Bool) (pvCpuPage HCPhysCpuPage : Nat) (fEnabledByHost : Bool)
  | disable (pvCpuPage HCPhysCpuPage : Nat)
  | request (i : Nat) (ffTlbFlush fForceTLBFlush ffTlbShootdown : Bool) (pages : List Nat)
  deriving DecidableEq, Repr

/-- Replace the record of virtual CPU `i`. -/
def setVcpu (f : Nat → VMCPU) (i : Nat) (v : VMCPU) : Nat → VMCPU :=
  fun j => if j = i then v else f j

/-- Effect of one event. -/
def step (vm : VM) (w : World) : Event → World
  | Event.flush i =>
    let r := hmR0SvmFlushTaggedTlb vm w.cpu (w.vcpus i)
    { w with cpu := r.cpu, vcpus := setVcpu w.vcpus i r.vcpu }
  | Event.enable pVM pv phys fHost =>
    let r := SVMR0EnableCpu w.hw w.cpu pVM pv phys fHost
    { w with hw := r.2.1, cpu := r.2.2 }
  | Event.disable pv phys =>
    let r := SVMR0DisableCpu w.hw w.cpu pv phys
    { w with hw := r.2.1, cpu := r.2.2 }
  | Event.request i ff force sd pages =>
    let v := w.vcpus i
    let v1 : VMCPU :=
      { v with ffTlbFlush := ff, fForceTLBFlush := force, ffTlbShootdown := sd,
               cPages := pages.length, aPages := pages }
    { w with vcpus := setVcpu w.vcpus i v1 }

/-- Effect of a sequence of events, oldest first. -/
def run (vm : VM) (w : World) (evs : List Event) : World :=
  evs.foldl (step vm) w

/-- Number of events of the sequence that changed the physical CPU's
`cTlbFlushes`. -/
def genIncrements (vm : VM) : World → List Event → Nat
  | _, [] => 0
  | w, e :: evs =>
    (if (step vm w e).cpu.cTlbFlushes = w.cpu.cTlbFlushes then 0 else 1) +
      genIncrements vm (step vm w e) evs

/-- ASID range invariant of physical CPU `id` and of the virtual CPUs that have
run on it: the physical CPU's ASID is below `uMaxAsid`, and as soon as some
virtual CPU records `id` as its last CPU, both ASIDs are in `[1, uMaxAsid)`. -/
def AsidInv (vm : VM) (id : Nat) (w : World) : Prop :=
  w.cpu.idCpu = id ∧ w.cpu.uCurrentAsid < vm.uMaxAsid ∧
  ∀ j, (w.vcpus j).idLastCpu = id →
    1 ≤ w.cpu.uCurrentAsid ∧ 1 ≤ (w.vcpus j).uCurrentAsid ∧
      (w.vcpus j).uCurrentAsid < vm.uMaxAsid

/-- A virtual CPU that has never run: `idLastCpu` is the all-ones CPU id, the
other fields are zero. -/
def neverRun : VMCPU :=
  ⟨0xFFFFFFFF, 0, 0, false, false, false, false, 0, [], SVM_TLB_FLUSH_NOTHING, 0⟩

/-- Physical CPU 0 with AMD-V off, `uCurrentAsid = 0`, and no virtual CPU that
has run yet. -/
def world0 : World := ⟨⟨0, 0⟩, ⟨0, 0, 0, false, false⟩, fun _ => neverRun⟩

/-- Physical CPU 0 at generation 0 with `uCurrentAsid = 1`, and virtual CPUs
that last ran on it at that generation with ASID 1. -/
def worldSync : World :=
  ⟨⟨0, 0⟩, ⟨0, 1, 0, false, false⟩,
   fun _ => ⟨0, 0, 1, false, false, false, false, 0, [], SVM_TLB_FLUSH_NOTHING, 1⟩⟩

/-! ## Ring-0 memory objects -/

/-- Modelled from the spec: `NIL_RTR0MEMOBJ` (IPRT, not part of the sources),
the "unallocated" memory-object handle. -/
def NIL_RTR0MEMOBJ : Nat := 0

/-- Modelled from the spec: `PAGE_SHIFT` (IPRT, not part of the sources); pages
are 4 KiB. -/
def PAGE_SHIFT : Nat := 12

/-- Modelled from the spec: the VMCB (`SVMVMCB`, hardware-defined layout whose
declaration is not part of the sources), as the record of the control-area and
guest-area fields that `SVMR0SetupVM` writes. The page at `pvVmcb` is only
accessed through this type. -/
structure SVMVMCB where
  u16InterceptRdCRx : Nat
  u16InterceptWrCRx : Nat
  u16InterceptRdDRx : Nat
  u16InterceptWrDRx : Nat
  u32InterceptException : Nat
  u32InterceptCtrl1 : Nat
  u32InterceptCtrl2 : Nat
  u1VIrqMasking : Nat
  u1IgnoreTPR : Nat
  u64IOPMPhysAddr : Nat
  u64MSRPMPhysAddr : Nat
  u64LBRVirt : Nat
  u32ASID : Nat
  u64GPAT : Nat
  deriving DecidableEq, Repr

/-- The VMCB read from a page of zero bytes: every field is 0. -/
def vmcbZero : SVMVMCB := ⟨0, 0, 0, 0, 0, 0, 0, 0, 0, 0, 0, 0, 0, 0⟩

/-- Modelled from the spec: the memory-object allocator (IPRT `RTR0MemObj*`,
not part of the sources) and the memory it hands out. Handles are numbered in
allocation order from 1 (`0` is `NIL_RTR0MEMOBJ`); the address of an object is
represented by its handle, so the null pointer is the address of the nil
handle. `pages p` is the content of the object at `p` as a bit string, `vmcbs p`
its content read as a VMCB; `freed` lists the arguments of the
`RTR0MemObjFree` calls, oldest first; `fNullWrite` records a write through the
null pointer. -/
structure R0Mem where
  cAllocs : Nat
  live : Nat → Bool
  cb : Nat → Nat
  freed : List Nat
  pages : Nat → BitMem
  vmcbs : Nat → SVMVMCB
  fNullWrite : Bool

/-- Modelled from the spec: what the allocator answers. `allocRc n` is the
status of the `n`-th `RTR0MemObjAllocCont` call (counted from 0), `physAddr h`
is `RTR0MemObjGetPagePhysAddr(h, 0)`. -/
structure R0MemObjEnv where
  allocRc : Nat → Rc
  physAddr : Nat → Nat

/-- Modelled from the spec: `RTR0MemObjAllocCont` (IPRT, not part of the
sources). Returns the status, the handle stored through `pMemObj`
(`NIL_RTR0MEMOBJ` on failure) and the new allocator state. -/
def RTR0MemObjAllocCont (env : R0MemObjEnv) (st : R0Mem) (cb : Nat) : Rc × Nat × R0Mem :=
  if env.allocRc st.cAllocs = Rc.VINF_SUCCESS then
    (Rc.VINF_SUCCESS, st.cAllocs + 1,
      { st with cAllocs := st.cAllocs + 1,
                live := fun h => if h = st.cAllocs + 1 then true else st.live h,
                cb := fun h => if h = st.cAllocs + 1 then cb else st.cb h })
  else
    (env.allocRc st.cAllocs, NIL_RTR0MEMOBJ, { st with cAllocs := st.cAllocs + 1 })

/-- Modelled from the spec: `RTR0MemObjFree` (IPRT, not part of the sources). -/
def RTR0MemObjFree (st : R0Mem) (h : Nat) : R0Mem :=
  { st with live := fun x => if x = h then false else st.live x,
            freed := st.freed ++ [h] }

/-- Modelled from the spec: `RTR0MemObjAddress` (IPRT, not part of the
sources); the address of an object is represented by its handle. -/
def RTR0MemObjAddress (h : Nat) : Nat := h

/-- Modelled from the spec: `ASMMemZeroPage` (IPRT, not part of the sources):
zeroes the 4096 bytes at `pv`, in both views of that memory. -/
def ASMMemZeroPage (st : R0Mem) (pv : Nat) : R0Mem :=
  if pv = 0 then { st with fNullWrite := true }
  else
    { st with
      pages := fun p => if p = pv then
          (fun b => if b < 4096 * 8 then false else st.pages p b) else st.pages p,
      vmcbs := fun p => if p = pv then vmcbZero else st.vmcbs p }

/-- Modelled from the spec: `ASMMemFill32` (IPRT, not part of the sources):
fills the `cb` bytes at `pv` with the 32-bit value `u32`. -/
def ASMMemFill32 (st : R0Mem) (pv cb u32 : Nat) : R0Mem :=
  if pv = 0 then { st with fNullWrite := true }
  else
    { st with
      pages := fun p => if p = pv then
          (fun b => if b < cb * 8 then u32.testBit (b % 32) else st.pages p b)
        else st.pages p }

/-! ## Per-VM allocation and teardown -/

/-- Modelled from the spec: the `hm.s.svm` part of a virtual CPU (declaration
not part of the sources): for each of the three regions the memory-object
handle, the ring-0 address and the physical address. -/
structure SVMCPU where
  hMemObjVmcbHost : Nat
  pvVmcbHost : Nat
  HCPhysVmcbHost : Nat
  hMemObjVmcb : Nat
  pvVmcb : Nat
  HCPhysVmcb : Nat
  hMemObjMsrBitmap : Nat
  pvMsrBitmap : Nat
  HCPhysMsrBitmap : Nat
  deriving DecidableEq, Repr

/-- Modelled from the spec: the fields of the VM structure (`pVM`, declaration
not part of the sources) that `SVMR0InitVM`, `SVMR0TermVM` and `SVMR0SetupVM`
use. -/
structure VMStructs where
  cCpus : Nat
  aCpus : Nat → SVMCPU
  fNestedPaging : Bool
  fAlwaysFlushTLB : Bool

/-- Replace the record of virtual CPU `i` in `aCpus`. -/
def setCpu (f : Nat → SVMCPU) (i : Nat) (c : SVMCPU) : Nat → SVMCPU :=
  fun j => if j = i then c else f j

/-- Body of the loop of `hmR0SvmFreeStructs` (lines 204-228) for one virtual
CPU. -/
def freeVCpu (st : R0Mem) (c : SVMCPU) : R0Mem × SVMCPU :=
  let (st1, c1) :=
    if c.hMemObjVmcbHost ≠ NIL_RTR0MEMOBJ then
      (RTR0MemObjFree st c.hMemObjVmcbHost,
        { c with pvVmcbHost := 0, HCPhysVmcbHost := 0, hMemObjVmcbHost := NIL_RTR0MEMOBJ })
    else (st, c)
  let (st2, c2) :=
    if c1.hMemObjVmcb ≠ NIL_RTR0MEMOBJ then
      (RTR0MemObjFree st1 c1.hMemObjVmcb,
        { c1 with pvVmcb := 0, HCPhysVmcb := 0, hMemObjVmcb := NIL_RTR0MEMOBJ })
    else (st1, c1)
  if c2.hMemObjMsrBitmap ≠ NIL_RTR0MEMOBJ then
    (RTR0MemObjFree st2 c2.hMemObjMsrBitmap,
      { c2 with pvMsrBitmap := 0, HCPhysMsrBitmap := 0, hMemObjMsrBitmap := NIL_RTR0MEMOBJ })
  else (st2, c2)

/-- The loop of `hmR0SvmFreeStructs`: `n` iterations starting at index `i`. -/
def freeLoop : Nat → Nat → R0Mem → VMStructs → R0Mem × VMStructs
  | 0, _, st, vm => (st, vm)
  | n + 1, i, st, vm =>
    freeLoop n (i + 1) (freeVCpu st (vm.aCpus i)).1
      { vm with aCpus := setCpu vm.aCpus i (freeVCpu st (vm.aCpus i)).2 }

/-- Frees any allocated per-VCPU structures for a VM (`hmR0SvmFreeStructs`;
the callers spell it `hmR0SvmFreeVMStructs`). -/
def hmR0SvmFreeStructs (st : R0Mem) (vm : VMStructs) : R0Mem × VMStructs :=
  freeLoop vm.cCpus 0 st vm

/-- Body of the allocation loop of `SVMR0InitVM` (lines 265-293) for one
virtual CPU; the loop uses `pVCpu` without declaring it, which is read as
`&pVM->aCpus[i]` like in the other loops. The first component is `some rc` when
the body leaves through `goto failure_cleanup`. After the third allocation the
source has `failure_cleanup;` without `goto`, so nothing jumps there. -/
def initVCpu (env : R0MemObjEnv) (st : R0Mem) (c : SVMCPU) : Option Rc × R0Mem × SVMCPU :=
  let a1 := RTR0MemObjAllocCont env st (1 <<< PAGE_SHIFT)
  let c1 := { c with hMemObjVmcbHost := a1.2.1 }
  if a1.1 ≠ Rc.VINF_SUCCESS then (some a1.1, a1.2.2, c1)
  else
    let c2 := { c1 with pvVmcbHost := RTR0MemObjAddress c1.hMemObjVmcbHost,
                        HCPhysVmcbHost := env.physAddr c1.hMemObjVmcbHost }
    let st2 := ASMMemZeroPage a1.2.2 c2.pvVmcbHost
    let a2 := RTR0MemObjAllocCont env st2 (1 <<< PAGE_SHIFT)
    let c3 := { c2 with hMemObjVmcb := a2.2.1 }
    if a2.1 ≠ Rc.VINF_SUCCESS then (some a2.1, a2.2.2, c3)
    else
      let c4 := { c3 with pvVmcb := RTR0MemObjAddress c3.hMemObjVmcb,
                          HCPhysVmcb := env.physAddr c3.hMemObjVmcb }
      let st4 := ASMMemZeroPage a2.2.2 c4.pvVmcb
      let a3 := RTR0MemObjAllocCont env st4 (2 <<< PAGE_SHIFT)
      let c5 := { c4 with hMemObjMsrBitmap := a3.2.1 }
      let c6 := { c5 with pvMsrBitmap := RTR0MemObjAddress c5.hMemObjMsrBitmap,
                          HCPhysMsrBitmap := env.physAddr c5.hMemObjMsrBitmap }
      (none, ASMMemFill32 a3.2.2 c6.pvMsrBitmap (2 <<< PAGE_SHIFT) 0xffffffff, c6)

/-- The allocation loop of `SVMR0InitVM`: `n` iterations starting at index
`i`, left early with `some rc` on `goto failure_cleanup`. -/
def initLoop (env : R0MemObjEnv) : Nat → Nat → R0Mem → VMStructs → Option Rc × R0Mem × VMStructs
  | 0, _, st, vm => (none, st, vm)
  | n + 1, i, st, vm =>
    match (initVCpu env st (vm.aCpus i)).1 with
    | some rc =>
      (some rc, (initVCpu env st (vm.aCpus i)).2.1,
        { vm with aCpus := setCpu vm.aCpus i (initVCpu env st (vm.aCpus i)).2.2 })
    | none =>
      initLoop env n (i + 1) (initVCpu env st (vm.aCpus i)).2.1
        { vm with aCpus := setCpu vm.aCpus i (initVCpu env st (vm.aCpus i)).2.2 }

/-- The first loop of `SVMR0InitVM` (lines 254-260): the three handles of every
virtual CPU below `cCpus` are set to `NIL_RTR0MEMOBJ`. -/
def nilHandles (vm : VMStructs) : VMStructs :=
  { vm with aCpus := fun i =>
      if i < vm.cCpus then
        { vm.aCpus i with hMemObjVmcbHost := NIL_RTR0MEMOBJ, hMemObjVmcb := NIL_RTR0MEMOBJ,
                          hMemObjMsrBitmap := NIL_RTR0MEMOBJ }
      else vm.aCpus i }

/-- Lines 247-251 of `SVMR0InitVM`: the erratum 170 check; `fErratum170` is the
answer of `HMAmdIsSubjectToErratum170`. -/
def checkErratum170 (fErratum170 : Bool) (vm : VMStructs) : VMStructs :=
  if fErratum170 then { vm with fAlwaysFlushTLB := true } else vm

/-- Does per-VM AMD-V initialization (`SVMR0InitVM`). -/
def SVMR0InitVM (env : R0MemObjEnv) (fErratum170 : Bool) (st : R0Mem) (vm : VMStructs) :
    Rc × R0Mem × VMStructs :=
  let vm2 := nilHandles (checkErratum170 fErratum170 vm)
  match initLoop env vm2.cCpus 0 st vm2 with
  | (none, st1, vm3) => (Rc.VINF_SUCCESS, st1, vm3)
  | (some rc, st1, vm3) => (rc, (hmR0SvmFreeStructs st1 vm3).1, (hmR0SvmFreeStructs st1 vm3).2)

/-- Does per-VM AMD-V termination (`SVMR0TermVM`). -/
def SVMR0TermVM (st : R0Mem) (vm : VMStructs) : Rc × R0Mem × VMStructs :=
  (Rc.VINF_SUCCESS, (hmR0SvmFreeStructs st vm).1, (hmR0SvmFreeStructs st vm).2)

/-- The non-nil handles a virtual CPU holds, in the order in which
`hmR0SvmFreeStructs` looks at them. -/
def cpuHandles (c : SVMCPU) : List Nat :=
  [c.hMemObjVmcbHost, c.hMemObjVmcb, c.hMemObjMsrBitmap].filter (· ≠ NIL_RTR0MEMOBJ)

/-- The non-nil handles of the virtual CPUs `i, i+1, ..., i+n-1`. -/
def vmHandlesFrom (vm : VMStructs) : Nat → Nat → List Nat
  | 0, _ => []
  | n + 1, i => cpuHandles (vm.aCpus i) ++ vmHandlesFrom vm n (i + 1)

/-- The non-nil handles of all virtual CPUs of the VM. -/
def vmHandles (vm : VMStructs) : List Nat := vmHandlesFrom vm vm.cCpus 0

/-- A memory state with nothing allocated. -/
def mem0 : R0Mem :=
  ⟨0, fun _ => false, fun _ => 0, [], fun _ _ => false, fun _ => vmcbZero, false⟩

/-- A VM structure with `n` virtual CPUs and all fields zero. -/
def vmBlank (n : Nat) : VMStructs :=
  ⟨n, fun _ => ⟨0, 0, 0, 0, 0, 0, 0, 0, 0⟩, false, false⟩

/-- An allocator whose `k`-th call (counted from 0) fails with `VERR_NO_MEMORY`
and whose physical addresses are `0x1000 * handle`. -/
def envFailAt (k : Nat) : R0MemObjEnv :=
  ⟨fun n => if n = k then Rc.VERR_NO_MEMORY else Rc.VINF_SUCCESS, fun h => 0x1000 * h⟩

/-- An allocator that never fails; physical addresses are `0x1000 * handle`. -/
def envOk : R0MemObjEnv := ⟨fun _ => Rc.VINF_SUCCESS, fun h => 0x1000 * h⟩

/-! ## VMCB configuration -/

/-- Modelled from the spec: the macro `RT_BIT` (IPRT, not part of the sources). -/
def RT_BIT (n : Nat) : Nat := 1 <<< n

/-- Modelled from the spec: `X86_XCPT_DE` (x86 header, not part of the sources), vector 0. -/
def X86_XCPT_DE : Nat := 0
/-- Modelled from the spec: `X86_XCPT_DB` (x86 header, not part of the sources), vector 1. -/
def X86_XCPT_DB : Nat := 1
/-- Modelled from the spec: `X86_XCPT_BP` (x86 header, not part of the sources), vector 3. -/
def X86_XCPT_BP : Nat := 3
/-- Modelled from the spec: `X86_XCPT_UD` (x86 header, not part of the sources), vector 6. -/
def X86_XCPT_UD : Nat := 6
/-- Modelled from the spec: `X86_XCPT_NM` (x86 header, not part of the sources), vector 7. -/
def X86_XCPT_NM : Nat := 7
/-- Modelled from the spec: `X86_XCPT_NP` (x86 header, not part of the sources), vector 11. -/
def X86_XCPT_NP : Nat := 11
/-- Modelled from the spec: `X86_XCPT_SS` (x86 header, not part of the sources), vector 12. -/
def X86_XCPT_SS : Nat := 12
/-- Modelled from the spec: `X86_XCPT_GP` (x86 header, not part of the sources), vector 13. -/
def X86_XCPT_GP : Nat := 13
/-- Modelled from the spec: `X86_XCPT_PF` (x86 header, not part of the sources), the
page-fault vector 14. -/
def X86_XCPT_PF : Nat := 14
/-- Modelled from the spec: `X86_XCPT_MF` (x86 header, not part of the sources), vector 16. -/
def X86_XCPT_MF : Nat := 16

/-- Modelled from the spec: `SVM_CTRL1_INTERCEPT_INTR` (SVM header, not part of the
sources), bit 0 of the first intercept-control word of the VMCB. -/
def SVM_CTRL1_INTERCEPT_INTR : Nat := RT_BIT 0
/-- Modelled from the spec: `SVM_CTRL1_INTERCEPT_NMI` (SVM header, not part of the sources), bit 1. -/
def SVM_CTRL1_INTERCEPT_NMI : Nat := RT_BIT 1
/-- Modelled from the spec: `SVM_CTRL1_INTERCEPT_SMI` (SVM header, not part of the sources), bit 2. -/
def SVM_CTRL1_INTERCEPT_SMI : Nat := RT_BIT 2
/-- Modelled from the spec: `SVM_CTRL1_INTERCEPT_INIT` (SVM header, not part of the sources), bit 3. -/
def SVM_CTRL1_INTERCEPT_INIT : Nat := RT_BIT 3
/-- Modelled from the spec: `SVM_CTRL1_INTERCEPT_VINTR` (SVM header, not part of the sources), bit 4. -/
def SVM_CTRL1_INTERCEPT_VINTR : Nat := RT_BIT 4
/-- Modelled from the spec: `SVM_CTRL1_INTERCEPT_RDPMC` (SVM header, not part of the sources), bit 15. -/
def SVM_CTRL1_INTERCEPT_RDPMC : Nat := RT_BIT 15
/-- Modelled from the spec: `SVM_CTRL1_INTERCEPT_CPUID` (SVM header, not part of the sources), bit 18. -/
def SVM_CTRL1_INTERCEPT_CPUID : Nat := RT_BIT 18
/-- Modelled from the spec: `SVM_CTRL1_INTERCEPT_RSM` (SVM header, not part of the sources), bit 19. -/
def SVM_CTRL1_INTERCEPT_RSM : Nat := RT_BIT 19
/-- Modelled from the spec: `SVM_CTRL1_INTERCEPT_HLT` (SVM header, not part of the sources), bit 24. -/
def SVM_CTRL1_INTERCEPT_HLT : Nat := RT_BIT 24
/-- Modelled from the spec: `SVM_CTRL1_INTERCEPT_INVLPG` (SVM header, not part of the sources), bit 25. -/
def SVM_CTRL1_INTERCEPT_INVLPG : Nat := RT_BIT 25
/-- Modelled from the spec: `SVM_CTRL1_INTERCEPT_INVLPGA` (SVM header, not part of the sources), bit 26. -/
def SVM_CTRL1_INTERCEPT_INVLPGA : Nat := RT_BIT 26
/-- Modelled from the spec: `SVM_CTRL1_INTERCEPT_INOUT_BITMAP` (SVM header, not part of the
sources), bit 27. -/
def SVM_CTRL1_INTERCEPT_INOUT_BITMAP : Nat := RT_BIT 27
/-- Modelled from the spec: `SVM_CTRL1_INTERCEPT_MSR_SHADOW` (SVM header, not part of the
sources), bit 28. -/
def SVM_CTRL1_INTERCEPT_MSR_SHADOW : Nat := RT_BIT 28
/-- Modelled from the spec: `SVM_CTRL1_INTERCEPT_TASK_SWITCH` (SVM header, not part of the
sources), bit 29. -/
def SVM_CTRL1_INTERCEPT_TASK_SWITCH : Nat := RT_BIT 29
/-- Modelled from the spec: `SVM_CTRL1_INTERCEPT_FERR_FREEZE` (SVM header, not part of the
sources), bit 30. -/
def SVM_CTRL1_INTERCEPT_FERR_FREEZE : Nat := RT_BIT 30
/-- Modelled from the spec: `SVM_CTRL1_INTERCEPT_SHUTDOWN` (SVM header, not part of the
sources), bit 31. -/
def SVM_CTRL1_INTERCEPT_SHUTDOWN : Nat := RT_BIT 31

/-- Modelled from the spec: `SVM_CTRL2_INTERCEPT_VMRUN` (SVM header, not part of the sources),
bit 0 of the second intercept-control word of the VMCB. -/
def SVM_CTRL2_INTERCEPT_VMRUN : Nat := RT_BIT 0
/-- Modelled from the spec: `SVM_CTRL2_INTERCEPT_VMMCALL` (SVM header, not part of the sources), bit 1. -/
def SVM_CTRL2_INTERCEPT_VMMCALL : Nat := RT_BIT 1
/-- Modelled from the spec: `SVM_CTRL2_INTERCEPT_VMLOAD` (SVM header, not part of the sources), bit 2. -/
def SVM_CTRL2_INTERCEPT_VMLOAD : Nat := RT_BIT 2
/-- Modelled from the spec: `SVM_CTRL2_INTERCEPT_VMSAVE` (SVM header, not part of the sources), bit 3. -/
def SVM_CTRL2_INTERCEPT_VMSAVE : Nat := RT_BIT 3
/-- Modelled from the spec: `SVM_CTRL2_INTERCEPT_STGI` (SVM header, not part of the sources), bit 4. -/
def SVM_CTRL2_INTERCEPT_STGI : Nat := RT_BIT 4
/-- Modelled from the spec: `SVM_CTRL2_INTERCEPT_CLGI` (SVM header, not part of the sources), bit 5. -/
def SVM_CTRL2_INTERCEPT_CLGI : Nat := RT_BIT 5
/-- Modelled from the spec: `SVM_CTRL2_INTERCEPT_SKINIT` (SVM header, not part of the sources), bit 6. -/
def SVM_CTRL2_INTERCEPT_SKINIT : Nat := RT_BIT 6
/-- Modelled from the spec: `SVM_CTRL2_INTERCEPT_WBINVD` (SVM header, not part of the sources), bit 9. -/
def SVM_CTRL2_INTERCEPT_WBINVD : Nat := RT_BIT 9
/-- Modelled from the spec: `SVM_CTRL2_INTERCEPT_MONITOR` (SVM header, not part of the sources), bit 10. -/
def SVM_CTRL2_INTERCEPT_MONITOR : Nat := RT_BIT 10
/-- Modelled from the spec: `SVM_CTRL2_INTERCEPT_MWAIT_UNCOND` (SVM header, not part of the
sources), bit 11. -/
def SVM_CTRL2_INTERCEPT_MWAIT_UNCOND : Nat := RT_BIT 11

/-- Modelled from the spec: `MSR_K6_STAR` (x86 header, not part of the sources). -/
def MSR_K6_STAR : Nat := 0xC0000081
/-- Modelled from the spec: `MSR_K8_LSTAR` (x86 header, not part of the sources). -/
def MSR_K8_LSTAR : Nat := 0xC0000082
/-- Modelled from the spec: `MSR_K8_CSTAR` (x86 header, not part of the sources). -/
def MSR_K8_CSTAR : Nat := 0xC0000083
/-- Modelled from the spec: `MSR_K8_SF_MASK` (x86 header, not part of the sources). -/
def MSR_K8_SF_MASK : Nat := 0xC0000084
/-- Modelled from the spec: `MSR_K8_FS_BASE` (x86 header, not part of the sources). -/
def MSR_K8_FS_BASE : Nat := 0xC0000100
/-- Modelled from the spec: `MSR_K8_GS_BASE` (x86 header, not part of the sources). -/
def MSR_K8_GS_BASE : Nat := 0xC0000101
/-- Modelled from the spec: `MSR_K8_KERNEL_GS_BASE` (x86 header, not part of the sources). -/
def MSR_K8_KERNEL_GS_BASE : Nat := 0xC0000102
/-- Modelled from the spec: `MSR_IA32_SYSENTER_CS` (x86 header, not part of the sources). -/
def MSR_IA32_SYSENTER_CS : Nat := 0x174
/-- Modelled from the spec: `MSR_IA32_SYSENTER_ESP` (x86 header, not part of the sources). -/
def MSR_IA32_SYSENTER_ESP : Nat := 0x175
/-- Modelled from the spec: `MSR_IA32_SYSENTER_EIP` (x86 header, not part of the sources). -/
def MSR_IA32_SYSENTER_EIP : Nat := 0x176

/-- The writes of `SVMR0SetupVM` to one VMCB (lines 338-428). `fDebug` says
whether `DEBUG_ramshankar` is defined, which defines `HMSVM_ALWAYS_TRAP_PF` and
`HMSVM_ALWAYS_TRAP_ALL_XCPTS`. -/
def setupVmcb (fDebug fNestedPaging : Bool) (HCPhysIOBitmap HCPhysMsrBitmap : Nat)
    (v : SVMVMCB) : SVMVMCB :=
  let v1 :=
    if fDebug then
      { v with u32InterceptException := v.u32InterceptException ||| RT_BIT X86_XCPT_PF }
    else v
  let v2 :=
    if fDebug then
      { v1 with u32InterceptException := v1.u32InterceptException |||
          (RT_BIT X86_XCPT_BP ||| RT_BIT X86_XCPT_DB ||| RT_BIT X86_XCPT_DE |||
           RT_BIT X86_XCPT_NM ||| RT_BIT X86_XCPT_UD ||| RT_BIT X86_XCPT_NP |||
           RT_BIT X86_XCPT_SS ||| RT_BIT X86_XCPT_GP ||| RT_BIT X86_XCPT_PF |||
           RT_BIT X86_XCPT_MF) }
    else v1
  let v3 :=
    { v2 with
      u32InterceptCtrl1 :=
        SVM_CTRL1_INTERCEPT_INTR ||| SVM_CTRL1_INTERCEPT_VINTR ||| SVM_CTRL1_INTERCEPT_NMI |||
        SVM_CTRL1_INTERCEPT_SMI ||| SVM_CTRL1_INTERCEPT_INIT ||| SVM_CTRL1_INTERCEPT_RDPMC |||
        SVM_CTRL1_INTERCEPT_CPUID ||| SVM_CTRL1_INTERCEPT_RSM ||| SVM_CTRL1_INTERCEPT_HLT |||
        SVM_CTRL1_INTERCEPT_INOUT_BITMAP ||| SVM_CTRL1_INTERCEPT_MSR_SHADOW |||
        SVM_CTRL1_INTERCEPT_INVLPGA ||| SVM_CTRL1_INTERCEPT_SHUTDOWN |||
        SVM_CTRL1_INTERCEPT_FERR_FREEZE
      u32InterceptCtrl2 :=
        SVM_CTRL2_INTERCEPT_VMRUN ||| SVM_CTRL2_INTERCEPT_VMMCALL ||| SVM_CTRL2_INTERCEPT_VMLOAD |||
        SVM_CTRL2_INTERCEPT_VMSAVE ||| SVM_CTRL2_INTERCEPT_STGI ||| SVM_CTRL2_INTERCEPT_CLGI |||
        SVM_CTRL2_INTERCEPT_SKINIT ||| SVM_CTRL2_INTERCEPT_WBINVD |||
        SVM_CTRL2_INTERCEPT_MONITOR ||| SVM_CTRL2_INTERCEPT_MWAIT_UNCOND
      u16InterceptRdCRx := RT_BIT 0 ||| RT_BIT 4
      u16InterceptWrCRx := RT_BIT 0 ||| RT_BIT 4
      u16InterceptRdDRx := 0xffff
      u16InterceptWrDRx := 0xffff
      u1VIrqMasking := 1
      u1IgnoreTPR := 1
      u64IOPMPhysAddr := HCPhysIOBitmap
      u64MSRPMPhysAddr := HCPhysMsrBitmap
      u64LBRVirt := 0
      u32ASID := 1
      u64GPAT := 0x0006060606060606 }
  if !fNestedPaging then
    { v3 with
      u16InterceptRdCRx := v3.u16InterceptRdCRx ||| RT_BIT 3
      u16InterceptWrCRx := v3.u16InterceptWrCRx ||| RT_BIT 3
      u32InterceptCtrl1 := v3.u32InterceptCtrl1 |||
        (SVM_CTRL1_INTERCEPT_INVLPG ||| SVM_CTRL1_INTERCEPT_TASK_SWITCH)
      u32InterceptException := v3.u32InterceptException ||| RT_BIT X86_XCPT_PF }
  else v3

/-- A call `hmR0SvmSetMSRPermission(pVCpu, uMsr, enmRead, enmWrite)` for a
virtual CPU whose `pvMsrBitmap` is `pv`. -/
def hmR0SvmSetMSRPermissionAt (st : R0Mem) (pv uMsr : Nat)
    (enmRead : SVMMSREXITREAD) (enmWrite : SVMMSREXITWRITE) : R0Mem :=
  if pv = 0 then { st with fNullWrite := true }
  else
    { st with pages := fun p =>
        if p = pv then hmR0SvmSetMSRPermission (st.pages p) uMsr enmRead enmWrite
        else st.pages p }

/-- Lines 434-443 of `SVMR0SetupVM`: the ten pass-through MSRs, in the order of
the source. -/
def setupMsrPassthru (st : R0Mem) (pv : Nat) : R0Mem :=
  let s1 := hmR0SvmSetMSRPermissionAt st pv MSR_K8_LSTAR
    SVMMSREXIT_PASSTHRU_READ SVMMSREXIT_PASSTHRU_WRITE
  let s2 := hmR0SvmSetMSRPermissionAt s1 pv MSR_K8_CSTAR
    SVMMSREXIT_PASSTHRU_READ SVMMSREXIT_PASSTHRU_WRITE
  let s3 := hmR0SvmSetMSRPermissionAt s2 pv MSR_K6_STAR
    SVMMSREXIT_PASSTHRU_READ SVMMSREXIT_PASSTHRU_WRITE
  let s4 := hmR0SvmSetMSRPermissionAt s3 pv MSR_K8_SF_MASK
    SVMMSREXIT_PASSTHRU_READ SVMMSREXIT_PASSTHRU_WRITE
  let s5 := hmR0SvmSetMSRPermissionAt s4 pv MSR_K8_FS_BASE
    SVMMSREXIT_PASSTHRU_READ SVMMSREXIT_PASSTHRU_WRITE
  let s6 := hmR0SvmSetMSRPermissionAt s5 pv MSR_K8_GS_BASE
    SVMMSREXIT_PASSTHRU_READ SVMMSREXIT_PASSTHRU_WRITE
  let s7 := hmR0SvmSetMSRPermissionAt s6 pv MSR_K8_KERNEL_GS_BASE
    SVMMSREXIT_PASSTHRU_READ SVMMSREXIT_PASSTHRU_WRITE
  let s8 := hmR0SvmSetMSRPermissionAt s7 pv MSR_IA32_SYSENTER_CS
    SVMMSREXIT_PASSTHRU_READ SVMMSREXIT_PASSTHRU_WRITE
  let s9 := hmR0SvmSetMSRPermissionAt s8 pv MSR_IA32_SYSENTER_ESP
    SVMMSREXIT_PASSTHRU_READ SVMMSREXIT_PASSTHRU_WRITE
  hmR0SvmSetMSRPermissionAt s9 pv MSR_IA32_SYSENTER_EIP
    SVMMSREXIT_PASSTHRU_READ SVMMSREXIT_PASSTHRU_WRITE

/-- Body of the loop of `SVMR0SetupVM` (lines 333-443) for one virtual CPU; the
first component is `some rc` when the body returns `rc` from the function. -/
def setupVCpu (fDebug : Bool) (HCPhysIOBitmap : Nat) (vm : VMStructs) (st : R0Mem)
    (c : SVMCPU) : Option Rc × R0Mem :=
  if c.pvVmcb = 0 then (some Rc.VERR_SVM_INVALID_PVMCB, st)
  else
    let st1 : R0Mem :=
      { st with vmcbs := fun p =>
          if p = c.pvVmcb then
            setupVmcb fDebug vm.fNestedPaging HCPhysIOBitmap c.HCPhysMsrBitmap (st.vmcbs p)
          else st.vmcbs p }
    (none, setupMsrPassthru st1 c.pvMsrBitmap)

/-- The loop of `SVMR0SetupVM`: `n` iterations starting at index `i`. -/
def setupLoop (fDebug : Bool) (HCPhysIOBitmap : Nat) (vm : VMStructs) :
    Nat → Nat → R0Mem → Option Rc × R0Mem
  | 0, _, st => (none, st)
  | n + 1, i, st =>
    match (setupVCpu fDebug HCPhysIOBitmap vm st (vm.aCpus i)).1 with
    | some rc => (some rc, (setupVCpu fDebug HCPhysIOBitmap vm st (vm.aCpus i)).2)
    | none =>
      setupLoop fDebug HCPhysIOBitmap vm n (i + 1)
        (setupVCpu fDebug HCPhysIOBitmap vm st (vm.aCpus i)).2

/-- Sets up AMD-V for the specified VM (`SVMR0SetupVM`). `pVM = none` is the
null pointer, `HCPhysIOBitmap` is the global `g_HCPhysIOBitmap`. -/
def SVMR0SetupVM (fDebug : Bool) (HCPhysIOBitmap : Nat) (st : R0Mem)
    (pVM : Option VMStructs) : Rc × R0Mem :=
  match pVM with
  | none => (Rc.VERR_INVALID_PARAMETER, st)
  | some vm =>
    match setupLoop fDebug HCPhysIOBitmap vm vm.cCpus 0 st with
    | (some rc, st1) => (rc, st1)
    | (none, st1) => (Rc.VINF_SUCCESS, st1)

/-- The ten MSRs `SVMR0SetupVM` passes through, in the order of the calls. -/
def msrAllowlist : List Nat :=
  [MSR_K8_LSTAR, MSR_K8_CSTAR, MSR_K6_STAR, MSR_K8_SF_MASK, MSR_K8_FS_BASE, MSR_K8_GS_BASE,
   MSR_K8_KERNEL_GS_BASE, MSR_IA32_SYSENTER_CS, MSR_IA32_SYSENTER_ESP, MSR_IA32_SYSENTER_EIP]

/-- The ten pass-through calls of `SVMR0SetupVM` applied to one bitmap. -/
def setupMsrBitmap (mem : BitMem) : BitMem :=
  msrAllowlist.foldl
    (fun m uMsr => hmR0SvmSetMSRPermission m uMsr SVMMSREXIT_PASSTHRU_READ
      SVMMSREXIT_PASSTHRU_WRITE) mem

/-! ## Per-VM structures: specification helpers -/

/-- The record `hmR0SvmFreeStructs` leaves for a virtual CPU: every handle nil,
and the two addresses of a region zeroed when its handle was not nil. -/
def freedCpu (c : SVMCPU) : SVMCPU :=
  { hMemObjVmcbHost := NIL_RTR0MEMOBJ
    pvVmcbHost := if c.hMemObjVmcbHost ≠ NIL_RTR0MEMOBJ then 0 else c.pvVmcbHost
    HCPhysVmcbHost := if c.hMemObjVmcbHost ≠ NIL_RTR0MEMOBJ then 0 else c.HCPhysVmcbHost
    hMemObjVmcb := NIL_RTR0MEMOBJ
    pvVmcb := if c.hMemObjVmcb ≠ NIL_RTR0MEMOBJ then 0 else c.pvVmcb
    HCPhysVmcb := if c.hMemObjVmcb ≠ NIL_RTR0MEMOBJ then 0 else c.HCPhysVmcb
    hMemObjMsrBitmap := NIL_RTR0MEMOBJ
    pvMsrBitmap := if c.hMemObjMsrBitmap ≠ NIL_RTR0MEMOBJ then 0 else c.pvMsrBitmap
    HCPhysMsrBitmap := if c.hMemObjMsrBitmap ≠ NIL_RTR0MEMOBJ then 0 else c.HCPhysMsrBitmap }

/-- The record of a virtual CPU whose three regions were allocated, in order,
by the allocation calls number `a`, `a + 1` and `a + 2`. -/
def initCpuAt (env : R0MemObjEnv) (a : Nat) : SVMCPU :=
  { hMemObjVmcbHost := a + 1
    pvVmcbHost := RTR0MemObjAddress (a + 1)
    HCPhysVmcbHost := env.physAddr (a + 1)
    hMemObjVmcb := a + 2
    pvVmcb := RTR0MemObjAddress (a + 2)
    HCPhysVmcb := env.physAddr (a + 2)
    hMemObjMsrBitmap := a + 3
    pvMsrBitmap := RTR0MemObjAddress (a + 3)
    HCPhysMsrBitmap := env.physAddr (a + 3) }

/-- The three regions handed out by the allocation calls `a`, `a + 1`, `a + 2`
are allocated with sizes 4 KiB, 4 KiB and 8 KiB, the first two are zero and
every bit of the third is set. -/
def RegionsOk (st : R0Mem) (a : Nat) : Prop :=
  st.live (a + 1) = true ∧ st.live (a + 2) = true ∧ st.live (a + 3) = true ∧
  st.cb (a + 1) = 0x1000 ∧ st.cb (a + 2) = 0x1000 ∧ st.cb (a + 3) = 0x2000 ∧
  (∀ b, b < 0x1000 * 8 → st.pages (a + 1) b = false) ∧
  (∀ b, b < 0x1000 * 8 → st.pages (a + 2) b = false) ∧
  st.vmcbs (a + 2) = vmcbZero ∧
  (∀ b, b < 0x2000 * 8 → st.pages (a + 3) b = true)

/-- The memory objects with handle at most `a` are the same in both states. -/
def MemAgreeUpTo (st st1 : R0Mem) (a : Nat) : Prop :=
  ∀ p, p ≤ a → st1.live p = st.live p ∧ st1.cb p = st.cb p ∧
    st1.pages p = st.pages p ∧ st1.vmcbs p = st.vmcbs p

/-- Every region of the virtual CPU whose handle is nil has null addresses. -/
def nilSlotsNull (c : SVMCPU) : Prop :=
  (c.hMemObjVmcbHost = NIL_RTR0MEMOBJ → c.pvVmcbHost = 0 ∧ c.HCPhysVmcbHost = 0) ∧
  (c.hMemObjVmcb = NIL_RTR0MEMOBJ → c.pvVmcb = 0 ∧ c.HCPhysVmcb = 0) ∧
  (c.hMemObjMsrBitmap = NIL_RTR0MEMOBJ → c.pvMsrBitmap = 0 ∧ c.HCPhysMsrBitmap = 0)

/-- A partially initialized VM: virtual CPU 0 holds regions 1, 2, 3 and virtual
CPU 1 only its host-save area, region 4. -/
def vmPartial : VMStructs :=
  ⟨2, fun i => if i = 0 then ⟨1, 1, 0x1000, 2, 2, 0x2000, 3, 3, 0x3000⟩
    else ⟨4, 4, 0x4000, 0, 0, 0, 0, 0, 0⟩, false, false⟩

/-- A memory state in which regions 1 to 4 are allocated. -/
def memPartial : R0Mem :=
  ⟨4, fun h => decide (1 ≤ h ∧ h ≤ 4), fun _ => 0x1000, [], fun _ _ => false,
    fun _ => vmcbZero, false⟩

/-! ## Module initialization -/

/-- The three global variables of the file (lines 64-69). -/
structure Globals where
  g_hMemObjIOBitmap : Nat
  g_HCPhysIOBitmap : Nat
  g_pvIOBitmap : Nat
  deriving DecidableEq, Repr

/-- Does global AMD-V initialization (`SVMR0GlobalInit`). The first component
is the value returned: `some rc` for `return rc;` at line 170, `none` when
control reaches the closing brace at line 177, which no `return` statement
precedes. The fill at line 176 names `pVM->hm.s.svm.pvIOBitmap` in a function
without `pVM`; it is read as `g_pvIOBitmap`, the address assigned at line 172. -/
def SVMR0GlobalInit (env : R0MemObjEnv) (st : R0Mem) (g : Globals) :
    Option Rc × R0Mem × Globals :=
  let a := RTR0MemObjAllocCont env st (3 <<< PAGE_SHIFT)
  let g1 := { g with g_hMemObjIOBitmap := a.2.1 }
  if a.1 ≠ Rc.VINF_SUCCESS then (some a.1, a.2.2, g1)
  else
    let g2 := { g1 with g_pvIOBitmap := RTR0MemObjAddress g1.g_hMemObjIOBitmap }
    let g3 := { g2 with g_HCPhysIOBitmap := env.physAddr g2.g_hMemObjIOBitmap }
    (none, ASMMemFill32 a.2.2 g3.g_pvIOBitmap (3 <<< PAGE_SHIFT) 0xffffffff, g3)

/-- The globals as the file initializes them (lines 65-69). -/
def globals0 : Globals := ⟨NIL_RTR0MEMOBJ, 0, 0⟩

/-! ## Virtual CPUs on several physical CPUs -/

/-- Several physical CPUs and the virtual CPUs of one VM: `cpus k` is the
record `HMR0GetCurrentCpu` returns on physical CPU `k`, `hws k` are the two
registers of that CPU. -/
structure Machine where
  hws : Nat → HwState
  cpus : Nat → HMGLOBLCPUINFO
  vcpus : Nat → VMCPU

/-- What can happen on the machine: a world switch of virtual CPU `i` on
physical CPU `k` (which runs `hmR0SvmFlushTaggedTlb`), an `SVMR0EnableCpu` or
`SVMR0DisableCpu` call on physical CPU `k`, or code elsewhere raising flush
requests on virtual CPU `i` (a request sets flags and never clears one). -/
inductive MEvent where
  | flush (k i : Nat)
  | enable (k : Nat) (pVM : Option Bool) (pvCpuPage HCPhysCpuPage : Nat) (fEnabledByHost : Bool)
  | disable (k : Nat) (pvCpuPage HCPhysCpuPage : Nat)
  | request (i : Nat) (ffTlbFlush fForceTLBFlush ffTlbShootdown : Bool) (pages : List Nat)
  deriving DecidableEq, Repr

/-- Replace the record of physical CPU `k`. -/
def setCpuInfo (f : Nat → HMGLOBLCPUINFO) (k : Nat) (c : HMGLOBLCPUINFO) :
    Nat → HMGLOBLCPUINFO :=
  fun j => if j = k then c else f j

/-- Replace the registers of physical CPU `k`. -/
def setHw (f : Nat → HwState) (k : Nat) (h : HwState) : Nat → HwState :=
  fun j => if j = k then h else f j

/-- Effect of one event on the machine. -/
def mstep (vm : VM) (m : Machine) : MEvent → Machine
  | MEvent.flush k i =>
    let r := hmR0SvmFlushTaggedTlb vm (m.cpus k) (m.vcpus i)
    { m with cpus := setCpuInfo m.cpus k r.cpu, vcpus := setVcpu m.vcpus i r.vcpu }
  | MEvent.enable k pVM pv phys fHost =>
    let r := SVMR0EnableCpu (m.hws k) (m.cpus k) pVM pv phys fHost
    { m with hws := setHw m.hws k r.2.1, cpus := setCpuInfo m.cpus k r.2.2 }
  | MEvent.disable k pv phys =>
    let r := SVMR0DisableCpu (m.hws k) (m.cpus k) pv phys
    { m with hws := setHw m.hws k r.2.1, cpus := setCpuInfo m.cpus k r.2.2 }
  | MEvent.request i ff force sd pages =>
    let v := m.vcpus i
    let v1 : VMCPU :=
      { v with ffTlbFlush := v.ffTlbFlush || ff, fForceTLBFlush := v.fForceTLBFlush || force,
               ffTlbShootdown := v.ffTlbShootdown || sd,
               cPages := pages.length, aPages := pages }
    { m with vcpus := setVcpu m.vcpus i v1 }

/-- Effect of a sequence of events on the machine, oldest first. -/
def mrun (vm : VM) (m : Machine) (evs : List MEvent) : Machine :=
  evs.foldl (mstep vm) m

/-- Virtual CPU `i` is current on physical CPU `k`: its `idLastCpu` is the id
of that CPU and its generation snapshot equals the CPU's `cTlbFlushes`, so the
migration/generation test of `hmR0SvmFlushTaggedTlb` would not fire. -/
def currentOn (m : Machine) (k i : Nat) : Prop :=
  (m.vcpus i).idLastCpu = (m.cpus k).idCpu ∧ (m.vcpus i).cTlbFlushes = (m.cpus k).cTlbFlushes

instance (m : Machine) (k i : Nat) : Decidable (currentOn m k i) := by
  unfold currentOn; infer_instance

/-- No event of the sequence makes the 64-bit `cTlbFlushes` of physical CPU
`k` wrap around: the counter is never smaller after an event than before. -/
def genNeverWraps (vm : VM) (k : Nat) : Machine → List MEvent → Bool
  | _, [] => true
  | m, e :: evs =>
    decide ((m.cpus k).cTlbFlushes ≤ ((mstep vm m e).cpus k).cTlbFlushes) &&
      genNeverWraps vm k (mstep vm m e) evs

/-- ASID uniqueness invariant of physical CPU `k`: record `k1` carries id
`k1`; no virtual CPU that last ran on `k` holds a snapshot ahead of the CPU's
generation; a virtual CPU current on `k` holds an ASID not above the CPU's,
which is then below `2 ^ 32 - 1`; and two different virtual CPUs current on `k`
hold different ASIDs. -/
def UniqInv (k : Nat) (m : Machine) : Prop :=
  (∀ k1, (m.cpus k1).idCpu = k1) ∧
  (∀ j, (m.vcpus j).idLastCpu = k → (m.vcpus j).cTlbFlushes ≤ (m.cpus k).cTlbFlushes) ∧
  (∀ j, currentOn m k j →
    (m.vcpus j).uCurrentAsid ≤ (m.cpus k).uCurrentAsid ∧
      (m.cpus k).uCurrentAsid + 1 < 2 ^ 32) ∧
  (∀ i j, i ≠ j → currentOn m k i → currentOn m k j →
    (m.vcpus i).uCurrentAsid ≠ (m.vcpus j).uCurrentAsid)

/-- Physical CPUs with AMD-V off, `uCurrentAsid = 0` and generation 0, and
virtual CPUs that have never run. -/
def machine0 : Machine :=
  ⟨fun _ => ⟨0, 0⟩, fun k => ⟨k, 0, 0, false, false⟩, fun _ => neverRun⟩

/-- Physical CPUs at ASID 2 and generation 4; virtual CPU 0 last ran on
physical CPU 0 but holds generation snapshot 5 and ASID 1; the other virtual
CPUs last ran on physical CPU 9 at generation 0. No virtual CPU is current on
any physical CPU. -/
def machineAhead : Machine :=
  ⟨fun _ => ⟨0x1000, 0⟩, fun k => ⟨k, 2, 4, false, false⟩,
   fun i => if i = 0 then
       ⟨0, 5, 1, false, false, false, false, 0, [], SVM_TLB_FLUSH_NOTHING, 1⟩
     else ⟨9, 0, 0, false, false, false, false, 0, [], SVM_TLB_FLUSH_NOTHING, 0⟩⟩

/-! ## MSR permission bitmap: lemmas -/

/-- Pointwise description of the memory after `hmR0SvmSetMSRPermission`, for an
MSR whose range dispatch selected byte offset `pb` and bit `ulBit`. -/
theorem hmR0SvmSetMSRPermission_apply (mem : BitMem) (uMsr pb ulBit : Nat)
    (r : SVMMSREXITREAD) (w : SVMMSREXITWRITE)
    (h : hmR0SvmMsrBitPos uMsr = some (pb, ulBit)) (b : Nat) :
    hmR0SvmSetMSRPermission mem uMsr r w b =
      if b = pb * 8 + (ulBit + 1) then decide (w = SVMMSREXIT_INTERCEPT_WRITE)
      else if b = pb * 8 + ulBit then decide (r = SVMMSREXIT_INTERCEPT_READ)
      else mem b := by
  unfold hmR0SvmSetMSRPermission
  rw [h]
  cases r <;> cases w <;> simp [ASMBitSet, ASMBitClear]

theorem hmR0SvmMsrBitPos_low (m : Nat) (h : m ≤ 0x1FFF) :
    hmR0SvmMsrBitPos m = some (0, m * 2) := by
  unfold hmR0SvmMsrBitPos
  rw [if_pos h, Nat.mod_eq_of_lt (by omega)]

theorem hmR0SvmMsrBitPos_mid (m : Nat) (h : 0xC0000000 ≤ m ∧ m ≤ 0xC0001FFF) :
    hmR0SvmMsrBitPos m = some (0x800, (m - 0xC0000000) * 2) := by
  unfold hmR0SvmMsrBitPos
  rw [if_neg (by omega), if_pos h, Nat.mod_eq_of_lt (by omega)]

theorem hmR0SvmMsrBitPos_high (m : Nat) (h : 0xC0010000 ≤ m ∧ m ≤ 0xC0011FFF) :
    hmR0SvmMsrBitPos m = some (0x1000, (m - 0xC0001000) * 2) := by
  unfold hmR0SvmMsrBitPos
  rw [if_neg (by omega), if_neg (by omega), if_pos h, Nat.mod_eq_of_lt (by omega)]

theorem hmR0SvmMsrBitPos_none (m : Nat)
    (h : (0x2000 ≤ m ∧ m < 0xC0000000) ∨ (0xC0002000 ≤ m ∧ m < 0xC0010000) ∨
      0xC0011FFF < m) :
    hmR0SvmMsrBitPos m = none := by
  unfold hmR0SvmMsrBitPos
  rw [if_neg (by omega), if_neg (by omega), if_neg (by omega)]

/-- In the first two ranges the bits written are the documented ones, so a read
at the documented position returns the programmed pair. -/
theorem msrBitmapRead_set_low_mid (mem : BitMem) (m : Nat)
    (r : SVMMSREXITREAD) (w : SVMMSREXITWRITE)
    (h : m ≤ 0x1FFF ∨ (0xC0000000 ≤ m ∧ m ≤ 0xC0001FFF)) :
    msrBitmapRead (hmR0SvmSetMSRPermission mem m r w) m =
      some (decide (r = SVMMSREXIT_INTERCEPT_READ),
            decide (w = SVMMSREXIT_INTERCEPT_WRITE)) := by
  rcases h with h | h
  · simp only [msrBitmapRead, msrDocBit, msrWindow, if_pos h, Option.map_some']
    rw [hmR0SvmSetMSRPermission_apply mem m 0 (m * 2) r w (hmR0SvmMsrBitPos_low m h),
      hmR0SvmSetMSRPermission_apply mem m 0 (m * 2) r w (hmR0SvmMsrBitPos_low m h)]
    rw [if_neg (by omega), if_pos (by omega), if_pos (by omega)]
  · have hlow : ¬ m ≤ 0x1FFF := by omega
    simp only [msrBitmapRead, msrDocBit, msrWindow, if_neg hlow, if_pos h, Option.map_some']
    rw [hmR0SvmSetMSRPermission_apply mem m 0x800 ((m - 0xC0000000) * 2) r w
        (hmR0SvmMsrBitPos_mid m h),
      hmR0SvmSetMSRPermission_apply mem m 0x800 ((m - 0xC0000000) * 2) r w
        (hmR0SvmMsrBitPos_mid m h)]
    rw [if_neg (by omega), if_pos (by omega), if_pos (by omega)]

/-! ## MSR permission bitmap: claims -/

/-- C1 (fails in the third range): starting from the all-intercept bitmap,
`hmR0SvmSetMSRPermission` of MSR `0xC0010000` with both policies passthrough
leaves both bits at the documented position (byte `0x1000`, bits 0 and 1) set,
and clears bits `0x26000` and `0x26001` instead, which lie beyond the 8 KiB
bitmap. -/
theorem setMsrPermission_high_range_read_back :
    msrBitmapRead (hmR0SvmSetMSRPermission allIntercept 0xC0010000
        SVMMSREXIT_PASSTHRU_READ SVMMSREXIT_PASSTHRU_WRITE) 0xC0010000 = some (true, true) ∧
    hmR0SvmSetMSRPermission allIntercept 0xC0010000
        SVMMSREXIT_PASSTHRU_READ SVMMSREXIT_PASSTHRU_WRITE 0x26000 = false ∧
    hmR0SvmSetMSRPermission allIntercept 0xC0010000
        SVMMSREXIT_PASSTHRU_READ SVMMSREXIT_PASSTHRU_WRITE 0x26001 = false ∧
    0x2000 * 8 ≤ 0x26000 := by
  decide

/-- C2 (fails): for MSR `0xC0010000` the range dispatch yields byte offset
`0x1000` with `ulBit = 0x1E000` (it subtracts `0xC0001000`), whereas the
documented bit offset is `(0xC0010000 - 0xC0010000) * 2 = 0`; the same holds at
the last MSR of the range, `0xC0011FFF`, with `0x21FFE` against `0x3FFE`. -/
theorem hmR0SvmMsrBitPos_high_range_offset :
    hmR0SvmMsrBitPos 0xC0010000 = some (0x1000, 0x1E000) ∧
    msrDocBit 0xC0010000 = some (0x1000 * 8 + 0) ∧
    hmR0SvmMsrBitPos 0xC0011FFF = some (0x1000, 0x21FFE) ∧
    msrDocBit 0xC0011FFF = some (0x1000 * 8 + 0x3FFE) := by
  decide

/-- C3: for `m ≤ 0x1FFF` the call selects byte offset 0 and bit `m * 2`, and
the memory afterwards is the old one with the read policy stored at bit
`m * 2` and the write policy at bit `m * 2 + 1`; for
`0xC0000000 ≤ m ≤ 0xC0001FFF` the same holds at byte offset `0x800` with bit
`(m - 0xC0000000) * 2`. -/
theorem setMsrPermission_low_mid_position (mem : BitMem) (m : Nat)
    (r : SVMMSREXITREAD) (w : SVMMSREXITWRITE) :
    (m ≤ 0x1FFF →
      hmR0SvmMsrBitPos m = some (0, m * 2) ∧
      ∀ b, hmR0SvmSetMSRPermission mem m r w b =
        if b = 0 * 8 + (m * 2 + 1) then decide (w = SVMMSREXIT_INTERCEPT_WRITE)
        else if b = 0 * 8 + m * 2 then decide (r = SVMMSREXIT_INTERCEPT_READ)
        else mem b) ∧
    (0xC0000000 ≤ m ∧ m ≤ 0xC0001FFF →
      hmR0SvmMsrBitPos m = some (0x800, (m - 0xC0000000) * 2) ∧
      ∀ b, hmR0SvmSetMSRPermission mem m r w b =
        if b = 0x800 * 8 + ((m - 0xC0000000) * 2 + 1) then
          decide (w = SVMMSREXIT_INTERCEPT_WRITE)
        else if b = 0x800 * 8 + (m - 0xC0000000) * 2 then
          decide (r = SVMMSREXIT_INTERCEPT_READ)
        else mem b) :=
  ⟨fun h => ⟨hmR0SvmMsrBitPos_low m h,
      hmR0SvmSetMSRPermission_apply mem m 0 (m * 2) r w (hmR0SvmMsrBitPos_low m h)⟩,
   fun h => ⟨hmR0SvmMsrBitPos_mid m h,
      hmR0SvmSetMSRPermission_apply mem m 0x800 ((m - 0xC0000000) * 2) r w
        (hmR0SvmMsrBitPos_mid m h)⟩⟩

/-- Witness for C3 at SYSENTER_CS (`0x174`) and STAR (`0xC0000081`). -/
theorem setMsrPermission_low_mid_position_witness :
    hmR0SvmMsrBitPos 0x174 = some (0, 0x174 * 2) ∧
    hmR0SvmMsrBitPos 0xC0000081 = some (0x800, (0xC0000081 - 0xC0000000) * 2) :=
  ⟨((setMsrPermission_low_mid_position allIntercept 0x174
      SVMMSREXIT_PASSTHRU_READ SVMMSREXIT_PASSTHRU_WRITE).1 (by decide)).1,
   ((setMsrPermission_low_mid_position allIntercept 0xC0000081
      SVMMSREXIT_PASSTHRU_READ SVMMSREXIT_PASSTHRU_WRITE).2 (by decide)).1⟩

/-- C4: for an MSR number outside all three ranges the call takes the
`AssertFailed(); return;` branch and the whole memory, hence the whole bitmap,
is unchanged. -/
theorem setMsrPermission_invalid_unchanged (mem : BitMem) (m : Nat)
    (r : SVMMSREXITREAD) (w : SVMMSREXITWRITE)
    (h : (0x2000 ≤ m ∧ m < 0xC0000000) ∨ (0xC0002000 ≤ m ∧ m < 0xC0010000) ∨
      0xC0011FFF < m) :
    hmR0SvmMsrBitPos m = none ∧ hmR0SvmSetMSRPermission mem m r w = mem := by
  have hn := hmR0SvmMsrBitPos_none m h
  refine ⟨hn, ?_⟩
  unfold hmR0SvmSetMSRPermission
  rw [hn]

/-- Witness for C4 at MSR `0x2000`. -/
theorem setMsrPermission_invalid_unchanged_witness :
    hmR0SvmMsrBitPos 0x2000 = none ∧
    hmR0SvmSetMSRPermission allIntercept 0x2000
      SVMMSREXIT_PASSTHRU_READ SVMMSREXIT_PASSTHRU_WRITE = allIntercept :=
  setMsrPermission_invalid_unchanged allIntercept 0x2000
    SVMMSREXIT_PASSTHRU_READ SVMMSREXIT_PASSTHRU_WRITE (Or.inl (by decide))

/-- C5: `hmR0SvmSetMSRPermission` is idempotent: for every memory state, MSR
number and policy pair, a second call with the same arguments changes
nothing. -/
theorem setMsrPermission_idempotent (mem : BitMem) (m : Nat)
    (r : SVMMSREXITREAD) (w : SVMMSREXITWRITE) :
    hmR0SvmSetMSRPermission (hmR0SvmSetMSRPermission mem m r w) m r w =
      hmR0SvmSetMSRPermission mem m r w := by
  funext b
  cases hp : hmR0SvmMsrBitPos m with
  | none => simp [hmR0SvmSetMSRPermission, hp]
  | some p =>
    obtain ⟨pb, ulBit⟩ := p
    rw [hmR0SvmSetMSRPermission_apply _ m pb ulBit r w hp b,
      hmR0SvmSetMSRPermission_apply mem m pb ulBit r w hp b]
    split
    · rfl
    · split <;> rfl

/-! ## Tagged-TLB flush: one call -/

theorem flush_cpu_idCpu (vm : VM) (c : HMGLOBLCPUINFO) (v : VMCPU) :
    (hmR0SvmFlushTaggedTlb vm c v).cpu.idCpu = c.idCpu := by
  unfold hmR0SvmFlushTaggedTlb flushNewAsid
  cases h3 : vm.fAlwaysFlushTLB <;> cases h0 : fNewAsid c v <;>
  cases h4 : v.ffTlbFlush <;> cases h5 : v.fForceTLBFlush <;>
  cases h6 : v.ffTlbShootdown <;>
  simp [h0, h3, h4, h5, h6] <;> (repeat' split) <;> simp_all

theorem flush_vcpu_idLastCpu (vm : VM) (c : HMGLOBLCPUINFO) (v : VMCPU) :
    (hmR0SvmFlushTaggedTlb vm c v).vcpu.idLastCpu = c.idCpu := by
  unfold hmR0SvmFlushTaggedTlb flushNewAsid
  cases h3 : vm.fAlwaysFlushTLB <;> cases h0 : fNewAsid c v <;>
  cases h4 : v.ffTlbFlush <;> cases h5 : v.fForceTLBFlush <;>
  cases h6 : v.ffTlbShootdown <;>
  simp [h0, h3, h4, h5, h6] <;> (repeat' split) <;> simp_all

/-- Line 626: the ASID written into the VMCB is the virtual CPU's. -/
theorem flush_vmcb_asid (vm : VM) (c : HMGLOBLCPUINFO) (v : VMCPU) :
    (hmR0SvmFlushTaggedTlb vm c v).vcpu.u32ASID =
      (hmR0SvmFlushTaggedTlb vm c v).vcpu.uCurrentAsid := by
  unfold hmR0SvmFlushTaggedTlb
  rfl

/-- The erratum-170 branch (lines 549-558). -/
theorem flush_always (vm : VM) (c : HMGLOBLCPUINFO) (v : VMCPU)
    (ha : vm.fAlwaysFlushTLB = true) :
    (hmR0SvmFlushTaggedTlb vm c v).cpu = { c with uCurrentAsid := 1 } ∧
    (hmR0SvmFlushTaggedTlb vm c v).vcpu.uCurrentAsid = 1 ∧
    (hmR0SvmFlushTaggedTlb vm c v).vcpu.cTlbFlushes = c.cTlbFlushes ∧
    (hmR0SvmFlushTaggedTlb vm c v).vcpu.u8TLBFlush = SVM_TLB_FLUSH_ENTIRE := by
  unfold hmR0SvmFlushTaggedTlb
  simp [ha]

/-- The fresh-ASID branch (lines 561-597), taken whenever the erratum policy is
off and the migration/generation test fires. -/
theorem flush_fresh (vm : VM) (c : HMGLOBLCPUINFO) (v : VMCPU)
    (ha : vm.fAlwaysFlushTLB = false) (hn : fNewAsid c v = true) :
    (hmR0SvmFlushTaggedTlb vm c v).cpu.uCurrentAsid =
      (if vm.uMaxAsid ≤ (c.uCurrentAsid + 1) % 2 ^ 32 then 1
       else (c.uCurrentAsid + 1) % 2 ^ 32) ∧
    (hmR0SvmFlushTaggedTlb vm c v).cpu.cTlbFlushes =
      (if vm.uMaxAsid ≤ (c.uCurrentAsid + 1) % 2 ^ 32 then (c.cTlbFlushes + 1) % 2 ^ 64
       else c.cTlbFlushes) ∧
    (hmR0SvmFlushTaggedTlb vm c v).vcpu.uCurrentAsid =
      (hmR0SvmFlushTaggedTlb vm c v).cpu.uCurrentAsid ∧
    (hmR0SvmFlushTaggedTlb vm c v).vcpu.cTlbFlushes =
      (hmR0SvmFlushTaggedTlb vm c v).cpu.cTlbFlushes := by
  unfold hmR0SvmFlushTaggedTlb flushNewAsid
  cases h4 : v.ffTlbFlush <;> cases h5 : v.fForceTLBFlush <;>
  cases h6 : v.ffTlbShootdown <;>
  simp [hn, ha, h4, h5, h6] <;> (repeat' split) <;> simp_all

/-- Without migration or generation mismatch (and with the erratum policy off)
no ASID and no generation changes. -/
theorem flush_reuse (vm : VM) (c : HMGLOBLCPUINFO) (v : VMCPU)
    (ha : vm.fAlwaysFlushTLB = false) (hn : fNewAsid c v = false) :
    (hmR0SvmFlushTaggedTlb vm c v).cpu.uCurrentAsid = c.uCurrentAsid ∧
    (hmR0SvmFlushTaggedTlb vm c v).cpu.cTlbFlushes = c.cTlbFlushes ∧
    (hmR0SvmFlushTaggedTlb vm c v).vcpu.uCurrentAsid = v.uCurrentAsid ∧
    (hmR0SvmFlushTaggedTlb vm c v).vcpu.cTlbFlushes = v.cTlbFlushes := by
  unfold hmR0SvmFlushTaggedTlb flushNewAsid
  cases h4 : v.ffTlbFlush <;> cases h5 : v.fForceTLBFlush <;>
  cases h6 : v.ffTlbShootdown <;>
  simp [hn, ha, h4, h5, h6] <;> (repeat' split) <;> simp_all

theorem fNewAsid_eq_false_iff (c : HMGLOBLCPUINFO) (v : VMCPU) :
    fNewAsid c v = false ↔ v.idLastCpu = c.idCpu ∧ v.cTlbFlushes = c.cTlbFlushes := by
  simp [fNewAsid]

theorem fNewAsid_of_idLastCpu_ne (c : HMGLOBLCPUINFO) (v : VMCPU)
    (h : v.idLastCpu ≠ c.idCpu) : fNewAsid c v = true := by
  simp [fNewAsid, h]

theorem fNewAsid_of_cTlbFlushes_ne (c : HMGLOBLCPUINFO) (v : VMCPU)
    (h : v.cTlbFlushes ≠ c.cTlbFlushes) : fNewAsid c v = true := by
  simp [fNewAsid, h]

/-! ## Tagged-TLB flush: claims about one call -/

/-- C7: for every virtual-CPU state, physical-CPU state, policy, feature word
and pending requests, after `hmR0SvmFlushTaggedTlb` the virtual CPU's
`cTlbFlushes` equals the physical CPU's (the first closing assertion holds). -/
theorem flush_generation_snapshot_eq (vm : VM) (pCpu : HMGLOBLCPUINFO) (pVCpu : VMCPU) :
    (hmR0SvmFlushTaggedTlb vm pCpu pVCpu).vcpu.cTlbFlushes =
      (hmR0SvmFlushTaggedTlb vm pCpu pVCpu).cpu.cTlbFlushes := by
  cases ha : vm.fAlwaysFlushTLB
  · cases hn : fNewAsid pCpu pVCpu
    · have h := flush_reuse vm pCpu pVCpu ha hn
      rw [h.2.2.2, h.2.1]
      exact ((fNewAsid_eq_false_iff pCpu pVCpu).1 hn).2
    · exact (flush_fresh vm pCpu pVCpu ha hn).2.2.2
  · have h := flush_always vm pCpu pVCpu ha
    rw [h.2.2.1, h.1]

/-- C8: with the always-flush policy set, every `hmR0SvmFlushTaggedTlb` call,
whatever the virtual-CPU and physical-CPU state, yields the full-TLB-flush
directive, ASID 1 in the VMCB, and `uCurrentAsid = 1` on both the virtual and
the physical CPU. -/
theorem flush_always_full_flush_asid_one (vm : VM) (pCpu : HMGLOBLCPUINFO) (pVCpu : VMCPU)
    (ha : vm.fAlwaysFlushTLB = true) :
    (hmR0SvmFlushTaggedTlb vm pCpu pVCpu).vcpu.u8TLBFlush = SVM_TLB_FLUSH_ENTIRE ∧
    (hmR0SvmFlushTaggedTlb vm pCpu pVCpu).vcpu.u32ASID = 1 ∧
    (hmR0SvmFlushTaggedTlb vm pCpu pVCpu).vcpu.uCurrentAsid = 1 ∧
    (hmR0SvmFlushTaggedTlb vm pCpu pVCpu).cpu.uCurrentAsid = 1 := by
  have h := flush_always vm pCpu pVCpu ha
  refine ⟨h.2.2.2, ?_, h.2.1, ?_⟩
  · rw [flush_vmcb_asid, h.2.1]
  · rw [h.1]

/-- Witness for C8: a virtual CPU that last ran on this CPU with a matching
generation and nothing pending. -/
theorem flush_always_full_flush_asid_one_witness :
    (hmR0SvmFlushTaggedTlb ⟨true, 64, 0⟩ ⟨0, 5, 3, false, false⟩
        ⟨0, 3, 5, false, false, false, false, 0, [], SVM_TLB_FLUSH_NOTHING, 5⟩).vcpu.u8TLBFlush
      = SVM_TLB_FLUSH_ENTIRE ∧
    (hmR0SvmFlushTaggedTlb ⟨true, 64, 0⟩ ⟨0, 5, 3, false, false⟩
        ⟨0, 3, 5, false, false, false, false, 0, [], SVM_TLB_FLUSH_NOTHING, 5⟩).vcpu.u32ASID
      = 1 ∧
    (hmR0SvmFlushTaggedTlb ⟨true, 64, 0⟩ ⟨0, 5, 3, false, false⟩
        ⟨0, 3, 5, false, false, false, false, 0, [], SVM_TLB_FLUSH_NOTHING, 5⟩).vcpu.uCurrentAsid
      = 1 ∧
    (hmR0SvmFlushTaggedTlb ⟨true, 64, 0⟩ ⟨0, 5, 3, false, false⟩
        ⟨0, 3, 5, false, false, false, false, 0, [], SVM_TLB_FLUSH_NOTHING, 5⟩).cpu.uCurrentAsid
      = 1 :=
  flush_always_full_flush_asid_one ⟨true, 64, 0⟩ ⟨0, 5, 3, false, false⟩
    ⟨0, 3, 5, false, false, false, false, 0, [], SVM_TLB_FLUSH_NOTHING, 5⟩ rfl

/-- C9: with the always-flush policy off, whenever the virtual CPU's
`idLastCpu` differs from the physical CPU's id (whatever the request flags and
`fForceTLBFlush`, in particular when none is set), the physical CPU's
`uCurrentAsid` becomes old+1 in 32-bit arithmetic, or 1 if that reaches
`uMaxAsid` (for old+1 below `2 ^ 32` this is the plain old+1), and the virtual
CPU's `uCurrentAsid`, the VMCB ASID and the virtual CPU's `cTlbFlushes` equal
the physical CPU's resulting values. -/
theorem flush_migrated_fresh_asid (vm : VM) (pCpu : HMGLOBLCPUINFO) (pVCpu : VMCPU)
    (ha : vm.fAlwaysFlushTLB = false) (hm : pVCpu.idLastCpu ≠ pCpu.idCpu) :
    (hmR0SvmFlushTaggedTlb vm pCpu pVCpu).cpu.uCurrentAsid =
      (if vm.uMaxAsid ≤ (pCpu.uCurrentAsid + 1) % 2 ^ 32 then 1
       else (pCpu.uCurrentAsid + 1) % 2 ^ 32) ∧
    (pCpu.uCurrentAsid + 1 < 2 ^ 32 →
      (hmR0SvmFlushTaggedTlb vm pCpu pVCpu).cpu.uCurrentAsid =
        (if vm.uMaxAsid ≤ pCpu.uCurrentAsid + 1 then 1 else pCpu.uCurrentAsid + 1)) ∧
    (hmR0SvmFlushTaggedTlb vm pCpu pVCpu).vcpu.uCurrentAsid =
      (hmR0SvmFlushTaggedTlb vm pCpu pVCpu).cpu.uCurrentAsid ∧
    (hmR0SvmFlushTaggedTlb vm pCpu pVCpu).vcpu.u32ASID =
      (hmR0SvmFlushTaggedTlb vm pCpu pVCpu).cpu.uCurrentAsid ∧
    (hmR0SvmFlushTaggedTlb vm pCpu pVCpu).vcpu.cTlbFlushes =
      (hmR0SvmFlushTaggedTlb vm pCpu pVCpu).cpu.cTlbFlushes := by
  have h := flush_fresh vm pCpu pVCpu ha (fNewAsid_of_idLastCpu_ne pCpu pVCpu hm)
  refine ⟨h.1, ?_, h.2.2.1, ?_, h.2.2.2⟩
  · intro hlt
    rw [h.1, Nat.mod_eq_of_lt hlt]
  · rw [flush_vmcb_asid, h.2.2.1]

/-- Witness for C9: a virtual CPU that last ran on CPU 7 is scheduled on CPU 0
with a matching generation, nothing pending and `fForceTLBFlush` clear. -/
theorem flush_migrated_fresh_asid_witness :
    (hmR0SvmFlushTaggedTlb ⟨false, 64, 0⟩ ⟨0, 5, 3, false, false⟩
        ⟨7, 3, 2, false, false, false, false, 0, [], SVM_TLB_FLUSH_NOTHING, 2⟩).cpu.uCurrentAsid
      = 6 ∧
    (hmR0SvmFlushTaggedTlb ⟨false, 64, 0⟩ ⟨0, 5, 3, false, false⟩
        ⟨7, 3, 2, false, false, false, false, 0, [], SVM_TLB_FLUSH_NOTHING, 2⟩).vcpu.u32ASID
      = 6 :=
  have h := flush_migrated_fresh_asid ⟨false, 64, 0⟩ ⟨0, 5, 3, false, false⟩
    ⟨7, 3, 2, false, false, false, false, 0, [], SVM_TLB_FLUSH_NOTHING, 2⟩ rfl (by decide)
  ⟨h.1, h.2.2.2.1.trans h.1⟩

/-! ## Virtual CPUs time-sharing one physical CPU: lemmas -/

theorem enable_cpu_fields (hw : HwState) (c : HMGLOBLCPUINFO) (pVM : Option Bool)
    (pv phys : Nat) (fHost : Bool) :
    (SVMR0EnableCpu hw c pVM pv phys fHost).2.2.idCpu = c.idCpu ∧
    (SVMR0EnableCpu hw c pVM pv phys fHost).2.2.uCurrentAsid = c.uCurrentAsid ∧
    ((SVMR0EnableCpu hw c pVM pv phys fHost).2.2.cTlbFlushes = c.cTlbFlushes ∨
     (SVMR0EnableCpu hw c pVM pv phys fHost).2.2.cTlbFlushes =
       (c.cTlbFlushes + 1) % 2 ^ 64) := by
  unfold SVMR0EnableCpu
  simp only []
  split_ifs <;> simp

theorem disable_cpu_eq (hw : HwState) (c : HMGLOBLCPUINFO) (pv phys : Nat) :
    (SVMR0DisableCpu hw c pv phys).2.2 = c := by
  unfold SVMR0DisableCpu
  simp only []
  split_ifs <;> rfl

theorem step_idCpu (vm : VM) (w : World) (e : Event) :
    (step vm w e).cpu.idCpu = w.cpu.idCpu := by
  cases e with
  | flush i => exact flush_cpu_idCpu vm w.cpu (w.vcpus i)
  | enable pVM pv phys fHost => exact (enable_cpu_fields w.hw w.cpu pVM pv phys fHost).1
  | disable pv phys => simp [step, disable_cpu_eq]
  | request i ff force sd pages => rfl

theorem step_flush_vcpu (vm : VM) (w : World) (i : Nat) :
    (step vm w (Event.flush i)).vcpus i =
      (hmR0SvmFlushTaggedTlb vm w.cpu (w.vcpus i)).vcpu := by
  simp [step, setVcpu]

theorem step_flush_cpu (vm : VM) (w : World) (i : Nat) :
    (step vm w (Event.flush i)).cpu = (hmR0SvmFlushTaggedTlb vm w.cpu (w.vcpus i)).cpu :=
  rfl

/-- One call keeps both ASIDs in `[1, uMaxAsid)` when the physical CPU's ASID
is below `uMaxAsid` and a virtual CPU that already ran here has its ASIDs in
range. -/
theorem flush_asid_range (vm : VM) (c : HMGLOBLCPUINFO) (v : VMCPU)
    (h2 : 2 ≤ vm.uMaxAsid) (h32 : vm.uMaxAsid < 2 ^ 32)
    (hc : c.uCurrentAsid < vm.uMaxAsid)
    (hv : v.idLastCpu = c.idCpu →
      1 ≤ c.uCurrentAsid ∧ 1 ≤ v.uCurrentAsid ∧ v.uCurrentAsid < vm.uMaxAsid) :
    1 ≤ (hmR0SvmFlushTaggedTlb vm c v).cpu.uCurrentAsid ∧
    (hmR0SvmFlushTaggedTlb vm c v).cpu.uCurrentAsid < vm.uMaxAsid ∧
    1 ≤ (hmR0SvmFlushTaggedTlb vm c v).vcpu.uCurrentAsid ∧
    (hmR0SvmFlushTaggedTlb vm c v).vcpu.uCurrentAsid < vm.uMaxAsid := by
  cases ha : vm.fAlwaysFlushTLB
  · cases hn : fNewAsid c v
    · have h := flush_reuse vm c v ha hn
      have hv := hv ((fNewAsid_eq_false_iff c v).1 hn).1
      rw [h.1, h.2.2.1]
      omega
    · have h := flush_fresh vm c v ha hn
      rw [h.2.2.1, h.1, Nat.mod_eq_of_lt (by omega)]
      split <;> omega
  · have h := flush_always vm c v ha
    rw [h.2.1, h.1]
    simp only []
    omega

theorem step_AsidInv (vm : VM) (id : Nat) (w : World) (e : Event)
    (h2 : 2 ≤ vm.uMaxAsid) (h32 : vm.uMaxAsid < 2 ^ 32) (h : AsidInv vm id w) :
    AsidInv vm id (step vm w e) := by
  obtain ⟨hid, hc, hv⟩ := h
  refine ⟨(step_idCpu vm w e).trans hid, ?_⟩
  cases e with
  | flush i =>
    have hr := flush_asid_range vm w.cpu (w.vcpus i) h2 h32 hc
      (fun hh => hv i (hh.trans hid))
    refine ⟨hr.2.1, ?_⟩
    intro j hj
    simp only [step, setVcpu] at hj ⊢
    by_cases hji : j = i
    · simp only [hji, if_true] at hj ⊢
      exact ⟨hr.1, hr.2.2⟩
    · simp only [hji, if_false] at hj ⊢
      exact ⟨hr.1, (hv j hj).2⟩
  | enable pVM pv phys fHost =>
    have he := enable_cpu_fields w.hw w.cpu pVM pv phys fHost
    simp only [step]
    rw [he.2.1]
    exact ⟨hc, hv⟩
  | disable pv phys =>
    simp only [step, disable_cpu_eq]
    exact ⟨hc, hv⟩
  | request i ff force sd pages =>
    refine ⟨hc, ?_⟩
    intro j hj
    simp only [step, setVcpu] at hj ⊢
    by_cases hji : j = i
    · simp only [hji, if_true] at hj ⊢
      exact hv i hj
    · simp only [hji, if_false] at hj ⊢
      exact hv j hj

theorem run_AsidInv (vm : VM) (id : Nat) (evs : List Event) (w : World)
    (h2 : 2 ≤ vm.uMaxAsid) (h32 : vm.uMaxAsid < 2 ^ 32) (h : AsidInv vm id w) :
    AsidInv vm id (run vm w evs) := by
  induction evs generalizing w with
  | nil => exact h
  | cons e evs ih => exact ih (step vm w e) (step_AsidInv vm id w e h2 h32 h)

/-- Every event leaves the physical CPU's `cTlbFlushes` alone or increments it
once (in 64-bit arithmetic). -/
theorem step_cTlbFlushes (vm : VM) (w : World) (e : Event) :
    (step vm w e).cpu.cTlbFlushes = w.cpu.cTlbFlushes ∨
    (step vm w e).cpu.cTlbFlushes = (w.cpu.cTlbFlushes + 1) % 2 ^ 64 := by
  cases e with
  | flush i =>
    simp only [step]
    cases ha : vm.fAlwaysFlushTLB
    · cases hn : fNewAsid w.cpu (w.vcpus i)
      · exact Or.inl (flush_reuse vm w.cpu (w.vcpus i) ha hn).2.1
      · rw [(flush_fresh vm w.cpu (w.vcpus i) ha hn).2.1]
        split
        · exact Or.inr rfl
        · exact Or.inl rfl
    · rw [(flush_always vm w.cpu (w.vcpus i) ha).1]
      exact Or.inl rfl
  | enable pVM pv phys fHost => exact (enable_cpu_fields w.hw w.cpu pVM pv phys fHost).2.2
  | disable pv phys => simp [step, disable_cpu_eq]
  | request i ff force sd pages => exact Or.inl rfl

theorem run_cTlbFlushes (vm : VM) (evs : List Event) (w : World)
    (hg : w.cpu.cTlbFlushes < 2 ^ 64) :
    (run vm w evs).cpu.cTlbFlushes =
      (w.cpu.cTlbFlushes + genIncrements vm w evs) % 2 ^ 64 := by
  induction evs generalizing w with
  | nil =>
    simp only [run, genIncrements, List.foldl_nil, Nat.add_zero]
    exact (Nat.mod_eq_of_lt hg).symm
  | cons e evs ih =>
    have hs := step_cTlbFlushes vm w e
    have hg1 : (step vm w e).cpu.cTlbFlushes < 2 ^ 64 := by
      rcases hs with hs | hs <;> rw [hs]
      · exact hg
      · exact Nat.mod_lt _ (by norm_num)
    have ih1 := ih (step vm w e) hg1
    simp only [run, List.foldl_cons] at ih1 ⊢
    rw [ih1]
    simp only [genIncrements]
    by_cases hc : (step vm w e).cpu.cTlbFlushes = w.cpu.cTlbFlushes
    · rw [if_pos hc, hc]; simp
    · rw [if_neg hc]
      rcases hs with hs | hs
      · exact absurd hs hc
      · rw [hs]; omega

/-- Only a world switch of virtual CPU `i` changes its generation snapshot. -/
theorem run_vcpu_cTlbFlushes (vm : VM) (i : Nat) (evs : List Event) (w : World)
    (hno : ∀ e ∈ evs, e ≠ Event.flush i) :
    ((run vm w evs).vcpus i).cTlbFlushes = (w.vcpus i).cTlbFlushes := by
  induction evs generalizing w with
  | nil => rfl
  | cons e evs ih =>
    have ih1 := ih (step vm w e) (fun e1 he1 => hno e1 (List.mem_cons_of_mem _ he1))
    simp only [run, List.foldl_cons] at ih1 ⊢
    rw [ih1]
    have he := hno e (List.mem_cons_self _ _)
    cases e with
    | flush j =>
      have hji : i ≠ j := fun hh => he (by rw [hh])
      simp [step, setVcpu, hji]
    | enable pVM pv phys fHost => rfl
    | disable pv phys => rfl
    | request j ff force sd pages =>
      simp only [step, setVcpu]
      by_cases hji : i = j
      · simp [hji]
      · simp [hji]

/-! ## Virtual CPUs time-sharing one physical CPU: claims -/

/-- C6 (ASID range invariant): let `uMaxAsid` be at least 2 (and a 32-bit
value), let the physical CPU start with `uCurrentAsid = 0`, and let no virtual
CPU have the physical CPU's id as its `idLastCpu` (none has run on it). Then
after any sequence of world switches of any virtual CPUs, `SVMR0EnableCpu` and
`SVMR0DisableCpu` calls and flush requests, a world switch of virtual CPU `i`
leaves the physical CPU's `uCurrentAsid`, the calling virtual CPU's
`uCurrentAsid` and the ASID in its VMCB all in `[1, uMaxAsid)`; in particular
ASID 0 is never assigned. -/
theorem asid_range_invariant (vm : VM) (w0 : World) (evs : List Event) (i : Nat)
    (h2 : 2 ≤ vm.uMaxAsid) (h32 : vm.uMaxAsid < 2 ^ 32)
    (h0 : w0.cpu.uCurrentAsid = 0)
    (hnever : ∀ j, (w0.vcpus j).idLastCpu ≠ w0.cpu.idCpu) :
    1 ≤ (step vm (run vm w0 evs) (Event.flush i)).cpu.uCurrentAsid ∧
    (step vm (run vm w0 evs) (Event.flush i)).cpu.uCurrentAsid < vm.uMaxAsid ∧
    1 ≤ ((step vm (run vm w0 evs) (Event.flush i)).vcpus i).uCurrentAsid ∧
    ((step vm (run vm w0 evs) (Event.flush i)).vcpus i).uCurrentAsid < vm.uMaxAsid ∧
    1 ≤ ((step vm (run vm w0 evs) (Event.flush i)).vcpus i).u32ASID ∧
    ((step vm (run vm w0 evs) (Event.flush i)).vcpus i).u32ASID < vm.uMaxAsid := by
  have hinit : AsidInv vm w0.cpu.idCpu w0 :=
    ⟨rfl, by omega, fun j hj => absurd hj (hnever j)⟩
  have hinv := run_AsidInv vm w0.cpu.idCpu evs w0 h2 h32 hinit
  have hr := flush_asid_range vm (run vm w0 evs).cpu ((run vm w0 evs).vcpus i) h2 h32
    hinv.2.1 (fun hh => hinv.2.2 i (hh.trans hinv.1))
  rw [step_flush_vcpu, step_flush_cpu, flush_vmcb_asid]
  exact ⟨hr.1, hr.2.1, hr.2.2.1, hr.2.2.2, hr.2.2.1, hr.2.2.2⟩

/-- Witness for C6: three virtual CPUs share ASIDs 1 and 2 on physical CPU 0,
with an `SVMR0EnableCpu` in between; virtual CPU 0 is then switched to again. -/
theorem asid_range_invariant_witness :
    1 ≤ ((step ⟨false, 3, 0⟩ (run ⟨false, 3, 0⟩ world0
        [Event.flush 0, Event.flush 1, Event.enable none 1 0x5000 false, Event.flush 2])
        (Event.flush 0)).vcpus 0).u32ASID ∧
    ((step ⟨false, 3, 0⟩ (run ⟨false, 3, 0⟩ world0
        [Event.flush 0, Event.flush 1, Event.enable none 1 0x5000 false, Event.flush 2])
        (Event.flush 0)).vcpus 0).u32ASID < 3 :=
  have h := asid_range_invariant ⟨false, 3, 0⟩ world0
    [Event.flush 0, Event.flush 1, Event.enable none 1 0x5000 false, Event.flush 2] 0
    (by decide) (by decide) rfl (fun _ => by simp [world0, neverRun])
  ⟨h.2.2.2.2.1, h.2.2.2.2.2⟩

/-- C10: with the always-flush policy off, take a virtual CPU `i` whose
generation snapshot equals the physical CPU's `cTlbFlushes`, and any sequence
of events other than a world switch of `i` during which `cTlbFlushes` is
incremented (by an ASID wrap in another virtual CPU's world switch or by
`SVMR0EnableCpu`) a number of times that is not a multiple of `2 ^ 64`: once,
twice, any number up to `2 ^ 64 - 1`, so that the 64-bit counter is not back at
the snapshot. Then the next world switch of `i` takes the fresh-ASID path
whatever its request flags are: the migration/generation test fires, the
physical CPU's `uCurrentAsid` is advanced (old+1 in 32-bit arithmetic, or 1 on
reaching `uMaxAsid`), and the virtual CPU's `uCurrentAsid`, its VMCB ASID and
its generation snapshot are the physical CPU's new values. -/
theorem generation_increment_forces_fresh_asid (vm : VM) (w : World) (evs : List Event)
    (i : Nat) (ha : vm.fAlwaysFlushTLB = false)
    (hg : w.cpu.cTlbFlushes < 2 ^ 64)
    (hsync : (w.vcpus i).cTlbFlushes = w.cpu.cTlbFlushes)
    (hno : ∀ e ∈ evs, e ≠ Event.flush i)
    (hinc : genIncrements vm w evs % 2 ^ 64 ≠ 0) :
    fNewAsid (run vm w evs).cpu ((run vm w evs).vcpus i) = true ∧
    (step vm (run vm w evs) (Event.flush i)).cpu.uCurrentAsid =
      (if vm.uMaxAsid ≤ ((run vm w evs).cpu.uCurrentAsid + 1) % 2 ^ 32 then 1
       else ((run vm w evs).cpu.uCurrentAsid + 1) % 2 ^ 32) ∧
    ((step vm (run vm w evs) (Event.flush i)).vcpus i).uCurrentAsid =
      (step vm (run vm w evs) (Event.flush i)).cpu.uCurrentAsid ∧
    ((step vm (run vm w evs) (Event.flush i)).vcpus i).u32ASID =
      (step vm (run vm w evs) (Event.flush i)).cpu.uCurrentAsid ∧
    ((step vm (run vm w evs) (Event.flush i)).vcpus i).cTlbFlushes =
      (step vm (run vm w evs) (Event.flush i)).cpu.cTlbFlushes := by
  have hne : ((run vm w evs).vcpus i).cTlbFlushes ≠ (run vm w evs).cpu.cTlbFlushes := by
    rw [run_vcpu_cTlbFlushes vm i evs w hno, run_cTlbFlushes vm evs w hg, hsync]
    omega
  have hn := fNewAsid_of_cTlbFlushes_ne _ _ hne
  have h := flush_fresh vm (run vm w evs).cpu ((run vm w evs).vcpus i) ha hn
  rw [step_flush_vcpu, step_flush_cpu, flush_vmcb_asid]
  exact ⟨hn, h.1, h.2.2.1, h.2.2.1, h.2.2.2⟩

/-- Witness for C10: virtual CPU 0 is in sync with physical CPU 0, then
`SVMR0EnableCpu` succeeds once; the next world switch of virtual CPU 0 takes a
fresh ASID (2) although nothing is pending. -/
theorem generation_increment_forces_fresh_asid_witness :
    fNewAsid (run ⟨false, 3, 0⟩ worldSync [Event.enable none 1 0x5000 false]).cpu
      ((run ⟨false, 3, 0⟩ worldSync [Event.enable none 1 0x5000 false]).vcpus 0) = true ∧
    ((step ⟨false, 3, 0⟩ (run ⟨false, 3, 0⟩ worldSync [Event.enable none 1 0x5000 false])
      (Event.flush 0)).vcpus 0).u32ASID = 2 :=
  have h := generation_increment_forces_fresh_asid ⟨false, 3, 0⟩ worldSync
    [Event.enable none 1 0x5000 false] 0 rfl (by decide) rfl (by decide) (by decide)
  ⟨h.1, h.2.2.2.1.trans h.2.1⟩

/-! ## Tagged-TLB flush: further claims about one call -/

/-- C11 (ASID wraparound): with the always-flush policy off, `uMaxAsid` at
least 2 (and a 32-bit value), the physical CPU's `uCurrentAsid` equal to
`uMaxAsid - 1` and the migration/generation test firing, the call leaves the
physical CPU's `uCurrentAsid`, the virtual CPU's `uCurrentAsid` and the VMCB
ASID all equal to 1 and increments the physical CPU's `cTlbFlushes` once (in
64-bit arithmetic; it is the plain old+1 whenever old+1 is below `2 ^ 64`). -/
theorem flush_asid_wraparound (vm : VM) (pCpu : HMGLOBLCPUINFO) (pVCpu : VMCPU)
    (ha : vm.fAlwaysFlushTLB = false) (h2 : 2 ≤ vm.uMaxAsid) (h32 : vm.uMaxAsid < 2 ^ 32)
    (hasid : pCpu.uCurrentAsid = vm.uMaxAsid - 1)
    (hn : pVCpu.idLastCpu ≠ pCpu.idCpu ∨ pVCpu.cTlbFlushes ≠ pCpu.cTlbFlushes) :
    (hmR0SvmFlushTaggedTlb vm pCpu pVCpu).cpu.uCurrentAsid = 1 ∧
    (hmR0SvmFlushTaggedTlb vm pCpu pVCpu).vcpu.uCurrentAsid = 1 ∧
    (hmR0SvmFlushTaggedTlb vm pCpu pVCpu).vcpu.u32ASID = 1 ∧
    (hmR0SvmFlushTaggedTlb vm pCpu pVCpu).cpu.cTlbFlushes =
      (pCpu.cTlbFlushes + 1) % 2 ^ 64 ∧
    (pCpu.cTlbFlushes + 1 < 2 ^ 64 →
      (hmR0SvmFlushTaggedTlb vm pCpu pVCpu).cpu.cTlbFlushes = pCpu.cTlbFlushes + 1) := by
  have hnew : fNewAsid pCpu pVCpu = true := by
    rcases hn with hn | hn
    · exact fNewAsid_of_idLastCpu_ne pCpu pVCpu hn
    · exact fNewAsid_of_cTlbFlushes_ne pCpu pVCpu hn
  have h := flush_fresh vm pCpu pVCpu ha hnew
  have hwrap : vm.uMaxAsid ≤ (pCpu.uCurrentAsid + 1) % 2 ^ 32 := by
    rw [hasid]; omega
  have hc : (hmR0SvmFlushTaggedTlb vm pCpu pVCpu).cpu.uCurrentAsid = 1 := by
    rw [h.1, if_pos hwrap]
  have hg : (hmR0SvmFlushTaggedTlb vm pCpu pVCpu).cpu.cTlbFlushes =
      (pCpu.cTlbFlushes + 1) % 2 ^ 64 := by
    rw [h.2.1, if_pos hwrap]
  refine ⟨hc, ?_, ?_, hg, ?_⟩
  · rw [h.2.2.1, hc]
  · rw [flush_vmcb_asid, h.2.2.1, hc]
  · intro hlt
    rw [hg, Nat.mod_eq_of_lt hlt]

/-- Witness for C11: `uMaxAsid = 4`, the physical CPU at ASID 3 and generation
7, and a virtual CPU that last ran on another CPU. -/
theorem flush_asid_wraparound_witness :
    (hmR0SvmFlushTaggedTlb ⟨false, 4, 0⟩ ⟨0, 3, 7, false, false⟩
        ⟨9, 7, 2, false, false, false, false, 0, [], SVM_TLB_FLUSH_NOTHING, 2⟩).vcpu.u32ASID
      = 1 ∧
    (hmR0SvmFlushTaggedTlb ⟨false, 4, 0⟩ ⟨0, 3, 7, false, false⟩
        ⟨9, 7, 2, false, false, false, false, 0, [], SVM_TLB_FLUSH_NOTHING, 2⟩).cpu.cTlbFlushes
      = 8 :=
  have h := flush_asid_wraparound ⟨false, 4, 0⟩ ⟨0, 3, 7, false, false⟩
    ⟨9, 7, 2, false, false, false, false, 0, [], SVM_TLB_FLUSH_NOTHING, 2⟩
    rfl (by decide) (by decide) rfl (Or.inl (by decide))
  ⟨h.2.2.1, h.2.2.2.2 (by decide)⟩

/-- C12: with the always-flush policy off, a virtual CPU that last ran on this
physical CPU at the current generation, and a flush forced by a pending
`VMCPU_FF_TLB_FLUSH` or by `fForceTLBFlush`, the directive is single-context
flush when flush-by-ASID is advertised and full flush otherwise, and the
virtual CPU's `uCurrentAsid`, the physical CPU's `uCurrentAsid` and the
physical CPU's `cTlbFlushes` are unchanged. -/
theorem flush_forced_same_cpu (vm : VM) (pCpu : HMGLOBLCPUINFO) (pVCpu : VMCPU)
    (ha : vm.fAlwaysFlushTLB = false)
    (hid : pVCpu.idLastCpu = pCpu.idCpu) (hgen : pVCpu.cTlbFlushes = pCpu.cTlbFlushes)
    (hf : pVCpu.ffTlbFlush = true ∨ pVCpu.fForceTLBFlush = true) :
    (hmR0SvmFlushTaggedTlb vm pCpu pVCpu).vcpu.u8TLBFlush =
      (if vm.u32Features &&& AMD_CPUID_SVM_FEATURE_EDX_FLUSH_BY_ASID ≠ 0 then
        SVM_TLB_FLUSH_SINGLE_CONTEXT else SVM_TLB_FLUSH_ENTIRE) ∧
    (hmR0SvmFlushTaggedTlb vm pCpu pVCpu).vcpu.uCurrentAsid = pVCpu.uCurrentAsid ∧
    (hmR0SvmFlushTaggedTlb vm pCpu pVCpu).cpu.uCurrentAsid = pCpu.uCurrentAsid ∧
    (hmR0SvmFlushTaggedTlb vm pCpu pVCpu).cpu.cTlbFlushes = pCpu.cTlbFlushes := by
  have hnew : fNewAsid pCpu pVCpu = false := (fNewAsid_eq_false_iff pCpu pVCpu).2 ⟨hid, hgen⟩
  have h := flush_reuse vm pCpu pVCpu ha hnew
  refine ⟨?_, h.2.2.1, h.1, h.2.1⟩
  unfold hmR0SvmFlushTaggedTlb flushByAsid
  cases h4 : pVCpu.ffTlbFlush <;> cases h5 : pVCpu.fForceTLBFlush <;>
  simp [hnew, ha, h4, h5] at hf ⊢ <;> split <;> simp_all

/-- Witness for C12: an explicit flush request on a CPU with flush-by-ASID. -/
theorem flush_forced_same_cpu_witness :
    (hmR0SvmFlushTaggedTlb ⟨false, 64, 0x40⟩ ⟨0, 5, 3, false, false⟩
        ⟨0, 3, 2, false, false, true, false, 0, [], SVM_TLB_FLUSH_NOTHING, 2⟩).vcpu.u8TLBFlush
      = SVM_TLB_FLUSH_SINGLE_CONTEXT ∧
    (hmR0SvmFlushTaggedTlb ⟨false, 64, 0x40⟩ ⟨0, 5, 3, false, false⟩
        ⟨0, 3, 2, false, false, true, false, 0, [], SVM_TLB_FLUSH_NOTHING, 2⟩).vcpu.uCurrentAsid
      = 2 :=
  have h := flush_forced_same_cpu ⟨false, 64, 0x40⟩ ⟨0, 5, 3, false, false⟩
    ⟨0, 3, 2, false, false, true, false, 0, [], SVM_TLB_FLUSH_NOTHING, 2⟩
    rfl rfl rfl (Or.inl rfl)
  ⟨h.1, h.2.1⟩

/-- C13 (ASID reuse): with the always-flush policy off, `idLastCpu` equal to
the physical CPU's id, a matching generation snapshot, `fForceTLBFlush` clear
and no `VMCPU_FF_TLB_FLUSH` pending, the directive is "no flush", the ASID
written into the VMCB is the virtual CPU's unchanged `uCurrentAsid`, and the
physical CPU record (in particular `uCurrentAsid`, `cTlbFlushes` and
`fFlushAsidBeforeUse`) is unchanged. -/
theorem flush_reuse_no_flush (vm : VM) (pCpu : HMGLOBLCPUINFO) (pVCpu : VMCPU)
    (ha : vm.fAlwaysFlushTLB = false)
    (hid : pVCpu.idLastCpu = pCpu.idCpu) (hgen : pVCpu.cTlbFlushes = pCpu.cTlbFlushes)
    (hforce : pVCpu.fForceTLBFlush = false) (hff : pVCpu.ffTlbFlush = false) :
    (hmR0SvmFlushTaggedTlb vm pCpu pVCpu).vcpu.u8TLBFlush = SVM_TLB_FLUSH_NOTHING ∧
    (hmR0SvmFlushTaggedTlb vm pCpu pVCpu).vcpu.uCurrentAsid = pVCpu.uCurrentAsid ∧
    (hmR0SvmFlushTaggedTlb vm pCpu pVCpu).vcpu.u32ASID = pVCpu.uCurrentAsid ∧
    (hmR0SvmFlushTaggedTlb vm pCpu pVCpu).cpu = pCpu := by
  have hnew : fNewAsid pCpu pVCpu = false := (fNewAsid_eq_false_iff pCpu pVCpu).2 ⟨hid, hgen⟩
  unfold hmR0SvmFlushTaggedTlb
  cases h6 : pVCpu.ffTlbShootdown <;> simp [hnew, ha, hforce, hff, h6]

/-- Witness for C13. -/
theorem flush_reuse_no_flush_witness :
    (hmR0SvmFlushTaggedTlb ⟨false, 64, 0⟩ ⟨0, 5, 3, true, false⟩
        ⟨0, 3, 2, false, false, false, false, 0, [], SVM_TLB_FLUSH_ENTIRE, 9⟩).vcpu.u8TLBFlush
      = SVM_TLB_FLUSH_NOTHING ∧
    (hmR0SvmFlushTaggedTlb ⟨false, 64, 0⟩ ⟨0, 5, 3, true, false⟩
        ⟨0, 3, 2, false, false, false, false, 0, [], SVM_TLB_FLUSH_ENTIRE, 9⟩).vcpu.u32ASID
      = 2 :=
  have h := flush_reuse_no_flush ⟨false, 64, 0⟩ ⟨0, 5, 3, true, false⟩
    ⟨0, 3, 2, false, false, false, false, 0, [], SVM_TLB_FLUSH_ENTIRE, 9⟩ rfl rfl rfl rfl rfl
  ⟨h.1, h.2.2.1⟩

/-- C14: for every input state and every branch, after the call the
pending-shootdown page count is 0, `VMCPU_FF_TLB_SHOOTDOWN` and
`VMCPU_FF_TLB_FLUSH` are clear, and `idLastCpu` is the physical CPU's id. -/
theorem flush_clears_requests (vm : VM) (pCpu : HMGLOBLCPUINFO) (pVCpu : VMCPU) :
    (hmR0SvmFlushTaggedTlb vm pCpu pVCpu).vcpu.cPages = 0 ∧
    (hmR0SvmFlushTaggedTlb vm pCpu pVCpu).vcpu.ffTlbShootdown = false ∧
    (hmR0SvmFlushTaggedTlb vm pCpu pVCpu).vcpu.ffTlbFlush = false ∧
    (hmR0SvmFlushTaggedTlb vm pCpu pVCpu).vcpu.idLastCpu = pCpu.idCpu := by
  refine ⟨rfl, rfl, ?_, flush_vcpu_idLastCpu vm pCpu pVCpu⟩
  unfold hmR0SvmFlushTaggedTlb flushNewAsid
  cases h3 : vm.fAlwaysFlushTLB <;> cases h0 : fNewAsid pCpu pVCpu <;>
  cases h4 : pVCpu.ffTlbFlush <;> cases h5 : pVCpu.fForceTLBFlush <;>
  cases h6 : pVCpu.ffTlbShootdown <;>
  simp [h0, h3, h4, h5, h6] <;> (repeat' split) <;> simp_all

/-! ## Per-VM teardown: lemmas and claim -/

theorem freeVCpu_cpu (st : R0Mem) (c : SVMCPU) : (freeVCpu st c).2 = freedCpu c := by
  obtain ⟨h1, p1, q1, h2, p2, q2, h3, p3, q3⟩ := c
  unfold freeVCpu freedCpu
  by_cases e1 : h1 = NIL_RTR0MEMOBJ <;> by_cases e2 : h2 = NIL_RTR0MEMOBJ <;>
    by_cases e3 : h3 = NIL_RTR0MEMOBJ <;> simp [e1, e2, e3]

theorem freeVCpu_mem (st : R0Mem) (c : SVMCPU) :
    (freeVCpu st c).1 =
      { st with live := fun x => if x ∈ cpuHandles c then false else st.live x,
                freed := st.freed ++ cpuHandles c } := by
  obtain ⟨h1, p1, q1, h2, p2, q2, h3, p3, q3⟩ := c
  unfold freeVCpu cpuHandles RTR0MemObjFree
  by_cases e1 : h1 = NIL_RTR0MEMOBJ <;> by_cases e2 : h2 = NIL_RTR0MEMOBJ <;>
    by_cases e3 : h3 = NIL_RTR0MEMOBJ <;>
    simp [e1, e2, e3, List.filter] <;>
    try (funext x; ac_rfl)

theorem vmHandlesFrom_congr (vm vm1 : VMStructs) (n i : Nat)
    (h : ∀ j, i ≤ j → vm1.aCpus j = vm.aCpus j) :
    vmHandlesFrom vm1 n i = vmHandlesFrom vm n i := by
  induction n generalizing i with
  | zero => rfl
  | succ n ih =>
    simp only [vmHandlesFrom]
    rw [h i (Nat.le_refl i), ih (i + 1) (fun j hj => h j (by omega))]

theorem freeLoop_spec (n i : Nat) (st : R0Mem) (vm : VMStructs) :
    (freeLoop n i st vm).1 =
      { st with live := fun x => if x ∈ vmHandlesFrom vm n i then false else st.live x,
                freed := st.freed ++ vmHandlesFrom vm n i } ∧
    (freeLoop n i st vm).2 =
      { vm with aCpus := fun j =>
          if i ≤ j ∧ j < i + n then freedCpu (vm.aCpus j) else vm.aCpus j } := by
  induction n generalizing i st vm with
  | zero =>
    constructor
    · cases st; simp [freeLoop, vmHandlesFrom]
    · cases vm
      simp only [freeLoop, VMStructs.mk.injEq, true_and, and_true]
      funext j
      split
      · omega
      · rfl
  | succ n ih =>
    have hc : vmHandlesFrom
        { vm with aCpus := setCpu vm.aCpus i (freeVCpu st (vm.aCpus i)).2 } n (i + 1) =
        vmHandlesFrom vm n (i + 1) :=
      vmHandlesFrom_congr vm _ n (i + 1) (fun j hj => by
        have : j ≠ i := by omega
        simp [setCpu, this])
    simp only [freeLoop]
    rw [(ih (i + 1) _ _).1, (ih (i + 1) _ _).2, hc, freeVCpu_mem, freeVCpu_cpu]
    constructor
    · simp only [vmHandlesFrom, List.mem_append, List.append_assoc]
      congr 1
      funext x
      by_cases h1 : x ∈ cpuHandles (vm.aCpus i) <;>
        by_cases h2 : x ∈ vmHandlesFrom vm n (i + 1) <;> simp [h1, h2]
    · congr 1
      funext j
      simp only [setCpu]
      by_cases hji : j = i
      · subst hji
        simp
      · by_cases h1 : i ≤ j ∧ j < i + (n + 1)
        · have h2 : i + 1 ≤ j ∧ j < i + 1 + n := by omega
          simp [hji, h1, h2]
        · have h2 : ¬ (i + 1 ≤ j ∧ j < i + 1 + n) := by omega
          simp [hji, h1, h2]

theorem cpuHandles_freedCpu (c : SVMCPU) : cpuHandles (freedCpu c) = [] := by
  simp [cpuHandles, freedCpu]

theorem freedCpu_idem (c : SVMCPU) : freedCpu (freedCpu c) = freedCpu c := by
  simp [freedCpu]

theorem vmHandlesFrom_nil (vm : VMStructs) (n i : Nat)
    (h : ∀ j, i ≤ j → j < i + n → cpuHandles (vm.aCpus j) = []) :
    vmHandlesFrom vm n i = [] := by
  induction n generalizing i with
  | zero => rfl
  | succ n ih =>
    simp only [vmHandlesFrom]
    rw [h i (Nat.le_refl i) (by omega), ih (i + 1) (fun j h1 h2 => h j (by omega) (by omega))]
    rfl

theorem mem_vmHandlesFrom (vm : VMStructs) (n i h : Nat) :
    h ∈ vmHandlesFrom vm n i ↔
      h ≠ NIL_RTR0MEMOBJ ∧ ∃ j, i ≤ j ∧ j < i + n ∧
        (h = (vm.aCpus j).hMemObjVmcbHost ∨ h = (vm.aCpus j).hMemObjVmcb ∨
          h = (vm.aCpus j).hMemObjMsrBitmap) := by
  induction n generalizing i with
  | zero =>
    simp only [vmHandlesFrom, List.not_mem_nil, false_iff]
    rintro ⟨_, j, h1, h2, _⟩
    omega
  | succ n ih =>
    simp only [vmHandlesFrom, List.mem_append, ih (i + 1)]
    constructor
    · rintro (h1 | ⟨h0, j, h1, h2, h3⟩)
      · simp only [cpuHandles, List.mem_filter, List.mem_cons, List.mem_singleton,
          List.not_mem_nil, or_false, decide_eq_true_eq] at h1
        exact ⟨h1.2, i, Nat.le_refl i, by omega, h1.1⟩
      · exact ⟨h0, j, by omega, by omega, h3⟩
    · rintro ⟨h0, j, h1, h2, h3⟩
      by_cases hji : j = i
      · subst hji
        left
        simp only [cpuHandles, List.mem_filter, List.mem_cons, List.mem_singleton,
          List.not_mem_nil, or_false, decide_eq_true_eq]
        exact ⟨h3, h0⟩
      · right
        exact ⟨h0, j, by omega, by omega, h3⟩

theorem hmR0SvmFreeStructs_noop (st : R0Mem) (vm : VMStructs)
    (h : ∀ j, j < vm.cCpus → freedCpu (vm.aCpus j) = vm.aCpus j) :
    hmR0SvmFreeStructs st vm = (st, vm) := by
  have hs := freeLoop_spec vm.cCpus 0 st vm
  have hn : vmHandlesFrom vm vm.cCpus 0 = [] := by
    apply vmHandlesFrom_nil
    intro j _ h2
    rw [← h j (by omega)]
    exact cpuHandles_freedCpu _
  unfold hmR0SvmFreeStructs
  apply Prod.ext
  · rw [hs.1, hn]
    cases st
    simp
  · rw [hs.2]
    cases vm with
    | mk cCpus aCpus fNested fAlways =>
      simp only [VMStructs.mk.injEq, true_and, and_true]
      funext j
      split
      · next hj => exact h j (by simp only []; omega)
      · rfl

/-- C17: `SVMR0TermVM` returns success and calls `RTR0MemObjFree` exactly on
the non-nil handles of the virtual CPUs `0 .. cCpus-1`, one call per slot that
holds one (so each region once when no two slots share a handle) and none for
a nil slot; afterwards those regions are no longer allocated, every handle of
every virtual CPU is nil, and the two addresses of every region that was freed
are zero (a slot that was already nil is skipped, so its address fields stay
as they were). A second `SVMR0TermVM` then frees nothing and changes nothing.
When the nil slots had null addresses to begin with, every handle and every
address of every virtual CPU is zero afterwards. -/
theorem termVM_releases_allocated (st : R0Mem) (vm : VMStructs) :
    (SVMR0TermVM st vm).1 = Rc.VINF_SUCCESS ∧
    (SVMR0TermVM st vm).2.1.freed = st.freed ++ vmHandles vm ∧
    (∀ h, h ∈ vmHandles vm ↔
      h ≠ NIL_RTR0MEMOBJ ∧ ∃ j, j < vm.cCpus ∧
        (h = (vm.aCpus j).hMemObjVmcbHost ∨ h = (vm.aCpus j).hMemObjVmcb ∨
          h = (vm.aCpus j).hMemObjMsrBitmap)) ∧
    ((vmHandles vm).Nodup → ∀ h ∈ vmHandles vm, (vmHandles vm).count h = 1) ∧
    (∀ h, (SVMR0TermVM st vm).2.1.live h =
      if h ∈ vmHandles vm then false else st.live h) ∧
    (∀ i, i < vm.cCpus →
      (SVMR0TermVM st vm).2.2.aCpus i = freedCpu (vm.aCpus i) ∧
      ((SVMR0TermVM st vm).2.2.aCpus i).hMemObjVmcbHost = NIL_RTR0MEMOBJ ∧
      ((SVMR0TermVM st vm).2.2.aCpus i).hMemObjVmcb = NIL_RTR0MEMOBJ ∧
      ((SVMR0TermVM st vm).2.2.aCpus i).hMemObjMsrBitmap = NIL_RTR0MEMOBJ) ∧
    vmHandles (SVMR0TermVM st vm).2.2 = [] ∧
    SVMR0TermVM (SVMR0TermVM st vm).2.1 (SVMR0TermVM st vm).2.2 =
      (Rc.VINF_SUCCESS, (SVMR0TermVM st vm).2.1, (SVMR0TermVM st vm).2.2) ∧
    ((∀ i, i < vm.cCpus → nilSlotsNull (vm.aCpus i)) →
      ∀ i, i < vm.cCpus →
        (SVMR0TermVM st vm).2.2.aCpus i = ⟨NIL_RTR0MEMOBJ, 0, 0, NIL_RTR0MEMOBJ, 0, 0,
          NIL_RTR0MEMOBJ, 0, 0⟩) := by
  have hs := freeLoop_spec vm.cCpus 0 st vm
  have hcpu : ∀ i, i < vm.cCpus →
      (hmR0SvmFreeStructs st vm).2.aCpus i = freedCpu (vm.aCpus i) := by
    intro i hi
    unfold hmR0SvmFreeStructs
    rw [hs.2]
    have : 0 ≤ i ∧ i < 0 + vm.cCpus := by omega
    simp only [this, and_self, if_true]
  have hcc : (hmR0SvmFreeStructs st vm).2.cCpus = vm.cCpus := by
    unfold hmR0SvmFreeStructs
    rw [hs.2]
  have hnil : vmHandles (hmR0SvmFreeStructs st vm).2 = [] := by
    unfold vmHandles
    rw [hcc]
    apply vmHandlesFrom_nil
    intro j _ h2
    rw [hcpu j (by omega)]
    exact cpuHandles_freedCpu _
  refine ⟨rfl, ?_, ?_, ?_, ?_, ?_, hnil, ?_, ?_⟩
  · show (hmR0SvmFreeStructs st vm).1.freed = _
    unfold hmR0SvmFreeStructs vmHandles
    rw [hs.1]
  · intro h
    unfold vmHandles
    rw [mem_vmHandlesFrom]
    constructor
    · rintro ⟨h0, j, _, h2, h3⟩
      exact ⟨h0, j, by omega, h3⟩
    · rintro ⟨h0, j, h2, h3⟩
      exact ⟨h0, j, Nat.zero_le j, by omega, h3⟩
  · intro hnd h hh
    exact List.count_eq_one_of_mem hnd hh
  · intro h
    show (hmR0SvmFreeStructs st vm).1.live h = _
    unfold hmR0SvmFreeStructs vmHandles
    rw [hs.1]
  · intro i hi
    have e : (SVMR0TermVM st vm).2.2.aCpus i = freedCpu (vm.aCpus i) := hcpu i hi
    rw [e]
    exact ⟨rfl, rfl, rfl, rfl⟩
  · show (Rc.VINF_SUCCESS, hmR0SvmFreeStructs _ _) = _
    rw [hmR0SvmFreeStructs_noop]
    intro j hj
    have hj1 : j < vm.cCpus := hcc ▸ hj
    have e : (SVMR0TermVM st vm).2.2.aCpus j = freedCpu (vm.aCpus j) := hcpu j hj1
    rw [e, freedCpu_idem]
  · intro hwf i hi
    have e : (SVMR0TermVM st vm).2.2.aCpus i = freedCpu (vm.aCpus i) := hcpu i hi
    obtain ⟨w1, w2, w3⟩ := hwf i hi
    rw [e]
    unfold freedCpu
    by_cases e1 : (vm.aCpus i).hMemObjVmcbHost = NIL_RTR0MEMOBJ <;>
      by_cases e2 : (vm.aCpus i).hMemObjVmcb = NIL_RTR0MEMOBJ <;>
      by_cases e3 : (vm.aCpus i).hMemObjMsrBitmap = NIL_RTR0MEMOBJ <;>
      simp_all

/-! ## Per-VM allocation: lemmas and claim -/

theorem testBit_ffffffff (k : Nat) (h : k < 32) : Nat.testBit 0xffffffff k = true := by
  have : (0xffffffff : Nat) = 2 ^ 32 - 1 := by norm_num
  rw [this, Nat.testBit_two_pow_sub_one]
  simp [h]

theorem initVCpu_ok (env : R0MemObjEnv) (st : R0Mem) (c : SVMCPU)
    (hok : ∀ k, k < 3 → env.allocRc (st.cAllocs + k) = Rc.VINF_SUCCESS) :
    (initVCpu env st c).1 = none ∧
    (initVCpu env st c).2.2 = initCpuAt env st.cAllocs ∧
    (initVCpu env st c).2.1.cAllocs = st.cAllocs + 3 ∧
    (initVCpu env st c).2.1.freed = st.freed ∧
    (initVCpu env st c).2.1.fNullWrite = st.fNullWrite ∧
    MemAgreeUpTo st (initVCpu env st c).2.1 st.cAllocs ∧
    RegionsOk (initVCpu env st c).2.1 st.cAllocs := by
  have h0 : env.allocRc st.cAllocs = Rc.VINF_SUCCESS := hok 0 (by omega)
  have h1 : env.allocRc (st.cAllocs + 1) = Rc.VINF_SUCCESS := hok 1 (by omega)
  have h2 : env.allocRc (st.cAllocs + 1 + 1) = Rc.VINF_SUCCESS := hok 2 (by omega)
  simp only [initVCpu, RTR0MemObjAllocCont, ASMMemZeroPage, ASMMemFill32, RTR0MemObjAddress,
    h0, h1, h2, PAGE_SHIFT, initCpuAt, MemAgreeUpTo, RegionsOk]
  simp [h0, h1, h2]
  refine ⟨?_, ?_, ?_, ?_⟩
  · intro p hp
    have e1 : p ≠ st.cAllocs + 1 := by omega
    have e2 : p ≠ st.cAllocs + 1 + 1 := by omega
    have e3 : p ≠ st.cAllocs + 1 + 1 + 1 := by omega
    simp [e1, e2, e3]
  · intro b h1 h2
    omega
  · intro b h1 h2
    omega
  · intro b hb
    rw [if_pos hb]
    exact testBit_ffffffff (b % 32) (Nat.mod_lt b (by norm_num))

theorem MemAgreeUpTo_refl (st : R0Mem) (a : Nat) : MemAgreeUpTo st st a :=
  fun _ _ => ⟨rfl, rfl, rfl, rfl⟩

theorem MemAgreeUpTo_trans (st st1 st2 : R0Mem) (a a1 : Nat) (h : a ≤ a1)
    (h1 : MemAgreeUpTo st st1 a) (h2 : MemAgreeUpTo st1 st2 a1) : MemAgreeUpTo st st2 a := by
  intro p hp
  obtain ⟨x1, x2, x3, x4⟩ := h1 p hp
  obtain ⟨y1, y2, y3, y4⟩ := h2 p (by omega)
  exact ⟨y1.trans x1, y2.trans x2, y3.trans x3, y4.trans x4⟩

theorem RegionsOk_frame (st st1 : R0Mem) (a a1 : Nat) (h : a + 3 ≤ a1)
    (hf : MemAgreeUpTo st st1 a1) (hr : RegionsOk st a) : RegionsOk st1 a := by
  obtain ⟨x1, x2, x3, x4⟩ := hf (a + 1) (by omega)
  obtain ⟨y1, y2, y3, y4⟩ := hf (a + 2) (by omega)
  obtain ⟨z1, z2, z3, z4⟩ := hf (a + 3) (by omega)
  unfold RegionsOk at hr ⊢
  rw [x1, x2, x3, y1, y2, y3, y4, z1, z2, z3]
  exact hr

theorem initLoop_ok (env : R0MemObjEnv) (n i : Nat) (st : R0Mem) (vm : VMStructs)
    (hok : ∀ k, k < 3 * n → env.allocRc (st.cAllocs + k) = Rc.VINF_SUCCESS) :
    (initLoop env n i st vm).1 = none ∧
    (initLoop env n i st vm).2.1.cAllocs = st.cAllocs + 3 * n ∧
    (initLoop env n i st vm).2.1.freed = st.freed ∧
    (initLoop env n i st vm).2.1.fNullWrite = st.fNullWrite ∧
    MemAgreeUpTo st (initLoop env n i st vm).2.1 st.cAllocs ∧
    (initLoop env n i st vm).2.2.cCpus = vm.cCpus ∧
    (initLoop env n i st vm).2.2.fNestedPaging = vm.fNestedPaging ∧
    (initLoop env n i st vm).2.2.fAlwaysFlushTLB = vm.fAlwaysFlushTLB ∧
    (∀ j, (initLoop env n i st vm).2.2.aCpus j =
      if i ≤ j ∧ j < i + n then initCpuAt env (st.cAllocs + 3 * (j - i)) else vm.aCpus j) ∧
    (∀ j, i ≤ j → j < i + n →
      RegionsOk (initLoop env n i st vm).2.1 (st.cAllocs + 3 * (j - i))) := by
  induction n generalizing i st vm with
  | zero =>
    refine ⟨rfl, rfl, rfl, rfl, MemAgreeUpTo_refl _ _, rfl, rfl, rfl, ?_, ?_⟩
    · intro j
      have : ¬ (i ≤ j ∧ j < i + 0) := by omega
      rw [if_neg this]
      rfl
    · intro j h1 h2
      omega
  | succ n ih =>
    obtain ⟨b1, b2, b3, b4, b5, b6, b7⟩ :=
      initVCpu_ok env st (vm.aCpus i) (fun k hk => hok k (by omega))
    have hstep : initLoop env (n + 1) i st vm =
        initLoop env n (i + 1) (initVCpu env st (vm.aCpus i)).2.1
          { vm with aCpus := setCpu vm.aCpus i (initVCpu env st (vm.aCpus i)).2.2 } := by
      simp only [initLoop, b1]
    rw [hstep]
    obtain ⟨c1, c2, c3, c4, c5, c6, c7, c8, c9, c10⟩ :=
      ih (i + 1) (initVCpu env st (vm.aCpus i)).2.1
        { vm with aCpus := setCpu vm.aCpus i (initVCpu env st (vm.aCpus i)).2.2 }
        (fun k hk => by rw [b3]; have := hok (3 + k) (by omega); rwa [← Nat.add_assoc] at this)
    rw [b3] at c2 c5 c9 c10
    refine ⟨c1, by rw [c2]; omega, c3.trans b4, c4.trans b5,
      MemAgreeUpTo_trans _ _ _ _ _ (by omega) b6 c5, c6, c7, c8, ?_, ?_⟩
    · intro j
      rw [c9 j]
      by_cases hji : j = i
      · subst hji
        have e1 : ¬ (j + 1 ≤ j ∧ j < j + 1 + n) := by omega
        have e2 : j ≤ j ∧ j < j + (n + 1) := by omega
        rw [if_neg e1, if_pos e2]
        simp only [setCpu, if_true, b2, Nat.sub_self, Nat.mul_zero, Nat.add_zero]
      · by_cases h1 : i ≤ j ∧ j < i + (n + 1)
        · have e1 : i + 1 ≤ j ∧ j < i + 1 + n := by omega
          rw [if_pos e1, if_pos h1]
          congr 1
          omega
        · have e1 : ¬ (i + 1 ≤ j ∧ j < i + 1 + n) := by omega
          rw [if_neg e1, if_neg h1]
          simp [setCpu, hji]
    · intro j h1 h2
      by_cases hji : j = i
      · subst hji
        have : st.cAllocs + 3 * (j - j) = st.cAllocs := by omega
        rw [this]
        exact RegionsOk_frame _ _ _ _ (by omega) c5 b7
      · have e : st.cAllocs + 3 * (j - i) = st.cAllocs + 3 + 3 * (j - (i + 1)) := by omega
        rw [e]
        exact c10 j (by omega) (by omega)

/-- What a successful `SVMR0InitVM` leaves behind, in terms of the allocation
counter `st.cAllocs` at entry. -/
theorem SVMR0InitVM_ok (env : R0MemObjEnv) (fErratum170 : Bool) (st : R0Mem) (vm : VMStructs)
    (hok : ∀ k, k < 3 * vm.cCpus → env.allocRc (st.cAllocs + k) = Rc.VINF_SUCCESS) :
    (SVMR0InitVM env fErratum170 st vm).1 = Rc.VINF_SUCCESS ∧
    (SVMR0InitVM env fErratum170 st vm).2.2.cCpus = vm.cCpus ∧
    (SVMR0InitVM env fErratum170 st vm).2.2.fNestedPaging = vm.fNestedPaging ∧
    (SVMR0InitVM env fErratum170 st vm).2.1.freed = st.freed ∧
    (SVMR0InitVM env fErratum170 st vm).2.1.fNullWrite = st.fNullWrite ∧
    MemAgreeUpTo st (SVMR0InitVM env fErratum170 st vm).2.1 st.cAllocs ∧
    (∀ i, i < vm.cCpus →
      (SVMR0InitVM env fErratum170 st vm).2.2.aCpus i = initCpuAt env (st.cAllocs + 3 * i) ∧
      RegionsOk (SVMR0InitVM env fErratum170 st vm).2.1 (st.cAllocs + 3 * i)) := by
  have hcc : (nilHandles (checkErratum170 fErratum170 vm)).cCpus = vm.cCpus := by
    unfold nilHandles checkErratum170
    split <;> rfl
  have hnp : (nilHandles (checkErratum170 fErratum170 vm)).fNestedPaging = vm.fNestedPaging := by
    unfold nilHandles checkErratum170
    split <;> rfl
  obtain ⟨c1, c2, c3, c4, c5, c6, c7, c8, c9, c10⟩ :=
    initLoop_ok env vm.cCpus 0 st (nilHandles (checkErratum170 fErratum170 vm)) hok
  have hrun : SVMR0InitVM env fErratum170 st vm =
      (Rc.VINF_SUCCESS,
        (initLoop env vm.cCpus 0 st (nilHandles (checkErratum170 fErratum170 vm))).2.1,
        (initLoop env vm.cCpus 0 st (nilHandles (checkErratum170 fErratum170 vm))).2.2) := by
    unfold SVMR0InitVM
    simp only [hcc]
    split
    · next st1 vm3 heq => rw [heq]
    · next rc st1 vm3 heq =>
      rw [heq] at c1
      exact absurd c1 (by simp)
  rw [hrun]
  refine ⟨rfl, c6.trans hcc, c7.trans hnp, c3, c4, c5, ?_⟩
  intro i hi
  have e : (0 ≤ i ∧ i < 0 + vm.cCpus) := by omega
  have := c9 i
  rw [if_pos e] at this
  simp only [Nat.sub_zero] at this
  have h10 := c10 i (by omega) (by omega)
  simp only [Nat.sub_zero] at h10
  exact ⟨this, h10⟩

theorem msrDocBit_valid (m : Nat) (h : validMsr m) :
    ∃ d, msrDocBit m = some d ∧ d + 1 < 0x2000 * 8 := by
  rcases h with h | h | h
  · exact ⟨0 * 8 + 2 * (m - 0), by simp [msrDocBit, msrWindow, h], by omega⟩
  · have h1 : ¬ m ≤ 0x1FFF := by omega
    exact ⟨0x800 * 8 + 2 * (m - 0xC0000000), by simp [msrDocBit, msrWindow, h, h1], by omega⟩
  · have h1 : ¬ m ≤ 0x1FFF := by omega
    have h2 : ¬ (0xC0000000 ≤ m ∧ m ≤ 0xC0001FFF) := by omega
    exact ⟨0x1000 * 8 + 2 * (m - 0xC0010000), by simp [msrDocBit, msrWindow, h, h1, h2],
      by omega⟩

/-- C16: when the `3 * cCpus` allocations all succeed, `SVMR0InitVM` returns
success and, for every virtual CPU `i < cCpus`: the three handles are non-nil,
pairwise distinct, allocated (with sizes 4 KiB, 4 KiB, 8 KiB) and shared with no
other virtual CPU; the recorded addresses are those of the three objects; the
host-save page and the VMCB page are entirely zero (the VMCB reads as all
fields 0); every bit of the 8 KiB MSR bitmap is set, so every MSR of the three
ranges reads as intercepted for read and write. -/
theorem initVM_success (env : R0MemObjEnv) (fErratum170 : Bool) (st : R0Mem) (vm : VMStructs)
    (hok : ∀ k, k < 3 * vm.cCpus → env.allocRc (st.cAllocs + k) = Rc.VINF_SUCCESS) :
    (SVMR0InitVM env fErratum170 st vm).1 = Rc.VINF_SUCCESS ∧
    (∀ i j, i < vm.cCpus → j < vm.cCpus →
      ∀ h, h ∈ cpuHandles ((SVMR0InitVM env fErratum170 st vm).2.2.aCpus i) →
        h ∈ cpuHandles ((SVMR0InitVM env fErratum170 st vm).2.2.aCpus j) → i = j) ∧
    (∀ i, i < vm.cCpus →
      ((SVMR0InitVM env fErratum170 st vm).2.2.aCpus i).hMemObjVmcbHost ≠ NIL_RTR0MEMOBJ ∧
      ((SVMR0InitVM env fErratum170 st vm).2.2.aCpus i).hMemObjVmcb ≠ NIL_RTR0MEMOBJ ∧
      ((SVMR0InitVM env fErratum170 st vm).2.2.aCpus i).hMemObjMsrBitmap ≠ NIL_RTR0MEMOBJ ∧
      ((SVMR0InitVM env fErratum170 st vm).2.2.aCpus i).hMemObjVmcbHost ≠
        ((SVMR0InitVM env fErratum170 st vm).2.2.aCpus i).hMemObjVmcb ∧
      ((SVMR0InitVM env fErratum170 st vm).2.2.aCpus i).hMemObjVmcbHost ≠
        ((SVMR0InitVM env fErratum170 st vm).2.2.aCpus i).hMemObjMsrBitmap ∧
      ((SVMR0InitVM env fErratum170 st vm).2.2.aCpus i).hMemObjVmcb ≠
        ((SVMR0InitVM env fErratum170 st vm).2.2.aCpus i).hMemObjMsrBitmap ∧
      (SVMR0InitVM env fErratum170 st vm).2.1.live
        ((SVMR0InitVM env fErratum170 st vm).2.2.aCpus i).hMemObjVmcbHost = true ∧
      (SVMR0InitVM env fErratum170 st vm).2.1.live
        ((SVMR0InitVM env fErratum170 st vm).2.2.aCpus i).hMemObjVmcb = true ∧
      (SVMR0InitVM env fErratum170 st vm).2.1.live
        ((SVMR0InitVM env fErratum170 st vm).2.2.aCpus i).hMemObjMsrBitmap = true ∧
      (SVMR0InitVM env fErratum170 st vm).2.1.cb
        ((SVMR0InitVM env fErratum170 st vm).2.2.aCpus i).hMemObjVmcbHost = 0x1000 ∧
      (SVMR0InitVM env fErratum170 st vm).2.1.cb
        ((SVMR0InitVM env fErratum170 st vm).2.2.aCpus i).hMemObjVmcb = 0x1000 ∧
      (SVMR0InitVM env fErratum170 st vm).2.1.cb
        ((SVMR0InitVM env fErratum170 st vm).2.2.aCpus i).hMemObjMsrBitmap = 0x2000 ∧
      ((SVMR0InitVM env fErratum170 st vm).2.2.aCpus i).pvVmcbHost =
        RTR0MemObjAddress ((SVMR0InitVM env fErratum170 st vm).2.2.aCpus i).hMemObjVmcbHost ∧
      ((SVMR0InitVM env fErratum170 st vm).2.2.aCpus i).pvVmcb =
        RTR0MemObjAddress ((SVMR0InitVM env fErratum170 st vm).2.2.aCpus i).hMemObjVmcb ∧
      ((SVMR0InitVM env fErratum170 st vm).2.2.aCpus i).pvMsrBitmap =
        RTR0MemObjAddress ((SVMR0InitVM env fErratum170 st vm).2.2.aCpus i).hMemObjMsrBitmap ∧
      (∀ b, b < 0x1000 * 8 → (SVMR0InitVM env fErratum170 st vm).2.1.pages
        ((SVMR0InitVM env fErratum170 st vm).2.2.aCpus i).pvVmcbHost b = false) ∧
      (∀ b, b < 0x1000 * 8 → (SVMR0InitVM env fErratum170 st vm).2.1.pages
        ((SVMR0InitVM env fErratum170 st vm).2.2.aCpus i).pvVmcb b = false) ∧
      (SVMR0InitVM env fErratum170 st vm).2.1.vmcbs
        ((SVMR0InitVM env fErratum170 st vm).2.2.aCpus i).pvVmcb = vmcbZero ∧
      (∀ b, b < 0x2000 * 8 → (SVMR0InitVM env fErratum170 st vm).2.1.pages
        ((SVMR0InitVM env fErratum170 st vm).2.2.aCpus i).pvMsrBitmap b = true) ∧
      (∀ m, validMsr m → msrBitmapRead ((SVMR0InitVM env fErratum170 st vm).2.1.pages
        ((SVMR0InitVM env fErratum170 st vm).2.2.aCpus i).pvMsrBitmap) m = some (true, true))) := by
  obtain ⟨h1, _, _, _, _, _, h7⟩ := SVMR0InitVM_ok env fErratum170 st vm hok
  refine ⟨h1, ?_, ?_⟩
  · intro i j hi hj h hhi hhj
    rw [(h7 i hi).1] at hhi
    rw [(h7 j hj).1] at hhj
    simp only [cpuHandles, initCpuAt, NIL_RTR0MEMOBJ, List.mem_filter, List.mem_cons,
      List.mem_singleton, List.not_mem_nil, or_false] at hhi hhj
    omega
  · intro i hi
    obtain ⟨e, r1, r2, r3, r4, r5, r6, r7, r8, r9, r10⟩ := h7 i hi
    rw [e]
    simp only [initCpuAt, RTR0MemObjAddress, NIL_RTR0MEMOBJ]
    refine ⟨by omega, by omega, by omega, by omega, by omega, by omega, r1, r2, r3, r4, r5, r6,
      trivial, trivial, trivial, r7, r8, r9, r10, ?_⟩
    intro m hm
    obtain ⟨d, hd1, hd2⟩ := msrDocBit_valid m hm
    simp only [msrBitmapRead, hd1, Option.map_some']
    rw [r10 d (by omega), r10 (d + 1) hd2]

/-! ## VMCB configuration: lemmas -/

theorem lor_land_self (x m : Nat) : (x ||| m) &&& m = m := by
  apply Nat.eq_of_testBit_eq
  intro k
  rw [Nat.testBit_and, Nat.testBit_or]
  cases x.testBit k <;> cases m.testBit k <;> rfl

theorem setupMsrPassthru_vmcbs (st : R0Mem) (pv : Nat) :
    (setupMsrPassthru st pv).vmcbs = st.vmcbs := by
  unfold setupMsrPassthru hmR0SvmSetMSRPermissionAt
  by_cases h : pv = 0 <;> simp [h]

theorem setupMsrPassthru_pages (st : R0Mem) (pv p : Nat) :
    (setupMsrPassthru st pv).pages p =
      if p = pv ∧ pv ≠ 0 then setupMsrBitmap (st.pages p) else st.pages p := by
  unfold setupMsrPassthru hmR0SvmSetMSRPermissionAt setupMsrBitmap msrAllowlist
  by_cases h : pv = 0
  · simp [h]
  · by_cases hp : p = pv
    · simp [h, hp]
    · simp [h, hp]

theorem setupVCpu_null (fDebug : Bool) (io : Nat) (vm : VMStructs) (st : R0Mem) (c : SVMCPU)
    (h : c.pvVmcb = 0) :
    setupVCpu fDebug io vm st c = (some Rc.VERR_SVM_INVALID_PVMCB, st) := by
  simp [setupVCpu, h]

theorem setupVCpu_ok (fDebug : Bool) (io : Nat) (vm : VMStructs) (st : R0Mem) (c : SVMCPU)
    (h : c.pvVmcb ≠ 0) :
    (setupVCpu fDebug io vm st c).1 = none ∧
    (∀ p, (setupVCpu fDebug io vm st c).2.vmcbs p =
      if p = c.pvVmcb then setupVmcb fDebug vm.fNestedPaging io c.HCPhysMsrBitmap (st.vmcbs p)
      else st.vmcbs p) ∧
    (∀ p, (setupVCpu fDebug io vm st c).2.pages p =
      if p = c.pvMsrBitmap ∧ c.pvMsrBitmap ≠ 0 then setupMsrBitmap (st.pages p)
      else st.pages p) := by
  simp only [setupVCpu, h, if_false]
  refine ⟨trivial, ?_, ?_⟩
  · intro p
    rw [setupMsrPassthru_vmcbs]
  · intro p
    rw [setupMsrPassthru_pages]

theorem setupLoop_vmcbs_pres (fDebug : Bool) (io : Nat) (vm : VMStructs)
    (Q : SVMVMCB → Prop)
    (hQ : ∀ m v, Q v → Q (setupVmcb fDebug vm.fNestedPaging io m v))
    (n i : Nat) (st : R0Mem) (p : Nat) (h : Q (st.vmcbs p)) :
    Q ((setupLoop fDebug io vm n i st).2.vmcbs p) := by
  induction n generalizing i st with
  | zero => exact h
  | succ n ih =>
    by_cases hz : (vm.aCpus i).pvVmcb = 0
    · simp only [setupLoop, setupVCpu_null fDebug io vm st _ hz]
      exact h
    · obtain ⟨b1, b2, _⟩ := setupVCpu_ok fDebug io vm st (vm.aCpus i) hz
      simp only [setupLoop, b1]
      apply ih
      rw [b2 p]
      split
      · exact hQ _ _ h
      · exact h

theorem setupLoop_pages_pres (fDebug : Bool) (io : Nat) (vm : VMStructs)
    (Q : BitMem → Prop) (hQ : ∀ B, Q B → Q (setupMsrBitmap B))
    (n i : Nat) (st : R0Mem) (p : Nat) (h : Q (st.pages p)) :
    Q ((setupLoop fDebug io vm n i st).2.pages p) := by
  induction n generalizing i st with
  | zero => exact h
  | succ n ih =>
    by_cases hz : (vm.aCpus i).pvVmcb = 0
    · simp only [setupLoop, setupVCpu_null fDebug io vm st _ hz]
      exact h
    · obtain ⟨b1, _, b3⟩ := setupVCpu_ok fDebug io vm st (vm.aCpus i) hz
      simp only [setupLoop, b1]
      apply ih
      rw [b3 p]
      split
      · exact hQ _ h
      · exact h

/-- The loop runs to its end exactly when no virtual CPU in its range has a
null `pvVmcb`. -/
theorem setupLoop_none_iff (fDebug : Bool) (io : Nat) (vm : VMStructs) (n i : Nat) (st : R0Mem) :
    (setupLoop fDebug io vm n i st).1 = none ↔
      ∀ j, i ≤ j → j < i + n → (vm.aCpus j).pvVmcb ≠ 0 := by
  induction n generalizing i st with
  | zero =>
    simp only [setupLoop, true_iff]
    intro j h1 h2
    omega
  | succ n ih =>
    by_cases hz : (vm.aCpus i).pvVmcb = 0
    · simp only [setupLoop, setupVCpu_null fDebug io vm st _ hz]
      constructor
      · intro h
        exact absurd h (by simp)
      · intro h
        exact absurd hz (h i (Nat.le_refl i) (by omega))
    · obtain ⟨b1, _, _⟩ := setupVCpu_ok fDebug io vm st (vm.aCpus i) hz
      simp only [setupLoop, b1]
      rw [ih]
      constructor
      · intro h j h1 h2
        by_cases hji : j = i
        · rw [hji]; exact hz
        · exact h j (by omega) (by omega)
      · intro h j h1 h2
        exact h j (by omega) (by omega)

theorem setupLoop_some (fDebug : Bool) (io : Nat) (vm : VMStructs) (n i : Nat) (st : R0Mem)
    (rc : Rc) (h : (setupLoop fDebug io vm n i st).1 = some rc) :
    rc = Rc.VERR_SVM_INVALID_PVMCB := by
  induction n generalizing i st with
  | zero => simp [setupLoop] at h
  | succ n ih =>
    by_cases hz : (vm.aCpus i).pvVmcb = 0
    · simp only [setupLoop, setupVCpu_null fDebug io vm st _ hz] at h
      exact (Option.some.inj h).symm
    · obtain ⟨b1, _, _⟩ := setupVCpu_ok fDebug io vm st (vm.aCpus i) hz
      simp only [setupLoop, b1] at h
      exact ih _ _ h

theorem setupLoop_vmcbs_est (fDebug : Bool) (io : Nat) (vm : VMStructs)
    (P : SVMVMCB → Prop)
    (hP : ∀ m v, P (setupVmcb fDebug vm.fNestedPaging io m v))
    (n i : Nat) (st : R0Mem)
    (hn : (setupLoop fDebug io vm n i st).1 = none) (j : Nat) (h1 : i ≤ j) (h2 : j < i + n) :
    P ((setupLoop fDebug io vm n i st).2.vmcbs (vm.aCpus j).pvVmcb) := by
  induction n generalizing i st with
  | zero => omega
  | succ n ih =>
    have hz : (vm.aCpus i).pvVmcb ≠ 0 :=
      (setupLoop_none_iff fDebug io vm (n + 1) i st).1 hn i (Nat.le_refl i) (by omega)
    obtain ⟨b1, b2, _⟩ := setupVCpu_ok fDebug io vm st (vm.aCpus i) hz
    simp only [setupLoop, b1] at hn ⊢
    by_cases hji : j = i
    · apply setupLoop_vmcbs_pres fDebug io vm P (fun m v _ => hP m v)
      rw [b2, hji, if_pos rfl]
      exact hP _ _
    · exact ih (i + 1) _ hn (by omega) (by omega)

theorem setupLoop_pages_est (fDebug : Bool) (io : Nat) (vm : VMStructs)
    (P : BitMem → Prop) (hP : ∀ B, P (setupMsrBitmap B))
    (n i : Nat) (st : R0Mem)
    (hn : (setupLoop fDebug io vm n i st).1 = none) (j : Nat) (h1 : i ≤ j) (h2 : j < i + n)
    (hj : (vm.aCpus j).pvMsrBitmap ≠ 0) :
    P ((setupLoop fDebug io vm n i st).2.pages (vm.aCpus j).pvMsrBitmap) := by
  induction n generalizing i st with
  | zero => omega
  | succ n ih =>
    have hz : (vm.aCpus i).pvVmcb ≠ 0 :=
      (setupLoop_none_iff fDebug io vm (n + 1) i st).1 hn i (Nat.le_refl i) (by omega)
    obtain ⟨b1, _, b3⟩ := setupVCpu_ok fDebug io vm st (vm.aCpus i) hz
    simp only [setupLoop, b1] at hn ⊢
    by_cases hji : j = i
    · apply setupLoop_pages_pres fDebug io vm P (fun B _ => hP B)
      rw [b3, hji, if_pos ⟨rfl, hji ▸ hj⟩]
      exact hP _
    · exact ih (i + 1) _ hn (by omega) (by omega)

theorem SVMR0SetupVM_some (fDebug : Bool) (io : Nat) (st : R0Mem) (vm : VMStructs) :
    SVMR0SetupVM fDebug io st (some vm) =
      (match (setupLoop fDebug io vm vm.cCpus 0 st).1 with
        | some rc => rc
        | none => Rc.VINF_SUCCESS,
       (setupLoop fDebug io vm vm.cCpus 0 st).2) := by
  unfold SVMR0SetupVM
  simp only []
  split <;> next heq => rw [heq]

/-! ## MSR pass-through list: lemmas -/

theorem msrDocBit_low_mid (m : Nat) (h : m ≤ 0x1FFF ∨ (0xC0000000 ≤ m ∧ m ≤ 0xC0001FFF)) :
    ∃ pb ul, hmR0SvmMsrBitPos m = some (pb, ul) ∧ msrDocBit m = some (pb * 8 + ul) := by
  rcases h with h | h
  · refine ⟨0, m * 2, hmR0SvmMsrBitPos_low m h, ?_⟩
    simp only [msrDocBit, msrWindow, if_pos h, Option.map_some']
    exact congrArg some (by omega)
  · have h1 : ¬ m ≤ 0x1FFF := by omega
    refine ⟨0x800, (m - 0xC0000000) * 2, hmR0SvmMsrBitPos_mid m h, ?_⟩
    simp only [msrDocBit, msrWindow, if_neg h1, if_pos h, Option.map_some']
    exact congrArg some (by omega)

/-- A pass-through call for an MSR of the first two ranges clears the two bits
at the documented position and nothing else. -/
theorem passthru_apply (B : BitMem) (m d b : Nat)
    (h : m ≤ 0x1FFF ∨ (0xC0000000 ≤ m ∧ m ≤ 0xC0001FFF)) (hd : msrDocBit m = some d) :
    hmR0SvmSetMSRPermission B m SVMMSREXIT_PASSTHRU_READ SVMMSREXIT_PASSTHRU_WRITE b =
      if b = d ∨ b = d + 1 then false else B b := by
  obtain ⟨pb, ul, h1, h2⟩ := msrDocBit_low_mid m h
  rw [h2] at hd
  have hd1 : d = pb * 8 + ul := (Option.some.inj hd).symm
  rw [hmR0SvmSetMSRPermission_apply B m pb ul _ _ h1 b, hd1]
  by_cases e1 : b = pb * 8 + (ul + 1)
  · have : b = pb * 8 + ul ∨ b = pb * 8 + ul + 1 := Or.inr (by omega)
    rw [if_pos e1, if_pos this]
    simp
  · by_cases e2 : b = pb * 8 + ul
    · rw [if_neg e1, if_pos e2, if_pos (Or.inl e2)]
      simp
    · have : ¬ (b = pb * 8 + ul ∨ b = pb * 8 + ul + 1) := by omega
      rw [if_neg e1, if_neg e2, if_neg this]

/-- Pass-through calls for a list of MSRs of the first two ranges clear exactly
the documented bit pairs of the listed MSRs. -/
theorem foldl_passthru_apply (L : List Nat)
    (hL : ∀ m ∈ L, m ≤ 0x1FFF ∨ (0xC0000000 ≤ m ∧ m ≤ 0xC0001FFF)) (B : BitMem) (b : Nat) :
    L.foldl (fun M u => hmR0SvmSetMSRPermission M u SVMMSREXIT_PASSTHRU_READ
        SVMMSREXIT_PASSTHRU_WRITE) B b =
      if ∃ m ∈ L, ∃ d, msrDocBit m = some d ∧ (b = d ∨ b = d + 1) then false else B b := by
  induction L generalizing B with
  | nil => simp
  | cons a L ih =>
    have ha := hL a (List.mem_cons_self a L)
    obtain ⟨pb, ul, _, hd⟩ := msrDocBit_low_mid a ha
    rw [List.foldl_cons, ih (fun m hm => hL m (List.mem_cons_of_mem a hm)),
      passthru_apply B a _ b ha hd]
    by_cases h1 : ∃ m ∈ L, ∃ d, msrDocBit m = some d ∧ (b = d ∨ b = d + 1)
    · have h2 : ∃ m ∈ a :: L, ∃ d, msrDocBit m = some d ∧ (b = d ∨ b = d + 1) := by
        obtain ⟨m, hm, x⟩ := h1
        exact ⟨m, List.mem_cons_of_mem a hm, x⟩
      rw [if_pos h1, if_pos h2]
    · rw [if_neg h1]
      by_cases h3 : b = pb * 8 + ul ∨ b = pb * 8 + ul + 1
      · have h2 : ∃ m ∈ a :: L, ∃ d, msrDocBit m = some d ∧ (b = d ∨ b = d + 1) :=
          ⟨a, List.mem_cons_self a L, _, hd, h3⟩
        rw [if_pos h3, if_pos h2]
      · have h2 : ¬ ∃ m ∈ a :: L, ∃ d, msrDocBit m = some d ∧ (b = d ∨ b = d + 1) := by
          rintro ⟨m, hm, d, hmd, hb⟩
          rcases List.mem_cons.1 hm with e | e
          · rw [e, hd] at hmd
            rw [← Option.some.inj hmd] at hb
            exact h3 hb
          · exact h1 ⟨m, e, d, hmd, hb⟩
        rw [if_neg h3, if_neg h2]

/-- Documented bit pairs of two MSRs of the three ranges overlap only when the
MSRs are equal. -/
theorem msrDocBit_inj (m m1 d d1 : Nat) (hd : msrDocBit m = some d)
    (hd1 : msrDocBit m1 = some d1)
    (h : d = d1 ∨ d = d1 + 1 ∨ d + 1 = d1 ∨ d + 1 = d1 + 1) : m = m1 := by
  simp only [msrDocBit, msrWindow] at hd hd1
  split_ifs at hd hd1 <;> simp at hd hd1 <;> omega

theorem msrAllowlist_low_mid :
    ∀ m ∈ msrAllowlist, m ≤ 0x1FFF ∨ (0xC0000000 ≤ m ∧ m ≤ 0xC0001FFF) := by
  decide

/-- After the ten pass-through calls, the listed MSRs read as pass-through at
their documented positions. -/
theorem setupMsrBitmap_allowed (B : BitMem) (m : Nat) (hm : m ∈ msrAllowlist) :
    msrBitmapRead (setupMsrBitmap B) m = some (false, false) := by
  obtain ⟨pb, ul, _, hd⟩ := msrDocBit_low_mid m (msrAllowlist_low_mid m hm)
  simp only [msrBitmapRead, hd, Option.map_some', setupMsrBitmap]
  rw [foldl_passthru_apply _ msrAllowlist_low_mid, foldl_passthru_apply _ msrAllowlist_low_mid,
    if_pos ⟨m, hm, _, hd, Or.inl rfl⟩, if_pos ⟨m, hm, _, hd, Or.inr rfl⟩]

/-- The ten pass-through calls leave the documented bits of every other MSR of
the three ranges as they were. -/
theorem setupMsrBitmap_other (B : BitMem) (m : Nat) (hv : validMsr m) (hm : m ∉ msrAllowlist) :
    msrBitmapRead (setupMsrBitmap B) m = msrBitmapRead B m := by
  obtain ⟨d, hd, _⟩ := msrDocBit_valid m hv
  simp only [msrBitmapRead, hd, Option.map_some', setupMsrBitmap]
  rw [foldl_passthru_apply _ msrAllowlist_low_mid, foldl_passthru_apply _ msrAllowlist_low_mid]
  have n1 : ¬ ∃ m1 ∈ msrAllowlist, ∃ d1, msrDocBit m1 = some d1 ∧ (d = d1 ∨ d = d1 + 1) := by
    rintro ⟨m1, hm1, d1, hd1, hb⟩
    have := msrDocBit_inj m m1 d d1 hd hd1 (by omega)
    exact hm (this ▸ hm1)
  have n2 : ¬ ∃ m1 ∈ msrAllowlist, ∃ d1, msrDocBit m1 = some d1 ∧
      (d + 1 = d1 ∨ d + 1 = d1 + 1) := by
    rintro ⟨m1, hm1, d1, hd1, hb⟩
    have := msrDocBit_inj m m1 d d1 hd hd1 (by omega)
    exact hm (this ▸ hm1)
  rw [if_neg n1, if_neg n2]

/-! ## Per-VM allocation, teardown and configuration: claims -/

theorem SVMR0SetupVM_success_iff (fDebug : Bool) (io : Nat) (st : R0Mem) (vm : VMStructs) :
    (SVMR0SetupVM fDebug io st (some vm)).1 = Rc.VINF_SUCCESS ↔
      (setupLoop fDebug io vm vm.cCpus 0 st).1 = none := by
  rw [SVMR0SetupVM_some]
  cases h : (setupLoop fDebug io vm vm.cCpus 0 st).1 with
  | none => simp
  | some rc =>
    have := setupLoop_some fDebug io vm vm.cCpus 0 st rc h
    simp [this]

theorem SVMR0SetupVM_mem (fDebug : Bool) (io : Nat) (st : R0Mem) (vm : VMStructs) :
    (SVMR0SetupVM fDebug io st (some vm)).2 = (setupLoop fDebug io vm vm.cCpus 0 st).2 := by
  rw [SVMR0SetupVM_some]

/-- Running `SVMR0SetupVM` right after a successful `SVMR0InitVM` succeeds, and its
loop sees the VMCB and MSR bitmap of every virtual CPU as `SVMR0InitVM` left
them. -/
theorem setup_after_init (env : R0MemObjEnv) (fErratum170 fDebug : Bool) (io : Nat)
    (st : R0Mem) (vm : VMStructs)
    (hok : ∀ k, k < 3 * vm.cCpus → env.allocRc (st.cAllocs + k) = Rc.VINF_SUCCESS) :
    (setupLoop fDebug io (SVMR0InitVM env fErratum170 st vm).2.2
      (SVMR0InitVM env fErratum170 st vm).2.2.cCpus 0
      (SVMR0InitVM env fErratum170 st vm).2.1).1 = none ∧
    (∀ i, i < vm.cCpus →
      ((SVMR0InitVM env fErratum170 st vm).2.2.aCpus i).pvMsrBitmap ≠ 0 ∧
      (SVMR0InitVM env fErratum170 st vm).2.1.vmcbs
        ((SVMR0InitVM env fErratum170 st vm).2.2.aCpus i).pvVmcb = vmcbZero ∧
      ∀ b, b < 0x2000 * 8 → (SVMR0InitVM env fErratum170 st vm).2.1.pages
        ((SVMR0InitVM env fErratum170 st vm).2.2.aCpus i).pvMsrBitmap b = true) := by
  obtain ⟨_, h2, _, _, _, _, h7⟩ := SVMR0InitVM_ok env fErratum170 st vm hok
  constructor
  · rw [setupLoop_none_iff]
    intro j _ hj
    rw [(h7 j (by omega)).1]
    simp [initCpuAt, RTR0MemObjAddress]
  · intro i hi
    obtain ⟨e, r⟩ := h7 i hi
    rw [e]
    simp only [initCpuAt, RTR0MemObjAddress]
    exact ⟨by omega, r.2.2.2.2.2.2.2.2.1, r.2.2.2.2.2.2.2.2.2⟩

/-- C15 (fails when the MSR bitmap allocation fails): with two virtual CPUs
and the sixth allocation (the MSR bitmap of the second virtual CPU) failing,
`SVMR0InitVM` does not go to `failure_cleanup`: it records a nil handle and a
null address for that bitmap, calls `ASMMemFill32` on the null address, and
returns `VINF_SUCCESS` with the five earlier regions still allocated and no
`RTR0MemObjFree` call. When instead the fifth allocation (the VMCB of the
second virtual CPU) fails, it returns the failure, frees the four earlier
regions and leaves every handle nil. -/
theorem initVM_msr_bitmap_failure_leaks :
    (SVMR0InitVM (envFailAt 5) false mem0 (vmBlank 2)).1 = Rc.VINF_SUCCESS ∧
    (SVMR0InitVM (envFailAt 5) false mem0 (vmBlank 2)).2.1.freed = [] ∧
    (List.range 7).map (SVMR0InitVM (envFailAt 5) false mem0 (vmBlank 2)).2.1.live =
      [false, true, true, true, true, true, false] ∧
    (SVMR0InitVM (envFailAt 5) false mem0 (vmBlank 2)).2.1.fNullWrite = true ∧
    (SVMR0InitVM (envFailAt 5) false mem0 (vmBlank 2)).2.2.aCpus 0 =
      ⟨1, 1, 0x1000, 2, 2, 0x2000, 3, 3, 0x3000⟩ ∧
    (SVMR0InitVM (envFailAt 5) false mem0 (vmBlank 2)).2.2.aCpus 1 =
      ⟨4, 4, 0x4000, 5, 5, 0x5000, 0, 0, 0⟩ ∧
    (SVMR0InitVM (envFailAt 4) false mem0 (vmBlank 2)).1 = Rc.VERR_NO_MEMORY ∧
    (SVMR0InitVM (envFailAt 4) false mem0 (vmBlank 2)).2.1.freed = [1, 2, 3, 4] ∧
    (List.range 7).map (SVMR0InitVM (envFailAt 4) false mem0 (vmBlank 2)).2.1.live =
      [false, false, false, false, false, false, false] ∧
    vmHandles (SVMR0InitVM (envFailAt 4) false mem0 (vmBlank 2)).2.2 = [] := by
  decide

/-- Witness for C16: two virtual CPUs, nothing allocated before. -/
theorem initVM_success_witness :
    (SVMR0InitVM envOk false mem0 (vmBlank 2)).1 = Rc.VINF_SUCCESS ∧
    (SVMR0InitVM envOk false mem0 (vmBlank 2)).2.1.vmcbs
      ((SVMR0InitVM envOk false mem0 (vmBlank 2)).2.2.aCpus 1).pvVmcb = vmcbZero ∧
    msrBitmapRead ((SVMR0InitVM envOk false mem0 (vmBlank 2)).2.1.pages
      ((SVMR0InitVM envOk false mem0 (vmBlank 2)).2.2.aCpus 1).pvMsrBitmap) 0xC0000081 =
        some (true, true) :=
  have h := initVM_success envOk false mem0 (vmBlank 2) (fun _ _ => rfl)
  ⟨h.1, (h.2.2 1 (by decide)).2.2.2.2.2.2.2.2.2.2.2.2.2.2.2.2.2.1,
    (h.2.2 1 (by decide)).2.2.2.2.2.2.2.2.2.2.2.2.2.2.2.2.2.2.2 0xC0000081 (by decide)⟩

/-- Witness for C17 on a partially initialized VM. -/
theorem termVM_releases_allocated_witness :
    (SVMR0TermVM memPartial vmPartial).2.1.freed = [1, 2, 3, 4] ∧
    ((SVMR0TermVM memPartial vmPartial).2.2.aCpus 1).hMemObjVmcbHost = NIL_RTR0MEMOBJ ∧
    (SVMR0TermVM memPartial vmPartial).2.1.live 4 = false :=
  have h := termVM_releases_allocated memPartial vmPartial
  ⟨h.2.1, (h.2.2.2.2.2.1 1 (by decide)).2.1, h.2.2.2.2.1 4⟩

theorem testBit_17 (k : Nat) (h : Nat.testBit 17 k = true) : k = 0 ∨ k = 4 := by
  by_cases hk : k < 5
  · interval_cases k <;> revert h <;> decide
  · have : Nat.testBit 17 k = false :=
      Nat.testBit_lt_two_pow (lt_of_lt_of_le (by norm_num : 17 < 2 ^ 5)
        (Nat.pow_le_pow_right (by norm_num) (by omega)))
    rw [this] at h
    exact absurd h (by simp)

theorem testBit_25 (k : Nat) (h : Nat.testBit 25 k = true) : k = 0 ∨ k = 3 ∨ k = 4 := by
  by_cases hk : k < 5
  · interval_cases k <;> revert h <;> decide
  · have : Nat.testBit 25 k = false :=
      Nat.testBit_lt_two_pow (lt_of_lt_of_le (by norm_num : 25 < 2 ^ 5)
        (Nat.pow_le_pow_right (by norm_num) (by omega)))
    rw [this] at h
    exact absurd h (by simp)

theorem setupVmcb_cr_dr (fDebug fNestedPaging : Bool) (io m : Nat) (v : SVMVMCB) :
    ((setupVmcb fDebug fNestedPaging io m v).u16InterceptRdCRx = 17 ∨
      (setupVmcb fDebug fNestedPaging io m v).u16InterceptRdCRx = 25) ∧
    ((setupVmcb fDebug fNestedPaging io m v).u16InterceptWrCRx = 17 ∨
      (setupVmcb fDebug fNestedPaging io m v).u16InterceptWrCRx = 25) ∧
    (setupVmcb fDebug fNestedPaging io m v).u16InterceptRdDRx = 0xffff ∧
    (setupVmcb fDebug fNestedPaging io m v).u16InterceptWrDRx = 0xffff := by
  cases fDebug <;> cases fNestedPaging <;> simp [setupVmcb, RT_BIT]

/-- C20: whenever `SVMR0SetupVM` on a non-null VM returns success (with or
without nested paging, in either build), the VMCB of every virtual CPU has
bits 0 and 4 set in the CR-read and in the CR-write intercept mask, no bit
other than 0, 3 and 4 set in either, and both DR intercept masks equal to
`0xffff`. -/
theorem setupVM_cr_dr_intercepts (fDebug : Bool) (io : Nat) (st : R0Mem) (vm : VMStructs)
    (hs : (SVMR0SetupVM fDebug io st (some vm)).1 = Rc.VINF_SUCCESS) (i : Nat)
    (hi : i < vm.cCpus) :
    Nat.testBit ((SVMR0SetupVM fDebug io st (some vm)).2.vmcbs
      (vm.aCpus i).pvVmcb).u16InterceptRdCRx 0 = true ∧
    Nat.testBit ((SVMR0SetupVM fDebug io st (some vm)).2.vmcbs
      (vm.aCpus i).pvVmcb).u16InterceptRdCRx 4 = true ∧
    (∀ k, Nat.testBit ((SVMR0SetupVM fDebug io st (some vm)).2.vmcbs
      (vm.aCpus i).pvVmcb).u16InterceptRdCRx k = true → k = 0 ∨ k = 3 ∨ k = 4) ∧
    Nat.testBit ((SVMR0SetupVM fDebug io st (some vm)).2.vmcbs
      (vm.aCpus i).pvVmcb).u16InterceptWrCRx 0 = true ∧
    Nat.testBit ((SVMR0SetupVM fDebug io st (some vm)).2.vmcbs
      (vm.aCpus i).pvVmcb).u16InterceptWrCRx 4 = true ∧
    (∀ k, Nat.testBit ((SVMR0SetupVM fDebug io st (some vm)).2.vmcbs
      (vm.aCpus i).pvVmcb).u16InterceptWrCRx k = true → k = 0 ∨ k = 3 ∨ k = 4) ∧
    ((SVMR0SetupVM fDebug io st (some vm)).2.vmcbs (vm.aCpus i).pvVmcb).u16InterceptRdDRx =
      0xffff ∧
    ((SVMR0SetupVM fDebug io st (some vm)).2.vmcbs (vm.aCpus i).pvVmcb).u16InterceptWrDRx =
      0xffff := by
  have hn := (SVMR0SetupVM_success_iff fDebug io st vm).1 hs
  rw [SVMR0SetupVM_mem]
  obtain ⟨p1, p2, p3, p4⟩ := setupLoop_vmcbs_est fDebug io vm
    (fun v => (v.u16InterceptRdCRx = 17 ∨ v.u16InterceptRdCRx = 25) ∧
      (v.u16InterceptWrCRx = 17 ∨ v.u16InterceptWrCRx = 25) ∧
      v.u16InterceptRdDRx = 0xffff ∧ v.u16InterceptWrDRx = 0xffff)
    (fun m v => setupVmcb_cr_dr fDebug vm.fNestedPaging io m v)
    vm.cCpus 0 st hn i (Nat.zero_le i) (by omega)
  refine ⟨?_, ?_, ?_, ?_, ?_, ?_, p3, p4⟩
  · rcases p1 with e | e <;> rw [e] <;> decide
  · rcases p1 with e | e <;> rw [e] <;> decide
  · intro k hk
    rcases p1 with e | e <;> rw [e] at hk
    · rcases testBit_17 k hk with x | x
      · exact Or.inl x
      · exact Or.inr (Or.inr x)
    · exact testBit_25 k hk
  · rcases p2 with e | e <;> rw [e] <;> decide
  · rcases p2 with e | e <;> rw [e] <;> decide
  · intro k hk
    rcases p2 with e | e <;> rw [e] at hk
    · rcases testBit_17 k hk with x | x
      · exact Or.inl x
      · exact Or.inr (Or.inr x)
    · exact testBit_25 k hk

/-- Witness for C20: two virtual CPUs after `SVMR0InitVM`, nested paging on. -/
theorem setupVM_cr_dr_intercepts_witness :
    Nat.testBit ((SVMR0SetupVM false 0x7000 (SVMR0InitVM envOk false mem0 (vmBlank 2)).2.1
      (some (SVMR0InitVM envOk false mem0 (vmBlank 2)).2.2)).2.vmcbs
      ((SVMR0InitVM envOk false mem0 (vmBlank 2)).2.2.aCpus 1).pvVmcb).u16InterceptRdCRx 4
        = true ∧
    ((SVMR0SetupVM false 0x7000 (SVMR0InitVM envOk false mem0 (vmBlank 2)).2.1
      (some (SVMR0InitVM envOk false mem0 (vmBlank 2)).2.2)).2.vmcbs
      ((SVMR0InitVM envOk false mem0 (vmBlank 2)).2.2.aCpus 1).pvVmcb).u16InterceptWrDRx
        = 0xffff :=
  have h := setupVM_cr_dr_intercepts false 0x7000 (SVMR0InitVM envOk false mem0 (vmBlank 2)).2.1
    (SVMR0InitVM envOk false mem0 (vmBlank 2)).2.2 (by decide) 1 (by decide)
  ⟨h.2.1, h.2.2.2.2.2.2.2⟩

theorem setupVmcb_no_nested (io m : Nat) (v : SVMVMCB) :
    (setupVmcb false false io m v).u16InterceptRdCRx &&& RT_BIT 3 ≠ 0 ∧
    (setupVmcb false false io m v).u16InterceptWrCRx &&& RT_BIT 3 ≠ 0 ∧
    (setupVmcb false false io m v).u32InterceptCtrl1 &&& SVM_CTRL1_INTERCEPT_INVLPG ≠ 0 ∧
    (setupVmcb false false io m v).u32InterceptCtrl1 &&& SVM_CTRL1_INTERCEPT_TASK_SWITCH ≠ 0 ∧
    (setupVmcb false false io m v).u32InterceptException &&& RT_BIT X86_XCPT_PF ≠ 0 := by
  simp only [setupVmcb, Bool.false_eq_true, if_false, Bool.not_false, if_true]
  refine ⟨by decide, by decide, by decide, by decide, ?_⟩
  rw [lor_land_self]
  decide

theorem setupVmcb_nested (io m : Nat) (v : SVMVMCB) :
    (setupVmcb false true io m v).u16InterceptRdCRx &&& RT_BIT 3 = 0 ∧
    (setupVmcb false true io m v).u16InterceptWrCRx &&& RT_BIT 3 = 0 ∧
    (setupVmcb false true io m v).u32InterceptCtrl1 &&& SVM_CTRL1_INTERCEPT_INVLPG = 0 ∧
    (setupVmcb false true io m v).u32InterceptCtrl1 &&& SVM_CTRL1_INTERCEPT_TASK_SWITCH = 0 ∧
    (setupVmcb false true io m v).u32InterceptException = v.u32InterceptException := by
  simp only [setupVmcb, Bool.false_eq_true, if_false, Bool.not_true]
  exact ⟨by decide, by decide, by decide, by decide, trivial⟩

/-- C18: in the non-debug build, `SVMR0SetupVM` run on the outcome of a
successful `SVMR0InitVM` succeeds, and in the VMCB of every virtual CPU the
CR3-read, CR3-write, INVLPG, task-switch and page-fault intercept bits are all
set when the VM does not use nested paging and all clear when it does. -/
theorem setupVM_paging_intercepts (env : R0MemObjEnv) (fErratum170 : Bool) (io : Nat)
    (st : R0Mem) (vm : VMStructs)
    (hok : ∀ k, k < 3 * vm.cCpus → env.allocRc (st.cAllocs + k) = Rc.VINF_SUCCESS) :
    (SVMR0SetupVM false io (SVMR0InitVM env fErratum170 st vm).2.1
      (some (SVMR0InitVM env fErratum170 st vm).2.2)).1 = Rc.VINF_SUCCESS ∧
    ∀ i, i < vm.cCpus →
      (vm.fNestedPaging = false →
        ((SVMR0SetupVM false io (SVMR0InitVM env fErratum170 st vm).2.1
          (some (SVMR0InitVM env fErratum170 st vm).2.2)).2.vmcbs
          ((SVMR0InitVM env fErratum170 st vm).2.2.aCpus i).pvVmcb).u16InterceptRdCRx
            &&& RT_BIT 3 ≠ 0 ∧
        ((SVMR0SetupVM false io (SVMR0InitVM env fErratum170 st vm).2.1
          (some (SVMR0InitVM env fErratum170 st vm).2.2)).2.vmcbs
          ((SVMR0InitVM env fErratum170 st vm).2.2.aCpus i).pvVmcb).u16InterceptWrCRx
            &&& RT_BIT 3 ≠ 0 ∧
        ((SVMR0SetupVM false io (SVMR0InitVM env fErratum170 st vm).2.1
          (some (SVMR0InitVM env fErratum170 st vm).2.2)).2.vmcbs
          ((SVMR0InitVM env fErratum170 st vm).2.2.aCpus i).pvVmcb).u32InterceptCtrl1
            &&& SVM_CTRL1_INTERCEPT_INVLPG ≠ 0 ∧
        ((SVMR0SetupVM false io (SVMR0InitVM env fErratum170 st vm).2.1
          (some (SVMR0InitVM env fErratum170 st vm).2.2)).2.vmcbs
          ((SVMR0InitVM env fErratum170 st vm).2.2.aCpus i).pvVmcb).u32InterceptCtrl1
            &&& SVM_CTRL1_INTERCEPT_TASK_SWITCH ≠ 0 ∧
        ((SVMR0SetupVM false io (SVMR0InitVM env fErratum170 st vm).2.1
          (some (SVMR0InitVM env fErratum170 st vm).2.2)).2.vmcbs
          ((SVMR0InitVM env fErratum170 st vm).2.2.aCpus i).pvVmcb).u32InterceptException
            &&& RT_BIT X86_XCPT_PF ≠ 0) ∧
      (vm.fNestedPaging = true →
        ((SVMR0SetupVM false io (SVMR0InitVM env fErratum170 st vm).2.1
          (some (SVMR0InitVM env fErratum170 st vm).2.2)).2.vmcbs
          ((SVMR0InitVM env fErratum170 st vm).2.2.aCpus i).pvVmcb).u16InterceptRdCRx
            &&& RT_BIT 3 = 0 ∧
        ((SVMR0SetupVM false io (SVMR0InitVM env fErratum170 st vm).2.1
          (some (SVMR0InitVM env fErratum170 st vm).2.2)).2.vmcbs
          ((SVMR0InitVM env fErratum170 st vm).2.2.aCpus i).pvVmcb).u16InterceptWrCRx
            &&& RT_BIT 3 = 0 ∧
        ((SVMR0SetupVM false io (SVMR0InitVM env fErratum170 st vm).2.1
          (some (SVMR0InitVM env fErratum170 st vm).2.2)).2.vmcbs
          ((SVMR0InitVM env fErratum170 st vm).2.2.aCpus i).pvVmcb).u32InterceptCtrl1
            &&& SVM_CTRL1_INTERCEPT_INVLPG = 0 ∧
        ((SVMR0SetupVM false io (SVMR0InitVM env fErratum170 st vm).2.1
          (some (SVMR0InitVM env fErratum170 st vm).2.2)).2.vmcbs
          ((SVMR0InitVM env fErratum170 st vm).2.2.aCpus i).pvVmcb).u32InterceptCtrl1
            &&& SVM_CTRL1_INTERCEPT_TASK_SWITCH = 0 ∧
        ((SVMR0SetupVM false io (SVMR0InitVM env fErratum170 st vm).2.1
          (some (SVMR0InitVM env fErratum170 st vm).2.2)).2.vmcbs
          ((SVMR0InitVM env fErratum170 st vm).2.2.aCpus i).pvVmcb).u32InterceptException
            &&& RT_BIT X86_XCPT_PF = 0) := by
  obtain ⟨_, hcc, hnp, _⟩ := SVMR0InitVM_ok env fErratum170 st vm hok
  obtain ⟨hn, hz⟩ := setup_after_init env fErratum170 false io st vm hok
  refine ⟨(SVMR0SetupVM_success_iff _ _ _ _).2 hn, ?_⟩
  intro i hi
  rw [SVMR0SetupVM_mem]
  constructor
  · intro hf
    rw [← hnp] at hf
    exact setupLoop_vmcbs_est false io (SVMR0InitVM env fErratum170 st vm).2.2
      (fun v => v.u16InterceptRdCRx &&& RT_BIT 3 ≠ 0 ∧ v.u16InterceptWrCRx &&& RT_BIT 3 ≠ 0 ∧
        v.u32InterceptCtrl1 &&& SVM_CTRL1_INTERCEPT_INVLPG ≠ 0 ∧
        v.u32InterceptCtrl1 &&& SVM_CTRL1_INTERCEPT_TASK_SWITCH ≠ 0 ∧
        v.u32InterceptException &&& RT_BIT X86_XCPT_PF ≠ 0)
      (fun m v => by rw [hf]; exact setupVmcb_no_nested io m v)
      _ 0 _ hn i (Nat.zero_le i) (by omega)
  · intro hf
    rw [← hnp] at hf
    obtain ⟨p1, p2, p3, p4⟩ := setupLoop_vmcbs_est false io (SVMR0InitVM env fErratum170 st vm).2.2
      (fun v => v.u16InterceptRdCRx &&& RT_BIT 3 = 0 ∧ v.u16InterceptWrCRx &&& RT_BIT 3 = 0 ∧
        v.u32InterceptCtrl1 &&& SVM_CTRL1_INTERCEPT_INVLPG = 0 ∧
        v.u32InterceptCtrl1 &&& SVM_CTRL1_INTERCEPT_TASK_SWITCH = 0)
      (fun m v => by
        rw [hf]
        obtain ⟨a1, a2, a3, a4, _⟩ := setupVmcb_nested io m v
        exact ⟨a1, a2, a3, a4⟩)
      _ 0 _ hn i (Nat.zero_le i) (by omega)
    refine ⟨p1, p2, p3, p4, ?_⟩
    apply setupLoop_vmcbs_pres false io (SVMR0InitVM env fErratum170 st vm).2.2
      (fun v => v.u32InterceptException &&& RT_BIT X86_XCPT_PF = 0)
      (fun m v hv => by
        rw [hf]
        show (setupVmcb false true io m v).u32InterceptException &&& RT_BIT X86_XCPT_PF = 0
        rw [(setupVmcb_nested io m v).2.2.2.2]
        exact hv)
    rw [(hz i hi).2.1]
    decide

/-- Witness for C18: one VM without nested paging, two virtual CPUs. -/
theorem setupVM_paging_intercepts_witness :
    ((SVMR0SetupVM false 0x7000 (SVMR0InitVM envOk false mem0 (vmBlank 2)).2.1
      (some (SVMR0InitVM envOk false mem0 (vmBlank 2)).2.2)).2.vmcbs
      ((SVMR0InitVM envOk false mem0 (vmBlank 2)).2.2.aCpus 0).pvVmcb).u32InterceptException
        &&& RT_BIT X86_XCPT_PF ≠ 0 :=
  ((setupVM_paging_intercepts envOk false 0x7000 mem0 (vmBlank 2) (fun _ _ => rfl)).2 0
    (by decide)).1 rfl |>.2.2.2.2

/-- C19: after a successful `SVMR0InitVM` followed by `SVMR0SetupVM`, for every
virtual CPU and every MSR of the three ranges, the read and write intercept
bits at the documented position in that virtual CPU's MSR bitmap are both
clear when the MSR is one of the ten passed through and both set otherwise. -/
theorem setupVM_msr_bitmap (env : R0MemObjEnv) (fErratum170 fDebug : Bool) (io : Nat)
    (st : R0Mem) (vm : VMStructs)
    (hok : ∀ k, k < 3 * vm.cCpus → env.allocRc (st.cAllocs + k) = Rc.VINF_SUCCESS)
    (i : Nat) (hi : i < vm.cCpus) (m : Nat) (hm : validMsr m) :
    msrBitmapRead ((SVMR0SetupVM fDebug io (SVMR0InitVM env fErratum170 st vm).2.1
      (some (SVMR0InitVM env fErratum170 st vm).2.2)).2.pages
      ((SVMR0InitVM env fErratum170 st vm).2.2.aCpus i).pvMsrBitmap) m =
        if m ∈ [0xC0000081, 0xC0000082, 0xC0000083, 0xC0000084, 0xC0000100, 0xC0000101,
            0xC0000102, 0x174, 0x175, 0x176] then some (false, false)
        else some (true, true) := by
  obtain ⟨hn, hz⟩ := setup_after_init env fErratum170 fDebug io st vm hok
  obtain ⟨_, hcc, _⟩ := SVMR0InitVM_ok env fErratum170 st vm hok
  have hlist : m ∈ [0xC0000081, 0xC0000082, 0xC0000083, 0xC0000084, 0xC0000100, 0xC0000101,
      0xC0000102, 0x174, 0x175, 0x176] ↔ m ∈ msrAllowlist := by
    simp only [msrAllowlist, MSR_K6_STAR, MSR_K8_LSTAR, MSR_K8_CSTAR, MSR_K8_SF_MASK,
      MSR_K8_FS_BASE, MSR_K8_GS_BASE, MSR_K8_KERNEL_GS_BASE, MSR_IA32_SYSENTER_CS,
      MSR_IA32_SYSENTER_ESP, MSR_IA32_SYSENTER_EIP, List.mem_cons, List.mem_singleton,
      List.not_mem_nil, or_false]
    omega
  rw [SVMR0SetupVM_mem, if_congr hlist rfl rfl]
  by_cases ha : m ∈ msrAllowlist
  · rw [if_pos ha]
    exact setupLoop_pages_est fDebug io (SVMR0InitVM env fErratum170 st vm).2.2
      (fun B => msrBitmapRead B m = some (false, false))
      (fun B => setupMsrBitmap_allowed B m ha)
      _ 0 _ hn i (Nat.zero_le i) (by omega) (hz i hi).1
  · rw [if_neg ha]
    apply setupLoop_pages_pres fDebug io (SVMR0InitVM env fErratum170 st vm).2.2
      (fun B => msrBitmapRead B m = some (true, true))
      (fun B hB => by
        show msrBitmapRead (setupMsrBitmap B) m = some (true, true)
        rw [setupMsrBitmap_other B m hm ha]
        exact hB)
    obtain ⟨d, hd1, hd2⟩ := msrDocBit_valid m hm
    simp only [msrBitmapRead, hd1, Option.map_some']
    rw [(hz i hi).2.2 d (by omega), (hz i hi).2.2 (d + 1) hd2]

/-- Witness for C19: STAR is passed through and EFER (`0xC0000080`) is not. -/
theorem setupVM_msr_bitmap_witness :
    msrBitmapRead ((SVMR0SetupVM false 0x7000 (SVMR0InitVM envOk false mem0 (vmBlank 2)).2.1
      (some (SVMR0InitVM envOk false mem0 (vmBlank 2)).2.2)).2.pages
      ((SVMR0InitVM envOk false mem0 (vmBlank 2)).2.2.aCpus 1).pvMsrBitmap) 0xC0000081 =
        some (false, false) ∧
    msrBitmapRead ((SVMR0SetupVM false 0x7000 (SVMR0InitVM envOk false mem0 (vmBlank 2)).2.1
      (some (SVMR0InitVM envOk false mem0 (vmBlank 2)).2.2)).2.pages
      ((SVMR0InitVM envOk false mem0 (vmBlank 2)).2.2.aCpus 1).pvMsrBitmap) 0xC0000080 =
        some (true, true) :=
  ⟨setupVM_msr_bitmap envOk false false 0x7000 mem0 (vmBlank 2) (fun _ _ => rfl) 1 (by decide)
      0xC0000081 (by decide),
   setupVM_msr_bitmap envOk false false 0x7000 mem0 (vmBlank 2) (fun _ _ => rfl) 1 (by decide)
      0xC0000080 (by decide)⟩

/-! ## VMCB configuration: further lemmas and claims -/

/-- The loop leaves alone every VMCB page that is not the `pvVmcb` of a virtual
CPU in its range. -/
theorem setupLoop_vmcbs_frame (fDebug : Bool) (io : Nat) (vm : VMStructs)
    (n i : Nat) (st : R0Mem) (p : Nat)
    (h : ∀ k, i ≤ k → k < i + n → (vm.aCpus k).pvVmcb ≠ p) :
    (setupLoop fDebug io vm n i st).2.vmcbs p = st.vmcbs p := by
  induction n generalizing i st with
  | zero => rfl
  | succ n ih =>
    by_cases hz : (vm.aCpus i).pvVmcb = 0
    · simp only [setupLoop, setupVCpu_null fDebug io vm st _ hz]
    · obtain ⟨b1, b2, _⟩ := setupVCpu_ok fDebug io vm st (vm.aCpus i) hz
      simp only [setupLoop, b1]
      rw [ih (i + 1) _ (fun k h1 h2 => h k (by omega) (by omega)), b2 p,
        if_neg (fun e => h i (Nat.le_refl i) (by omega) e.symm)]

/-- When the virtual CPUs of the range have pairwise different VMCB pages, the
loop applies `setupVmcb` exactly once to each, with that virtual CPU's own MSR
bitmap address. -/
theorem setupLoop_vmcbs_own (fDebug : Bool) (io : Nat) (vm : VMStructs)
    (n i : Nat) (st : R0Mem)
    (hn : (setupLoop fDebug io vm n i st).1 = none) (j : Nat) (h1 : i ≤ j) (h2 : j < i + n)
    (hd : ∀ k, i ≤ k → k < i + n → (vm.aCpus k).pvVmcb = (vm.aCpus j).pvVmcb → k = j) :
    (setupLoop fDebug io vm n i st).2.vmcbs (vm.aCpus j).pvVmcb =
      setupVmcb fDebug vm.fNestedPaging io (vm.aCpus j).HCPhysMsrBitmap
        (st.vmcbs (vm.aCpus j).pvVmcb) := by
  induction n generalizing i st with
  | zero => omega
  | succ n ih =>
    have hz : (vm.aCpus i).pvVmcb ≠ 0 :=
      (setupLoop_none_iff fDebug io vm (n + 1) i st).1 hn i (Nat.le_refl i) (by omega)
    obtain ⟨b1, b2, _⟩ := setupVCpu_ok fDebug io vm st (vm.aCpus i) hz
    simp only [setupLoop, b1] at hn ⊢
    by_cases hji : j = i
    · rw [setupLoop_vmcbs_frame fDebug io vm n (i + 1) _ _
        (fun k k1 k2 e => by have := hd k (by omega) (by omega) e; omega),
        b2, hji, if_pos rfl]
    · rw [ih (i + 1) _ hn (by omega) (by omega)
        (fun k k1 k2 e => hd k (by omega) (by omega) e), b2,
        if_neg (fun e => hji (hd i (Nat.le_refl i) (by omega) e.symm).symm)]

theorem setupVmcb_addrs (fDebug fNestedPaging : Bool) (io m : Nat) (v : SVMVMCB) :
    (setupVmcb fDebug fNestedPaging io m v).u64MSRPMPhysAddr = m ∧
    (setupVmcb fDebug fNestedPaging io m v).u64IOPMPhysAddr = io ∧
    (setupVmcb fDebug fNestedPaging io m v).u32ASID = 1 := by
  cases fDebug <;> cases fNestedPaging <;> simp [setupVmcb]

/-- C21: whenever `SVMR0SetupVM` on a non-null VM whose virtual CPUs have
pairwise different VMCB pages returns success, the VMCB of every virtual CPU
`i < cCpus` holds that virtual CPU's `HCPhysMsrBitmap` as `u64MSRPMPhysAddr`,
the global `g_HCPhysIOBitmap` as `u64IOPMPhysAddr`, and ASID 1. -/
theorem setupVM_vmcb_bitmaps_asid (fDebug : Bool) (io : Nat) (st : R0Mem) (vm : VMStructs)
    (hs : (SVMR0SetupVM fDebug io st (some vm)).1 = Rc.VINF_SUCCESS)
    (hd : ∀ i, i < vm.cCpus → ∀ j, j < vm.cCpus →
      (vm.aCpus i).pvVmcb = (vm.aCpus j).pvVmcb → i = j)
    (i : Nat) (hi : i < vm.cCpus) :
    ((SVMR0SetupVM fDebug io st (some vm)).2.vmcbs (vm.aCpus i).pvVmcb).u64MSRPMPhysAddr =
      (vm.aCpus i).HCPhysMsrBitmap ∧
    ((SVMR0SetupVM fDebug io st (some vm)).2.vmcbs (vm.aCpus i).pvVmcb).u64IOPMPhysAddr = io ∧
    ((SVMR0SetupVM fDebug io st (some vm)).2.vmcbs (vm.aCpus i).pvVmcb).u32ASID = 1 := by
  have hn := (SVMR0SetupVM_success_iff fDebug io st vm).1 hs
  rw [SVMR0SetupVM_mem, setupLoop_vmcbs_own fDebug io vm vm.cCpus 0 st hn i (Nat.zero_le i)
    (by omega) (fun k _ k2 e => hd k (by omega) i hi e)]
  exact setupVmcb_addrs _ _ _ _ _

/-- Witness for C21: two virtual CPUs after `SVMR0InitVM`; the MSR bitmap of
virtual CPU 1 is region 6, at physical address `0x6000`. -/
theorem setupVM_vmcb_bitmaps_asid_witness :
    ((SVMR0SetupVM false 0x7000 (SVMR0InitVM envOk false mem0 (vmBlank 2)).2.1
      (some (SVMR0InitVM envOk false mem0 (vmBlank 2)).2.2)).2.vmcbs
      ((SVMR0InitVM envOk false mem0 (vmBlank 2)).2.2.aCpus 1).pvVmcb).u64MSRPMPhysAddr
        = 0x6000 ∧
    ((SVMR0SetupVM false 0x7000 (SVMR0InitVM envOk false mem0 (vmBlank 2)).2.1
      (some (SVMR0InitVM envOk false mem0 (vmBlank 2)).2.2)).2.vmcbs
      ((SVMR0InitVM envOk false mem0 (vmBlank 2)).2.2.aCpus 1).pvVmcb).u64IOPMPhysAddr
        = 0x7000 ∧
    ((SVMR0SetupVM false 0x7000 (SVMR0InitVM envOk false mem0 (vmBlank 2)).2.1
      (some (SVMR0InitVM envOk false mem0 (vmBlank 2)).2.2)).2.vmcbs
      ((SVMR0InitVM envOk false mem0 (vmBlank 2)).2.2.aCpus 1).pvVmcb).u32ASID = 1 :=
  setupVM_vmcb_bitmaps_asid false 0x7000 (SVMR0InitVM envOk false mem0 (vmBlank 2)).2.1
    (SVMR0InitVM envOk false mem0 (vmBlank 2)).2.2 (by decide) (by decide) 1 (by decide)

/-- C22: `SVMR0SetupVM` on a non-null VM returns `VERR_SVM_INVALID_PVMCB`
exactly when the `pvVmcb` of some virtual CPU below `cCpus` is null, and
`VINF_SUCCESS` exactly when none is. -/
theorem setupVM_invalid_pvmcb_iff (fDebug : Bool) (io : Nat) (st : R0Mem) (vm : VMStructs) :
    ((SVMR0SetupVM fDebug io st (some vm)).1 = Rc.VERR_SVM_INVALID_PVMCB ↔
      ∃ i, i < vm.cCpus ∧ (vm.aCpus i).pvVmcb = 0) ∧
    ((SVMR0SetupVM fDebug io st (some vm)).1 = Rc.VINF_SUCCESS ↔
      ¬ ∃ i, i < vm.cCpus ∧ (vm.aCpus i).pvVmcb = 0) := by
  have hiff := setupLoop_none_iff fDebug io vm vm.cCpus 0 st
  rw [SVMR0SetupVM_some]
  cases h : (setupLoop fDebug io vm vm.cCpus 0 st).1 with
  | none =>
    have hall := hiff.1 h
    have hne : ¬ ∃ i, i < vm.cCpus ∧ (vm.aCpus i).pvVmcb = 0 := by
      rintro ⟨i, hi, e⟩
      exact hall i (Nat.zero_le i) (by omega) e
    simp [hne]
  | some rc =>
    have hrc := setupLoop_some fDebug io vm vm.cCpus 0 st rc h
    have hex : ∃ i, i < vm.cCpus ∧ (vm.aCpus i).pvVmcb = 0 := by
      by_contra hcon
      have : (setupLoop fDebug io vm vm.cCpus 0 st).1 = none := by
        rw [hiff]
        intro j _ hj e
        exact hcon ⟨j, by omega, e⟩
      rw [this] at h
      cases h
    simp [hrc, hex]

/-- Instances of C22: with two virtual CPUs, the call on a blank VM (null VMCB
pointers) returns `VERR_SVM_INVALID_PVMCB` and the call after `SVMR0InitVM`
returns `VINF_SUCCESS`. -/
theorem setupVM_invalid_pvmcb_iff_witness :
    (SVMR0SetupVM false 0x7000 mem0 (some (vmBlank 2))).1 = Rc.VERR_SVM_INVALID_PVMCB ∧
    (SVMR0SetupVM false 0x7000 (SVMR0InitVM envOk false mem0 (vmBlank 2)).2.1
      (some (SVMR0InitVM envOk false mem0 (vmBlank 2)).2.2)).1 = Rc.VINF_SUCCESS :=
  ⟨(setupVM_invalid_pvmcb_iff false 0x7000 mem0 (vmBlank 2)).1.2 ⟨0, by decide, rfl⟩,
   (setupVM_invalid_pvmcb_iff false 0x7000 (SVMR0InitVM envOk false mem0 (vmBlank 2)).2.1
      (SVMR0InitVM envOk false mem0 (vmBlank 2)).2.2).2.2 (by decide)⟩

/-! ## Physical-CPU activation: lemmas and claims -/

theorem testBit_svme (k : Nat) : Nat.testBit MSR_K6_EFER_SVME k = decide (k = 12) := by
  have : MSR_K6_EFER_SVME = 2 ^ 12 := rfl
  rw [this, Nat.testBit_two_pow]
  by_cases h : k = 12 <;> simp [h, eq_comm]

/-- Bits of `~MSR_K6_EFER_SVME` as computed at 32 bits and zero-extended. -/
theorem testBit_not_svme (k : Nat) :
    Nat.testBit (2 ^ 32 - 1 - MSR_K6_EFER_SVME) k = decide (k < 32 ∧ k ≠ 12) := by
  have : 2 ^ 32 - 1 - MSR_K6_EFER_SVME = (2 ^ 32 - 1) ^^^ 2 ^ 12 := by decide
  rw [this, Nat.testBit_xor, Nat.testBit_two_pow_sub_one, Nat.testBit_two_pow]
  by_cases h : k = 12
  · subst h; decide
  · by_cases h2 : k < 32 <;> simp [h, h2, Ne.symm h]

/-- Bits of the complement of `MSR_K6_EFER_SVME` at 64 bits. -/
theorem testBit_not_svme64 (k : Nat) :
    Nat.testBit (2 ^ 64 - 1 - MSR_K6_EFER_SVME) k = decide (k < 64 ∧ k ≠ 12) := by
  have : 2 ^ 64 - 1 - MSR_K6_EFER_SVME = (2 ^ 64 - 1) ^^^ 2 ^ 12 := by decide
  rw [this, Nat.testBit_xor, Nat.testBit_two_pow_sub_one, Nat.testBit_two_pow]
  by_cases h : k = 12
  · subst h; decide
  · by_cases h2 : k < 64 <;> simp [h, h2, Ne.symm h]

/-- On a value below `2 ^ 32` the complement of `MSR_K6_EFER_SVME` masks the
same bits whether it is taken at 32 or at 64 bits. -/
theorem land_not_svme_width (x : Nat) (hx : x < 2 ^ 32) :
    x &&& (2 ^ 32 - 1 - MSR_K6_EFER_SVME) = x &&& (2 ^ 64 - 1 - MSR_K6_EFER_SVME) := by
  apply Nat.eq_of_testBit_eq
  intro k
  rw [Nat.testBit_and, Nat.testBit_and, testBit_not_svme, testBit_not_svme64]
  by_cases hk : k < 32
  · have hk2 : k < 64 := by omega
    simp [hk, hk2]
  · have hz : x.testBit k = false :=
      Nat.testBit_lt_two_pow (lt_of_lt_of_le hx (Nat.pow_le_pow_right (by decide) (by omega)))
    rw [hz]
    simp

/-- With valid arguments, `SVMR0EnableCpu` goes through lines 91-124. -/
theorem SVMR0EnableCpu_valid (hw : HwState) (c : HMGLOBLCPUINFO) (pVM : Option Bool)
    (pv phys : Nat) (h0 : phys ≠ 0) (hnil : phys ≠ NIL_RTHCPHYS) (hpv : pv ≠ 0) :
    SVMR0EnableCpu hw c pVM pv phys false =
      if hw.efer &&& MSR_K6_EFER_SVME ≠ 0 ∧ pVM ≠ some true ∧
          c.fIgnoreAMDVInUseError = false then
        (Rc.VERR_SVM_IN_USE, hw, c)
      else
        (Rc.VINF_SUCCESS, ⟨hw.efer ||| MSR_K6_EFER_SVME, phys⟩,
          { c with
            fIgnoreAMDVInUseError :=
              c.fIgnoreAMDVInUseError ||
                decide (hw.efer &&& MSR_K6_EFER_SVME ≠ 0 ∧ pVM = some true)
            fFlushAsidBeforeUse := true
            cTlbFlushes := (c.cTlbFlushes + 1) % 2 ^ 64 }) := by
  unfold SVMR0EnableCpu
  by_cases hs : hw.efer &&& MSR_K6_EFER_SVME = 0 <;>
  by_cases hv : pVM = some true <;>
  cases hf : c.fIgnoreAMDVInUseError <;>
  simp [h0, hnil, hpv, hs, hv, hf]

theorem SVMR0EnableCpu_success (hw : HwState) (c : HMGLOBLCPUINFO) (pVM : Option Bool)
    (pv phys : Nat) (fHost : Bool)
    (hs : (SVMR0EnableCpu hw c pVM pv phys fHost).1 = Rc.VINF_SUCCESS) :
    (SVMR0EnableCpu hw c pVM pv phys fHost).2.1 = ⟨hw.efer ||| MSR_K6_EFER_SVME, phys⟩ ∧
    (SVMR0EnableCpu hw c pVM pv phys fHost).2.2.fFlushAsidBeforeUse = true ∧
    (SVMR0EnableCpu hw c pVM pv phys fHost).2.2.cTlbFlushes = (c.cTlbFlushes + 1) % 2 ^ 64 ∧
    (SVMR0EnableCpu hw c pVM pv phys fHost).2.2.uCurrentAsid = c.uCurrentAsid ∧
    (SVMR0EnableCpu hw c pVM pv phys fHost).2.2.idCpu = c.idCpu := by
  unfold SVMR0EnableCpu at hs ⊢
  simp only [] at hs ⊢
  split_ifs at hs ⊢ <;> simp_all

/-- C23 (amended): for every `SVMR0EnableCpu` call with valid scratch-page
arguments in which EFER.SVME is already set, the call returns
`VERR_SVM_IN_USE`, leaving registers and CPU record as they were, exactly when
`pCpu->fIgnoreAMDVInUseError` is clear on entry and the VM is null or has not
opted in; when the VM is non-null and has opted in, the call sets
`fIgnoreAMDVInUseError` and succeeds; when the flag is already set on entry,
the call succeeds whatever the VM is, and the flag stays set. -/
theorem enableCpu_in_use (hw : HwState) (pCpu : HMGLOBLCPUINFO) (pVM : Option Bool)
    (pvCpuPage HCPhysCpuPage : Nat)
    (h0 : HCPhysCpuPage ≠ 0) (hnil : HCPhysCpuPage ≠ NIL_RTHCPHYS) (hpv : pvCpuPage ≠ 0)
    (hsvme : hw.efer &&& MSR_K6_EFER_SVME ≠ 0) :
    ((SVMR0EnableCpu hw pCpu pVM pvCpuPage HCPhysCpuPage false).1 = Rc.VERR_SVM_IN_USE ↔
      pCpu.fIgnoreAMDVInUseError = false ∧ pVM ≠ some true) ∧
    ((SVMR0EnableCpu hw pCpu pVM pvCpuPage HCPhysCpuPage false).1 = Rc.VINF_SUCCESS ↔
      pCpu.fIgnoreAMDVInUseError = true ∨ pVM = some true) ∧
    ((SVMR0EnableCpu hw pCpu pVM pvCpuPage HCPhysCpuPage false).1 = Rc.VERR_SVM_IN_USE →
      (SVMR0EnableCpu hw pCpu pVM pvCpuPage HCPhysCpuPage false).2 = (hw, pCpu)) ∧
    ((SVMR0EnableCpu hw pCpu pVM pvCpuPage HCPhysCpuPage false).1 = Rc.VINF_SUCCESS →
      (SVMR0EnableCpu hw pCpu pVM pvCpuPage HCPhysCpuPage false).2.2.fIgnoreAMDVInUseError =
        true) := by
  rw [SVMR0EnableCpu_valid hw pCpu pVM pvCpuPage HCPhysCpuPage h0 hnil hpv]
  by_cases hv : pVM = some true <;> cases hf : pCpu.fIgnoreAMDVInUseError <;>
  simp [hsvme, hv, hf]

/-- Witness for C23: EFER.SVME set, flag clear, VM not opted in. -/
theorem enableCpu_in_use_witness :
    (SVMR0EnableCpu ⟨0x1D01, 0⟩ ⟨0, 0, 0, false, false⟩ (some false) 1 0x5000 false).1 =
      Rc.VERR_SVM_IN_USE ∧
    (SVMR0EnableCpu ⟨0x1D01, 0⟩ ⟨0, 0, 0, false, false⟩ (some true) 1 0x5000 false).1 =
      Rc.VINF_SUCCESS :=
  ⟨(enableCpu_in_use ⟨0x1D01, 0⟩ ⟨0, 0, 0, false, false⟩ (some false) 1 0x5000
      (by decide) (by decide) (by decide) (by decide)).1.2 ⟨rfl, by decide⟩,
   (enableCpu_in_use ⟨0x1D01, 0⟩ ⟨0, 0, 0, false, false⟩ (some true) 1 0x5000
      (by decide) (by decide) (by decide) (by decide)).2.1.2 (Or.inr rfl)⟩

/-- C23 as stated fails: a first call with an opted-in VM on a CPU whose
EFER.SVME is set succeeds and sets `fIgnoreAMDVInUseError`; a second call on
the resulting state with a null VM (as after a resume), EFER.SVME still set and
valid scratch-page arguments returns `VINF_SUCCESS`, not `VERR_SVM_IN_USE`. -/
theorem enableCpu_in_use_sticky_flag :
    (SVMR0EnableCpu ⟨0x1D01, 0⟩ ⟨0, 0, 0, false, false⟩ (some true) 1 0x5000 false) =
      (Rc.VINF_SUCCESS, ⟨0x1D01, 0x5000⟩, ⟨0, 0, 1, true, true⟩) ∧
    (⟨0x1D01, 0x5000⟩ : HwState).efer &&& MSR_K6_EFER_SVME ≠ 0 ∧
    (SVMR0EnableCpu ⟨0x1D01, 0x5000⟩ ⟨0, 0, 1, true, true⟩ none 1 0x5000 false) =
      (Rc.VINF_SUCCESS, ⟨0x1D01, 0x5000⟩, ⟨0, 0, 2, true, true⟩) := by
  decide

/-- C24: whenever `SVMR0EnableCpu` returns `VINF_SUCCESS`, EFER is the old
value with bit 12 (SVME) set and every other bit as before, `VM_HSAVE_PA`
holds `HCPhysCpuPage`, `fFlushAsidBeforeUse` is true, `cTlbFlushes` is the old
value incremented once (in 64-bit arithmetic; the plain old+1 whenever that is
below `2 ^ 64`), and `uCurrentAsid` is unchanged. -/
theorem enableCpu_success_effects (hw : HwState) (pCpu : HMGLOBLCPUINFO) (pVM : Option Bool)
    (pvCpuPage HCPhysCpuPage : Nat) (fEnabledByHost : Bool)
    (hs : (SVMR0EnableCpu hw pCpu pVM pvCpuPage HCPhysCpuPage fEnabledByHost).1 =
      Rc.VINF_SUCCESS) :
    (SVMR0EnableCpu hw pCpu pVM pvCpuPage HCPhysCpuPage fEnabledByHost).2.1.efer &&&
      MSR_K6_EFER_SVME ≠ 0 ∧
    Nat.testBit (SVMR0EnableCpu hw pCpu pVM pvCpuPage HCPhysCpuPage fEnabledByHost).2.1.efer 12
      = true ∧
    (∀ k, k ≠ 12 →
      Nat.testBit (SVMR0EnableCpu hw pCpu pVM pvCpuPage HCPhysCpuPage fEnabledByHost).2.1.efer k
        = Nat.testBit hw.efer k) ∧
    (SVMR0EnableCpu hw pCpu pVM pvCpuPage HCPhysCpuPage fEnabledByHost).2.1.vmHsavePa =
      HCPhysCpuPage ∧
    (SVMR0EnableCpu hw pCpu pVM pvCpuPage HCPhysCpuPage fEnabledByHost).2.2.fFlushAsidBeforeUse =
      true ∧
    (SVMR0EnableCpu hw pCpu pVM pvCpuPage HCPhysCpuPage fEnabledByHost).2.2.cTlbFlushes =
      (pCpu.cTlbFlushes + 1) % 2 ^ 64 ∧
    (pCpu.cTlbFlushes + 1 < 2 ^ 64 →
      (SVMR0EnableCpu hw pCpu pVM pvCpuPage HCPhysCpuPage fEnabledByHost).2.2.cTlbFlushes =
        pCpu.cTlbFlushes + 1) ∧
    (SVMR0EnableCpu hw pCpu pVM pvCpuPage HCPhysCpuPage fEnabledByHost).2.2.uCurrentAsid =
      pCpu.uCurrentAsid := by
  obtain ⟨e1, e2, e3, e4, _⟩ :=
    SVMR0EnableCpu_success hw pCpu pVM pvCpuPage HCPhysCpuPage fEnabledByHost hs
  rw [e1, e2, e3, e4]
  refine ⟨?_, ?_, ?_, rfl, rfl, rfl, fun hlt => Nat.mod_eq_of_lt hlt, rfl⟩
  · show (hw.efer ||| MSR_K6_EFER_SVME) &&& MSR_K6_EFER_SVME ≠ 0
    rw [lor_land_self]
    decide
  · show Nat.testBit (hw.efer ||| MSR_K6_EFER_SVME) 12 = true
    rw [Nat.testBit_or, testBit_svme]
    simp
  · intro k hk
    show Nat.testBit (hw.efer ||| MSR_K6_EFER_SVME) k = Nat.testBit hw.efer k
    rw [Nat.testBit_or, testBit_svme]
    simp [hk]

/-- Witness for C24: AMD-V off, EFER `0xD01`, generation 7. -/
theorem enableCpu_success_effects_witness :
    (SVMR0EnableCpu ⟨0xD01, 0⟩ ⟨0, 3, 7, false, false⟩ none 1 0x5000 false).2.1.vmHsavePa =
      0x5000 ∧
    (SVMR0EnableCpu ⟨0xD01, 0⟩ ⟨0, 3, 7, false, false⟩ none 1 0x5000 false).2.2.cTlbFlushes =
      8 ∧
    Nat.testBit (SVMR0EnableCpu ⟨0xD01, 0⟩ ⟨0, 3, 7, false, false⟩ none 1 0x5000 false).2.1.efer
      12 = true :=
  have h := enableCpu_success_effects ⟨0xD01, 0⟩ ⟨0, 3, 7, false, false⟩ none 1 0x5000 false
    (by decide)
  ⟨h.2.2.2.1, h.2.2.2.2.2.2.1 (by decide), h.2.1⟩

/-- C25: `SVMR0EnableCpu` returns `VERR_INVALID_PARAMETER` with the registers
and the CPU record as they were (for every content of the registers, so the
outcome does not depend on them) whenever `HCPhysCpuPage` is 0 or
`NIL_RTHCPHYS`, `pvCpuPage` is null or `fEnabledByHost` is true; and
`SVMR0DisableCpu` does the same whenever `HCPhysCpuPage` is 0 or
`NIL_RTHCPHYS` or `pvCpuPage` is null. -/
theorem enableCpu_disableCpu_invalid_parameter (hw : HwState) (pCpu : HMGLOBLCPUINFO)
    (pVM : Option Bool) (pvCpuPage HCPhysCpuPage : Nat) (fEnabledByHost : Bool)
    (h : HCPhysCpuPage = 0 ∨ HCPhysCpuPage = NIL_RTHCPHYS ∨ pvCpuPage = 0 ∨
      fEnabledByHost = true) :
    SVMR0EnableCpu hw pCpu pVM pvCpuPage HCPhysCpuPage fEnabledByHost =
      (Rc.VERR_INVALID_PARAMETER, hw, pCpu) ∧
    (HCPhysCpuPage = 0 ∨ HCPhysCpuPage = NIL_RTHCPHYS ∨ pvCpuPage = 0 →
      SVMR0DisableCpu hw pCpu pvCpuPage HCPhysCpuPage =
        (Rc.VERR_INVALID_PARAMETER, hw, pCpu)) := by
  constructor
  · unfold SVMR0EnableCpu
    rcases h with h | h | h | h
    · cases fEnabledByHost <;> simp [h]
    · cases fEnabledByHost <;> simp [h]
    · cases fEnabledByHost <;> simp [h]
    · simp [h]
  · intro h1
    unfold SVMR0DisableCpu
    rcases h1 with h | h | h
    · simp [h]
    · simp [h]
    · simp [h]

/-- Witness for C25: a null scratch page pointer. -/
theorem enableCpu_disableCpu_invalid_parameter_witness :
    SVMR0EnableCpu ⟨0xD01, 0x9000⟩ ⟨0, 3, 7, false, false⟩ (some true) 0 0x5000 false =
      (Rc.VERR_INVALID_PARAMETER, ⟨0xD01, 0x9000⟩, ⟨0, 3, 7, false, false⟩) ∧
    SVMR0DisableCpu ⟨0x1D01, 0x9000⟩ ⟨0, 3, 7, false, false⟩ 0 0x5000 =
      (Rc.VERR_INVALID_PARAMETER, ⟨0x1D01, 0x9000⟩, ⟨0, 3, 7, false, false⟩) :=
  ⟨(enableCpu_disableCpu_invalid_parameter ⟨0xD01, 0x9000⟩ ⟨0, 3, 7, false, false⟩ (some true)
      0 0x5000 false (Or.inr (Or.inr (Or.inl rfl)))).1,
   (enableCpu_disableCpu_invalid_parameter ⟨0x1D01, 0x9000⟩ ⟨0, 3, 7, false, false⟩ none
      0 0x5000 false (Or.inr (Or.inr (Or.inl rfl)))).2 (Or.inr (Or.inr rfl))⟩

/-- With valid arguments, `SVMR0DisableCpu` goes through lines 144-153. -/
theorem SVMR0DisableCpu_valid (hw : HwState) (c : HMGLOBLCPUINFO)
    (pv phys : Nat) (h0 : phys ≠ 0) (hnil : phys ≠ NIL_RTHCPHYS) (hpv : pv ≠ 0) :
    SVMR0DisableCpu hw c pv phys =
      if hw.efer &&& MSR_K6_EFER_SVME ≠ 0 then
        (Rc.VINF_SUCCESS, ⟨hw.efer &&& (2 ^ 32 - 1 - MSR_K6_EFER_SVME), 0⟩, c)
      else (Rc.VINF_SUCCESS, hw, c) := by
  unfold SVMR0DisableCpu
  by_cases hs : hw.efer &&& MSR_K6_EFER_SVME = 0 <;> simp [h0, hnil, hpv, hs]

theorem land_not_svme (x : Nat) :
    (x &&& (2 ^ 32 - 1 - MSR_K6_EFER_SVME)) &&& MSR_K6_EFER_SVME = 0 := by
  apply Nat.eq_of_testBit_eq
  intro k
  rw [Nat.testBit_and, Nat.testBit_and, testBit_not_svme, testBit_svme, Nat.zero_testBit]
  by_cases h : k = 12 <;> simp [h]

/-- C26: `SVMR0DisableCpu` with valid scratch-page arguments returns
`VINF_SUCCESS` and leaves the CPU record as it was. When EFER.SVME is set it
clears bit 12 of EFER, keeps every other bit below 32 and writes 0 to
`VM_HSAVE_PA`; for an EFER value below `2 ^ 32` (the architecture reserves
bits 32-63 of EFER, which read as zero) bit 12 is therefore the only bit that
changes, and the value written is the same whether `~MSR_K6_EFER_SVME` is taken
at 32 or at 64 bits. When EFER.SVME is clear both registers stay as they were.
A second call on the outcome of the first changes nothing more. -/
theorem disableCpu_effects (hw : HwState) (pCpu : HMGLOBLCPUINFO)
    (pvCpuPage HCPhysCpuPage : Nat)
    (h0 : HCPhysCpuPage ≠ 0) (hnil : HCPhysCpuPage ≠ NIL_RTHCPHYS) (hpv : pvCpuPage ≠ 0) :
    (SVMR0DisableCpu hw pCpu pvCpuPage HCPhysCpuPage).1 = Rc.VINF_SUCCESS ∧
    (SVMR0DisableCpu hw pCpu pvCpuPage HCPhysCpuPage).2.2 = pCpu ∧
    (hw.efer &&& MSR_K6_EFER_SVME ≠ 0 →
      Nat.testBit (SVMR0DisableCpu hw pCpu pvCpuPage HCPhysCpuPage).2.1.efer 12 = false ∧
      (SVMR0DisableCpu hw pCpu pvCpuPage HCPhysCpuPage).2.1.efer &&& MSR_K6_EFER_SVME = 0 ∧
      (∀ k, k < 32 → k ≠ 12 →
        Nat.testBit (SVMR0DisableCpu hw pCpu pvCpuPage HCPhysCpuPage).2.1.efer k =
          Nat.testBit hw.efer k) ∧
      (hw.efer < 2 ^ 32 →
        (∀ k, k ≠ 12 →
          Nat.testBit (SVMR0DisableCpu hw pCpu pvCpuPage HCPhysCpuPage).2.1.efer k =
            Nat.testBit hw.efer k) ∧
        (SVMR0DisableCpu hw pCpu pvCpuPage HCPhysCpuPage).2.1.efer =
          hw.efer &&& (2 ^ 64 - 1 - MSR_K6_EFER_SVME)) ∧
      (SVMR0DisableCpu hw pCpu pvCpuPage HCPhysCpuPage).2.1.vmHsavePa = 0) ∧
    (hw.efer &&& MSR_K6_EFER_SVME = 0 →
      (SVMR0DisableCpu hw pCpu pvCpuPage HCPhysCpuPage).2.1 = hw) ∧
    SVMR0DisableCpu (SVMR0DisableCpu hw pCpu pvCpuPage HCPhysCpuPage).2.1
        (SVMR0DisableCpu hw pCpu pvCpuPage HCPhysCpuPage).2.2 pvCpuPage HCPhysCpuPage =
      SVMR0DisableCpu hw pCpu pvCpuPage HCPhysCpuPage := by
  rw [SVMR0DisableCpu_valid hw pCpu _ _ h0 hnil hpv]
  by_cases hs : hw.efer &&& MSR_K6_EFER_SVME = 0
  · simp only [ne_eq, hs, not_true_eq_false, if_false]
    rw [SVMR0DisableCpu_valid hw pCpu _ _ h0 hnil hpv]
    simp [hs]
  · simp only [ne_eq, hs, not_false_eq_true, if_true]
    rw [SVMR0DisableCpu_valid _ pCpu _ _ h0 hnil hpv]
    simp only [land_not_svme, ne_eq, not_true_eq_false, if_false, true_and, forall_true_left,
      false_implies, and_true]
    refine ⟨?_, ?_, ?_⟩
    · rw [Nat.testBit_and, testBit_not_svme]
      simp
    · intro k hk hk2
      rw [Nat.testBit_and, testBit_not_svme]
      simp [hk, hk2]
    · intro hlt
      refine ⟨?_, land_not_svme_width hw.efer hlt⟩
      intro k hk2
      rw [Nat.testBit_and, testBit_not_svme]
      by_cases hk : k < 32
      · simp [hk, hk2]
      · have hz : hw.efer.testBit k = false :=
          Nat.testBit_lt_two_pow
            (lt_of_lt_of_le hlt (Nat.pow_le_pow_right (by decide) (by omega)))
        rw [hz]
        simp

/-- Witness for C26: EFER `0x1D01` becomes `0xD01`, bit 8 (long mode enable)
stays set, and a second call changes nothing. -/
theorem disableCpu_effects_witness :
    (SVMR0DisableCpu ⟨0x1D01, 0x9000⟩ ⟨0, 3, 7, true, false⟩ 1 0x5000) =
      (Rc.VINF_SUCCESS, ⟨0xD01, 0⟩, ⟨0, 3, 7, true, false⟩) ∧
    SVMR0DisableCpu ⟨0xD01, 0⟩ ⟨0, 3, 7, true, false⟩ 1 0x5000 =
      (Rc.VINF_SUCCESS, ⟨0xD01, 0⟩, ⟨0, 3, 7, true, false⟩) ∧
    (SVMR0DisableCpu ⟨0x1D01, 0x9000⟩ ⟨0, 3, 7, true, false⟩ 1 0x5000).2.1.vmHsavePa = 0 ∧
    Nat.testBit (SVMR0DisableCpu ⟨0x1D01, 0x9000⟩ ⟨0, 3, 7, true, false⟩ 1 0x5000).2.1.efer 8 =
      Nat.testBit 0x1D01 8 :=
  ⟨by decide, by decide,
   ((disableCpu_effects ⟨0x1D01, 0x9000⟩ ⟨0, 3, 7, true, false⟩ 1 0x5000
      (by decide) (by decide) (by decide)).2.2.1 (by decide)).2.2.2.2,
   (((disableCpu_effects ⟨0x1D01, 0x9000⟩ ⟨0, 3, 7, true, false⟩ 1 0x5000
      (by decide) (by decide) (by decide)).2.2.1 (by decide)).2.2.2.1 (by decide)).1 8
      (by decide)⟩

/-! ## Module initialization: claim -/

/-- C27 (fails on the success path): when the allocation succeeds,
`SVMR0GlobalInit` reaches the closing brace of the function without executing
a `return` statement, so it returns no status at all, in particular not
`VINF_SUCCESS`; up to there it has allocated 3 pages (12 KiB), recorded handle,
address and physical address in the globals and set every bit of the region.
When the allocation fails it returns the allocator's status. -/
theorem globalInit_success_path_no_return (env : R0MemObjEnv) (st : R0Mem) (g : Globals) :
    (env.allocRc st.cAllocs = Rc.VINF_SUCCESS →
      (SVMR0GlobalInit env st g).1 = none ∧
      (SVMR0GlobalInit env st g).1 ≠ some Rc.VINF_SUCCESS ∧
      (SVMR0GlobalInit env st g).2.2 =
        ⟨st.cAllocs + 1, env.physAddr (st.cAllocs + 1), RTR0MemObjAddress (st.cAllocs + 1)⟩ ∧
      (SVMR0GlobalInit env st g).2.1.live (st.cAllocs + 1) = true ∧
      (SVMR0GlobalInit env st g).2.1.cb (st.cAllocs + 1) = 3 * 4096 ∧
      ∀ b, b < 3 * 4096 * 8 →
        (SVMR0GlobalInit env st g).2.1.pages (st.cAllocs + 1) b = true) ∧
    (env.allocRc st.cAllocs ≠ Rc.VINF_SUCCESS →
      (SVMR0GlobalInit env st g).1 = some (env.allocRc st.cAllocs)) ∧
    (SVMR0GlobalInit envOk mem0 globals0).1 = none ∧
    (SVMR0GlobalInit envOk mem0 globals0).2.2 = ⟨1, 0x1000, 1⟩ ∧
    (SVMR0GlobalInit (envFailAt 0) mem0 globals0).1 = some Rc.VERR_NO_MEMORY := by
  refine ⟨?_, ?_, by decide, by decide, by decide⟩
  · intro h
    simp only [SVMR0GlobalInit, RTR0MemObjAllocCont, h, if_true, ne_eq, not_true_eq_false,
      if_false, ASMMemFill32, RTR0MemObjAddress, PAGE_SHIFT]
    refine ⟨trivial, by simp, trivial, ?_, ?_, ?_⟩
    · simp
    · simp
    · intro b hb
      have hb1 : b < (3 <<< 12) * 8 := by
        have : (3 <<< 12) = 3 * 4096 := by decide
        omega
      simp only [Nat.succ_ne_zero, if_false, if_true, hb1]
      exact testBit_ffffffff _ (Nat.mod_lt _ (by decide))
  · intro h
    simp [SVMR0GlobalInit, RTR0MemObjAllocCont, h]

/-! ## MSR permission bitmap: bounds and frame -/

/-- The bits `hmR0SvmSetMSRPermission` addresses for the MSRs of the three
ranges: the range dispatch is defined, and two different MSRs get bit pairs
that do not overlap. -/
theorem hmR0SvmMsrBitPos_inj (m m1 pb ul pb1 ul1 : Nat)
    (h : hmR0SvmMsrBitPos m = some (pb, ul)) (h1 : hmR0SvmMsrBitPos m1 = some (pb1, ul1))
    (hb : pb * 8 + ul = pb1 * 8 + ul1 ∨ pb * 8 + ul = pb1 * 8 + ul1 + 1 ∨
      pb * 8 + ul + 1 = pb1 * 8 + ul1 ∨ pb * 8 + ul + 1 = pb1 * 8 + ul1 + 1) : m = m1 := by
  simp only [hmR0SvmMsrBitPos] at h h1
  split_ifs at h h1 <;> simp at h h1 <;> omega

theorem hmR0SvmMsrBitPos_valid (m : Nat) (h : validMsr m) :
    ∃ pb ul, hmR0SvmMsrBitPos m = some (pb, ul) := by
  rcases h with h | h | h
  · exact ⟨_, _, hmR0SvmMsrBitPos_low m h⟩
  · exact ⟨_, _, hmR0SvmMsrBitPos_mid m h⟩
  · exact ⟨_, _, hmR0SvmMsrBitPos_high m h⟩

/-- The bits addressed by the code never fall on the documented position of
another MSR of the three ranges. -/
theorem hmR0SvmMsrBitPos_msrDocBit (m m1 pb ul d1 : Nat)
    (h : hmR0SvmMsrBitPos m = some (pb, ul)) (h1 : msrDocBit m1 = some d1)
    (hb : pb * 8 + ul = d1 ∨ pb * 8 + ul = d1 + 1 ∨
      pb * 8 + ul + 1 = d1 ∨ pb * 8 + ul + 1 = d1 + 1) : m = m1 := by
  simp only [hmR0SvmMsrBitPos] at h
  simp only [msrDocBit, msrWindow] at h1
  split_ifs at h h1 <;> simp at h h1 <;> omega

/-- C28 (fails in the third range): for every MSR of `0xC0010000`-`0xC0011FFF`
the range dispatch yields byte offset `0x1000` and a `ulBit` of at least
`0x1E000`, so `Assert(ulBit < 0x3fff)` fails and both bits touched lie at byte
`0x4C00` or later from the start of the bitmap, beyond its 8 KiB; the call
writes there. For the MSRs of the first two ranges the two bits do lie in the
window of the range (`0x000`-`0x7ff`, `0x800`-`0xfff`) and `ulBit < 0x3fff`
holds. -/
theorem setMsrPermission_high_range_outside_bitmap :
    (∀ m, 0xC0010000 ≤ m ∧ m ≤ 0xC0011FFF →
      ∃ ul, hmR0SvmMsrBitPos m = some (0x1000, ul) ∧ ¬ ul < 0x3fff ∧ 0x1E000 ≤ ul ∧
        0x2000 ≤ (0x1000 * 8 + ul) / 8 ∧ 0x4C00 ≤ (0x1000 * 8 + ul) / 8 ∧
        ∀ (mem : BitMem) (r : SVMMSREXITREAD) (w : SVMMSREXITWRITE),
          hmR0SvmSetMSRPermission mem m r w (0x1000 * 8 + ul) =
            decide (r = SVMMSREXIT_INTERCEPT_READ) ∧
          hmR0SvmSetMSRPermission mem m r w (0x1000 * 8 + ul + 1) =
            decide (w = SVMMSREXIT_INTERCEPT_WRITE)) ∧
    hmR0SvmMsrBitPos 0xC0010000 = some (0x1000, 0x1E000) ∧
    hmR0SvmSetMSRPermission (fun _ => false) 0xC0010000 SVMMSREXIT_INTERCEPT_READ
      SVMMSREXIT_INTERCEPT_WRITE (0x4C00 * 8) = true ∧
    hmR0SvmSetMSRPermission (fun _ => false) 0xC0010000 SVMMSREXIT_INTERCEPT_READ
      SVMMSREXIT_INTERCEPT_WRITE (0x4C00 * 8 + 1) = true ∧
    (∀ m, m ≤ 0x1FFF →
      ∃ ul, hmR0SvmMsrBitPos m = some (0, ul) ∧ ul < 0x3fff ∧ (0 * 8 + ul + 1) / 8 ≤ 0x7ff) ∧
    (∀ m, 0xC0000000 ≤ m ∧ m ≤ 0xC0001FFF →
      ∃ ul, hmR0SvmMsrBitPos m = some (0x800, ul) ∧ ul < 0x3fff ∧
        0x800 ≤ (0x800 * 8 + ul) / 8 ∧ (0x800 * 8 + ul + 1) / 8 ≤ 0xfff) := by
  refine ⟨?_, by decide, by decide, by decide, ?_, ?_⟩
  · intro m hm
    refine ⟨(m - 0xC0001000) * 2, hmR0SvmMsrBitPos_high m hm, by omega, by omega, by omega,
      by omega, ?_⟩
    intro mem r w
    rw [hmR0SvmSetMSRPermission_apply mem m _ _ r w (hmR0SvmMsrBitPos_high m hm),
      hmR0SvmSetMSRPermission_apply mem m _ _ r w (hmR0SvmMsrBitPos_high m hm)]
    constructor
    · rw [if_neg (by omega), if_pos rfl]
    · rw [if_pos (by omega)]
  · intro m hm
    exact ⟨m * 2, hmR0SvmMsrBitPos_low m hm, by omega, by omega⟩
  · intro m hm
    exact ⟨(m - 0xC0000000) * 2, hmR0SvmMsrBitPos_mid m hm, by omega, by omega, by omega⟩

/-- C29: `hmR0SvmSetMSRPermission` for an MSR `m` of the three ranges leaves
every bit other than the two it addresses for `m` as it was. The bit pairs
addressed for two different MSRs of the three ranges do not overlap, so for
every other MSR `m1` of the three ranges the two bits the function addresses
for `m1` are unchanged, and so is the pair read at the documented position of
`m1`. -/
theorem setMsrPermission_frame (mem : BitMem) (m : Nat) (r : SVMMSREXITREAD)
    (w : SVMMSREXITWRITE) (hm : validMsr m) :
    ∃ pb ul, hmR0SvmMsrBitPos m = some (pb, ul) ∧
      (∀ b, b ≠ pb * 8 + ul → b ≠ pb * 8 + ul + 1 →
        hmR0SvmSetMSRPermission mem m r w b = mem b) ∧
      ∀ m1, validMsr m1 → m1 ≠ m →
        (∃ pb1 ul1, hmR0SvmMsrBitPos m1 = some (pb1, ul1) ∧
          pb1 * 8 + ul1 ≠ pb * 8 + ul ∧ pb1 * 8 + ul1 ≠ pb * 8 + ul + 1 ∧
          pb1 * 8 + ul1 + 1 ≠ pb * 8 + ul ∧ pb1 * 8 + ul1 + 1 ≠ pb * 8 + ul + 1 ∧
          hmR0SvmSetMSRPermission mem m r w (pb1 * 8 + ul1) = mem (pb1 * 8 + ul1) ∧
          hmR0SvmSetMSRPermission mem m r w (pb1 * 8 + ul1 + 1) = mem (pb1 * 8 + ul1 + 1)) ∧
        msrBitmapRead (hmR0SvmSetMSRPermission mem m r w) m1 = msrBitmapRead mem m1 := by
  obtain ⟨pb, ul, hpos⟩ := hmR0SvmMsrBitPos_valid m hm
  have hframe : ∀ b, b ≠ pb * 8 + ul → b ≠ pb * 8 + ul + 1 →
      hmR0SvmSetMSRPermission mem m r w b = mem b := by
    intro b h1 h2
    rw [hmR0SvmSetMSRPermission_apply mem m pb ul r w hpos, if_neg (by omega), if_neg h1]
  refine ⟨pb, ul, hpos, hframe, ?_⟩
  intro m1 hm1 hne
  constructor
  · obtain ⟨pb1, ul1, hpos1⟩ := hmR0SvmMsrBitPos_valid m1 hm1
    have n1 : pb1 * 8 + ul1 ≠ pb * 8 + ul := fun e =>
      hne (hmR0SvmMsrBitPos_inj m1 m pb1 ul1 pb ul hpos1 hpos (Or.inl e))
    have n2 : pb1 * 8 + ul1 ≠ pb * 8 + ul + 1 := fun e =>
      hne (hmR0SvmMsrBitPos_inj m1 m pb1 ul1 pb ul hpos1 hpos (Or.inr (Or.inl e)))
    have n3 : pb1 * 8 + ul1 + 1 ≠ pb * 8 + ul := fun e =>
      hne (hmR0SvmMsrBitPos_inj m1 m pb1 ul1 pb ul hpos1 hpos (Or.inr (Or.inr (Or.inl e))))
    have n4 : pb1 * 8 + ul1 + 1 ≠ pb * 8 + ul + 1 := fun e =>
      hne (hmR0SvmMsrBitPos_inj m1 m pb1 ul1 pb ul hpos1 hpos (Or.inr (Or.inr (Or.inr e))))
    exact ⟨pb1, ul1, hpos1, n1, n2, n3, n4, hframe _ n1 n2, hframe _ n3 n4⟩
  · obtain ⟨d1, hd1, _⟩ := msrDocBit_valid m1 hm1
    simp only [msrBitmapRead, hd1, Option.map_some']
    have k1 : d1 ≠ pb * 8 + ul := fun e =>
      hne (hmR0SvmMsrBitPos_msrDocBit m m1 pb ul d1 hpos hd1 (Or.inl e.symm)).symm
    have k2 : d1 ≠ pb * 8 + ul + 1 := fun e =>
      hne (hmR0SvmMsrBitPos_msrDocBit m m1 pb ul d1 hpos hd1
        (Or.inr (Or.inr (Or.inl e.symm)))).symm
    have k3 : d1 + 1 ≠ pb * 8 + ul := fun e =>
      hne (hmR0SvmMsrBitPos_msrDocBit m m1 pb ul d1 hpos hd1 (Or.inr (Or.inl e.symm))).symm
    have k4 : d1 + 1 ≠ pb * 8 + ul + 1 := fun e =>
      hne (hmR0SvmMsrBitPos_msrDocBit m m1 pb ul d1 hpos hd1
        (Or.inr (Or.inr (Or.inr e.symm)))).symm
    rw [hframe _ k1 k2, hframe _ k3 k4]

/-- Witness for C29: programming STAR (`0xC0000081`) on the all-intercept
bitmap leaves the pair of LSTAR (`0xC0000082`) as it was. -/
theorem setMsrPermission_frame_witness :
    msrBitmapRead (hmR0SvmSetMSRPermission allIntercept 0xC0000081 SVMMSREXIT_PASSTHRU_READ
      SVMMSREXIT_PASSTHRU_WRITE) 0xC0000082 = some (true, true) :=
  match setMsrPermission_frame allIntercept 0xC0000081 SVMMSREXIT_PASSTHRU_READ
      SVMMSREXIT_PASSTHRU_WRITE (by decide) with
  | ⟨_, _, _, _, h⟩ => (h 0xC0000082 (by decide) (by decide)).2

/-! ## Tagged-TLB flush: ASID limit -/

/-- C30: with the always-flush policy off, on the fresh-ASID path (the
migration/generation test fires) and the incremented physical-CPU ASID
reaching `uMaxAsid`: if the feature word advertises flush-by-ASID the
directive is `SVM_TLB_FLUSH_SINGLE_CONTEXT` and the physical CPU's
`fFlushAsidBeforeUse` becomes true; otherwise the directive is
`SVM_TLB_FLUSH_ENTIRE` and `fFlushAsidBeforeUse` becomes false. -/
theorem flush_wrap_directive (vm : VM) (pCpu : HMGLOBLCPUINFO) (pVCpu : VMCPU)
    (ha : vm.fAlwaysFlushTLB = false)
    (hn : pVCpu.idLastCpu ≠ pCpu.idCpu ∨ pVCpu.cTlbFlushes ≠ pCpu.cTlbFlushes)
    (hwrap : vm.uMaxAsid ≤ (pCpu.uCurrentAsid + 1) % 2 ^ 32) :
    (vm.u32Features &&& AMD_CPUID_SVM_FEATURE_EDX_FLUSH_BY_ASID ≠ 0 →
      (hmR0SvmFlushTaggedTlb vm pCpu pVCpu).vcpu.u8TLBFlush = SVM_TLB_FLUSH_SINGLE_CONTEXT ∧
      (hmR0SvmFlushTaggedTlb vm pCpu pVCpu).cpu.fFlushAsidBeforeUse = true) ∧
    (vm.u32Features &&& AMD_CPUID_SVM_FEATURE_EDX_FLUSH_BY_ASID = 0 →
      (hmR0SvmFlushTaggedTlb vm pCpu pVCpu).vcpu.u8TLBFlush = SVM_TLB_FLUSH_ENTIRE ∧
      (hmR0SvmFlushTaggedTlb vm pCpu pVCpu).cpu.fFlushAsidBeforeUse = false) := by
  have hnew : fNewAsid pCpu pVCpu = true := by
    rcases hn with hn | hn
    · exact fNewAsid_of_idLastCpu_ne pCpu pVCpu hn
    · exact fNewAsid_of_cTlbFlushes_ne pCpu pVCpu hn
  have hw2 : vm.uMaxAsid ≤ (pCpu.uCurrentAsid + 1) % 4294967296 := hwrap
  have hw3 : ¬ (pCpu.uCurrentAsid + 1) % 4294967296 < vm.uMaxAsid := by omega
  unfold hmR0SvmFlushTaggedTlb flushNewAsid flushByAsid
  cases h4 : pVCpu.ffTlbFlush <;> cases h5 : pVCpu.fForceTLBFlush <;>
  by_cases hfe : vm.u32Features &&& AMD_CPUID_SVM_FEATURE_EDX_FLUSH_BY_ASID = 0 <;>
  simp [hnew, ha, h4, h5, hw2, hw3, hfe]

/-- Witness for C30: `uMaxAsid = 4`, the physical CPU at ASID 3, a migrated
virtual CPU, with and without flush-by-ASID. -/
theorem flush_wrap_directive_witness :
    ((hmR0SvmFlushTaggedTlb ⟨false, 4, 0x40⟩ ⟨0, 3, 7, false, false⟩
        ⟨9, 7, 2, false, false, false, false, 0, [], SVM_TLB_FLUSH_NOTHING, 2⟩).vcpu.u8TLBFlush
      = SVM_TLB_FLUSH_SINGLE_CONTEXT ∧
    (hmR0SvmFlushTaggedTlb ⟨false, 4, 0x40⟩ ⟨0, 3, 7, false, false⟩
        ⟨9, 7, 2, false, false, false, false, 0, [], SVM_TLB_FLUSH_NOTHING, 2⟩).cpu.fFlushAsidBeforeUse
      = true) ∧
    ((hmR0SvmFlushTaggedTlb ⟨false, 4, 0⟩ ⟨0, 3, 7, true, false⟩
        ⟨9, 7, 2, false, false, false, false, 0, [], SVM_TLB_FLUSH_NOTHING, 2⟩).vcpu.u8TLBFlush
      = SVM_TLB_FLUSH_ENTIRE ∧
    (hmR0SvmFlushTaggedTlb ⟨false, 4, 0⟩ ⟨0, 3, 7, true, false⟩
        ⟨9, 7, 2, false, false, false, false, 0, [], SVM_TLB_FLUSH_NOTHING, 2⟩).cpu.fFlushAsidBeforeUse
      = false) :=
  ⟨(flush_wrap_directive ⟨false, 4, 0x40⟩ ⟨0, 3, 7, false, false⟩
      ⟨9, 7, 2, false, false, false, false, 0, [], SVM_TLB_FLUSH_NOTHING, 2⟩
      rfl (Or.inl (by decide)) (by decide)).1 (by decide),
   (flush_wrap_directive ⟨false, 4, 0⟩ ⟨0, 3, 7, true, false⟩
      ⟨9, 7, 2, false, false, false, false, 0, [], SVM_TLB_FLUSH_NOTHING, 2⟩
      rfl (Or.inl (by decide)) (by decide)).2 (by decide)⟩

/-! ## Tagged-TLB flush: fresh ASID without wraparound, generation counter -/

/-- C31: with the always-flush policy off, on the fresh-ASID path (the
migration/generation test fires) and the incremented physical-CPU ASID staying
below `uMaxAsid`: if the physical CPU's `fFlushAsidBeforeUse` is set, the
directive is `SVM_TLB_FLUSH_SINGLE_CONTEXT` and the flag stays set when the
feature word advertises flush-by-ASID, and `SVM_TLB_FLUSH_ENTIRE` with the flag
cleared otherwise; if `fFlushAsidBeforeUse` is clear, the directive is
`SVM_TLB_FLUSH_NOTHING`, the flag stays clear, and the incremented ASID is the
one the virtual CPU and its VMCB get. -/
theorem flush_fresh_no_wrap_directive (vm : VM) (pCpu : HMGLOBLCPUINFO) (pVCpu : VMCPU)
    (ha : vm.fAlwaysFlushTLB = false)
    (hn : pVCpu.idLastCpu ≠ pCpu.idCpu ∨ pVCpu.cTlbFlushes ≠ pCpu.cTlbFlushes)
    (hnw : (pCpu.uCurrentAsid + 1) % 2 ^ 32 < vm.uMaxAsid) :
    (pCpu.fFlushAsidBeforeUse = true →
      (vm.u32Features &&& AMD_CPUID_SVM_FEATURE_EDX_FLUSH_BY_ASID ≠ 0 →
        (hmR0SvmFlushTaggedTlb vm pCpu pVCpu).vcpu.u8TLBFlush = SVM_TLB_FLUSH_SINGLE_CONTEXT ∧
        (hmR0SvmFlushTaggedTlb vm pCpu pVCpu).cpu.fFlushAsidBeforeUse = true) ∧
      (vm.u32Features &&& AMD_CPUID_SVM_FEATURE_EDX_FLUSH_BY_ASID = 0 →
        (hmR0SvmFlushTaggedTlb vm pCpu pVCpu).vcpu.u8TLBFlush = SVM_TLB_FLUSH_ENTIRE ∧
        (hmR0SvmFlushTaggedTlb vm pCpu pVCpu).cpu.fFlushAsidBeforeUse = false)) ∧
    (pCpu.fFlushAsidBeforeUse = false →
      (hmR0SvmFlushTaggedTlb vm pCpu pVCpu).vcpu.u8TLBFlush = SVM_TLB_FLUSH_NOTHING ∧
      (hmR0SvmFlushTaggedTlb vm pCpu pVCpu).cpu.fFlushAsidBeforeUse = false) ∧
    (hmR0SvmFlushTaggedTlb vm pCpu pVCpu).cpu.uCurrentAsid = (pCpu.uCurrentAsid + 1) % 2 ^ 32 ∧
    (hmR0SvmFlushTaggedTlb vm pCpu pVCpu).vcpu.uCurrentAsid =
      (pCpu.uCurrentAsid + 1) % 2 ^ 32 ∧
    (hmR0SvmFlushTaggedTlb vm pCpu pVCpu).vcpu.u32ASID = (pCpu.uCurrentAsid + 1) % 2 ^ 32 ∧
    (hmR0SvmFlushTaggedTlb vm pCpu pVCpu).cpu.cTlbFlushes = pCpu.cTlbFlushes := by
  have hnew : fNewAsid pCpu pVCpu = true := by
    rcases hn with hn | hn
    · exact fNewAsid_of_idLastCpu_ne pCpu pVCpu hn
    · exact fNewAsid_of_cTlbFlushes_ne pCpu pVCpu hn
  have hw2 : (pCpu.uCurrentAsid + 1) % 4294967296 < vm.uMaxAsid := hnw
  have hw3 : ¬ vm.uMaxAsid ≤ (pCpu.uCurrentAsid + 1) % 4294967296 := by omega
  unfold hmR0SvmFlushTaggedTlb flushNewAsid flushByAsid
  cases h4 : pVCpu.ffTlbFlush <;> cases h5 : pVCpu.fForceTLBFlush <;>
  cases h7 : pCpu.fFlushAsidBeforeUse <;>
  by_cases hfe : vm.u32Features &&& AMD_CPUID_SVM_FEATURE_EDX_FLUSH_BY_ASID = 0 <;>
  simp [hnew, ha, h4, h5, h7, hw2, hw3, hfe]

/-- Witness for C31: `uMaxAsid = 64`, the physical CPU at ASID 5, a migrated
virtual CPU; with `fFlushAsidBeforeUse` set and flush-by-ASID, and with
`fFlushAsidBeforeUse` clear. -/
theorem flush_fresh_no_wrap_directive_witness :
    ((hmR0SvmFlushTaggedTlb ⟨false, 64, 0x40⟩ ⟨0, 5, 7, true, false⟩
        ⟨9, 7, 2, false, false, false, false, 0, [], SVM_TLB_FLUSH_NOTHING, 2⟩).vcpu.u8TLBFlush
      = SVM_TLB_FLUSH_SINGLE_CONTEXT ∧
    (hmR0SvmFlushTaggedTlb ⟨false, 64, 0x40⟩ ⟨0, 5, 7, true, false⟩
        ⟨9, 7, 2, false, false, false, false, 0, [], SVM_TLB_FLUSH_NOTHING, 2⟩).cpu.fFlushAsidBeforeUse
      = true) ∧
    ((hmR0SvmFlushTaggedTlb ⟨false, 64, 0⟩ ⟨0, 5, 7, false, false⟩
        ⟨9, 7, 2, false, false, false, false, 0, [], SVM_TLB_FLUSH_ENTIRE, 2⟩).vcpu.u8TLBFlush
      = SVM_TLB_FLUSH_NOTHING ∧
    (hmR0SvmFlushTaggedTlb ⟨false, 64, 0⟩ ⟨0, 5, 7, false, false⟩
        ⟨9, 7, 2, false, false, false, false, 0, [], SVM_TLB_FLUSH_ENTIRE, 2⟩).cpu.fFlushAsidBeforeUse
      = false) ∧
    (hmR0SvmFlushTaggedTlb ⟨false, 64, 0⟩ ⟨0, 5, 7, false, false⟩
        ⟨9, 7, 2, false, false, false, false, 0, [], SVM_TLB_FLUSH_ENTIRE, 2⟩).vcpu.u32ASID
      = 6 :=
  ⟨((flush_fresh_no_wrap_directive ⟨false, 64, 0x40⟩ ⟨0, 5, 7, true, false⟩
      ⟨9, 7, 2, false, false, false, false, 0, [], SVM_TLB_FLUSH_NOTHING, 2⟩
      rfl (Or.inl (by decide)) (by decide)).1 rfl).1 (by decide),
   (flush_fresh_no_wrap_directive ⟨false, 64, 0⟩ ⟨0, 5, 7, false, false⟩
      ⟨9, 7, 2, false, false, false, false, 0, [], SVM_TLB_FLUSH_ENTIRE, 2⟩
      rfl (Or.inl (by decide)) (by decide)).2.1 rfl,
   (flush_fresh_no_wrap_directive ⟨false, 64, 0⟩ ⟨0, 5, 7, false, false⟩
      ⟨9, 7, 2, false, false, false, false, 0, [], SVM_TLB_FLUSH_ENTIRE, 2⟩
      rfl (Or.inl (by decide)) (by decide)).2.2.2.2.1⟩

/-- The physical CPU's `cTlbFlushes` after one call, on every path. -/
theorem flush_cpu_cTlbFlushes (vm : VM) (c : HMGLOBLCPUINFO) (v : VMCPU) :
    (hmR0SvmFlushTaggedTlb vm c v).cpu.cTlbFlushes =
      if vm.fAlwaysFlushTLB = false ∧ fNewAsid c v = true ∧
          vm.uMaxAsid ≤ (c.uCurrentAsid + 1) % 2 ^ 32 then
        (c.cTlbFlushes + 1) % 2 ^ 64
      else c.cTlbFlushes := by
  cases ha : vm.fAlwaysFlushTLB
  · cases hn : fNewAsid c v
    · rw [(flush_reuse vm c v ha hn).2.1]
      simp
    · rw [(flush_fresh vm c v ha hn).2.1]
      simp
  · rw [(flush_always vm c v ha).1]
    simp

/-- C32: one `hmR0SvmFlushTaggedTlb` call changes the physical CPU's
`cTlbFlushes` exactly when the always-flush policy is off, the
migration/generation test fires (the fresh-ASID path) and the incremented
`uCurrentAsid` reaches `uMaxAsid`; in that case the new value is the old one
incremented once in 64-bit arithmetic, in every other case it is the old one.
When the counter does not overflow (old+1 below `2 ^ 64`) it never decreases
and the increment is by exactly one. -/
theorem flush_generation_monotone (vm : VM) (pCpu : HMGLOBLCPUINFO) (pVCpu : VMCPU) :
    ((hmR0SvmFlushTaggedTlb vm pCpu pVCpu).cpu.cTlbFlushes ≠ pCpu.cTlbFlushes ↔
      vm.fAlwaysFlushTLB = false ∧
      (pVCpu.idLastCpu ≠ pCpu.idCpu ∨ pVCpu.cTlbFlushes ≠ pCpu.cTlbFlushes) ∧
      vm.uMaxAsid ≤ (pCpu.uCurrentAsid + 1) % 2 ^ 32) ∧
    ((hmR0SvmFlushTaggedTlb vm pCpu pVCpu).cpu.cTlbFlushes = pCpu.cTlbFlushes ∨
      (hmR0SvmFlushTaggedTlb vm pCpu pVCpu).cpu.cTlbFlushes =
        (pCpu.cTlbFlushes + 1) % 2 ^ 64) ∧
    (pCpu.cTlbFlushes + 1 < 2 ^ 64 →
      pCpu.cTlbFlushes ≤ (hmR0SvmFlushTaggedTlb vm pCpu pVCpu).cpu.cTlbFlushes ∧
      ((hmR0SvmFlushTaggedTlb vm pCpu pVCpu).cpu.cTlbFlushes ≠ pCpu.cTlbFlushes →
        (hmR0SvmFlushTaggedTlb vm pCpu pVCpu).cpu.cTlbFlushes = pCpu.cTlbFlushes + 1)) := by
  have hnew : fNewAsid pCpu pVCpu = true ↔
      (pVCpu.idLastCpu ≠ pCpu.idCpu ∨ pVCpu.cTlbFlushes ≠ pCpu.cTlbFlushes) := by
    simp [fNewAsid]
  rw [flush_cpu_cTlbFlushes]
  by_cases hc : vm.fAlwaysFlushTLB = false ∧ fNewAsid pCpu pVCpu = true ∧
      vm.uMaxAsid ≤ (pCpu.uCurrentAsid + 1) % 2 ^ 32
  · rw [if_pos hc]
    have hc1 : vm.fAlwaysFlushTLB = false ∧
        (pVCpu.idLastCpu ≠ pCpu.idCpu ∨ pVCpu.cTlbFlushes ≠ pCpu.cTlbFlushes) ∧
        vm.uMaxAsid ≤ (pCpu.uCurrentAsid + 1) % 2 ^ 32 := ⟨hc.1, hnew.1 hc.2.1, hc.2.2⟩
    refine ⟨⟨fun _ => hc1, fun _ => by omega⟩, Or.inr rfl,
      fun hlt => ⟨by omega, fun _ => by omega⟩⟩
  · rw [if_neg hc]
    have hc1 : ¬ (vm.fAlwaysFlushTLB = false ∧
        (pVCpu.idLastCpu ≠ pCpu.idCpu ∨ pVCpu.cTlbFlushes ≠ pCpu.cTlbFlushes) ∧
        vm.uMaxAsid ≤ (pCpu.uCurrentAsid + 1) % 2 ^ 32) :=
      fun h => hc ⟨h.1, hnew.2 h.2.1, h.2.2⟩
    exact ⟨⟨fun h => absurd rfl h, fun h => absurd h hc1⟩, Or.inl rfl,
      fun _ => ⟨Nat.le_refl _, fun h => absurd rfl h⟩⟩

/-- Instances of C32: a wrap at `uMaxAsid = 4` takes generation 7 to 8; a
fresh ASID without wrap and a call under the always-flush policy leave it at
7. -/
theorem flush_generation_monotone_witness :
    (hmR0SvmFlushTaggedTlb ⟨false, 4, 0⟩ ⟨0, 3, 7, false, false⟩
        ⟨9, 7, 2, false, false, false, false, 0, [], SVM_TLB_FLUSH_NOTHING, 2⟩).cpu.cTlbFlushes
      = 8 ∧
    (hmR0SvmFlushTaggedTlb ⟨false, 64, 0⟩ ⟨0, 3, 7, false, false⟩
        ⟨9, 7, 2, false, false, false, false, 0, [], SVM_TLB_FLUSH_NOTHING, 2⟩).cpu.cTlbFlushes
      = 7 ∧
    (hmR0SvmFlushTaggedTlb ⟨true, 4, 0⟩ ⟨0, 3, 7, false, false⟩
        ⟨9, 7, 2, false, false, false, false, 0, [], SVM_TLB_FLUSH_NOTHING, 2⟩).cpu.cTlbFlushes
      = 7 :=
  ⟨((flush_generation_monotone ⟨false, 4, 0⟩ ⟨0, 3, 7, false, false⟩
      ⟨9, 7, 2, false, false, false, false, 0, [], SVM_TLB_FLUSH_NOTHING, 2⟩).2.2
      (by decide)).2 (by decide),
   by decide, by decide⟩

/-! ## Virtual CPUs on several physical CPUs: ASID uniqueness -/

/-- What a fresh-ASID call leaves: the virtual CPU holds the physical CPU's
new ASID and generation, the new ASID is below `2 ^ 32 - 1`, and either the
generation was incremented (wraparound) or it is unchanged and the ASID is the
old one plus one. -/
theorem flush_fresh_uniq (vm : VM) (c : HMGLOBLCPUINFO) (v : VMCPU)
    (ha : vm.fAlwaysFlushTLB = false) (h32 : vm.uMaxAsid < 2 ^ 32)
    (hn : fNewAsid c v = true) :
    (hmR0SvmFlushTaggedTlb vm c v).vcpu.uCurrentAsid =
      (hmR0SvmFlushTaggedTlb vm c v).cpu.uCurrentAsid ∧
    (hmR0SvmFlushTaggedTlb vm c v).vcpu.cTlbFlushes =
      (hmR0SvmFlushTaggedTlb vm c v).cpu.cTlbFlushes ∧
    (hmR0SvmFlushTaggedTlb vm c v).cpu.uCurrentAsid + 1 < 2 ^ 32 ∧
    ((hmR0SvmFlushTaggedTlb vm c v).cpu.cTlbFlushes = (c.cTlbFlushes + 1) % 2 ^ 64 ∨
      ((hmR0SvmFlushTaggedTlb vm c v).cpu.cTlbFlushes = c.cTlbFlushes ∧
        (hmR0SvmFlushTaggedTlb vm c v).cpu.uCurrentAsid = (c.uCurrentAsid + 1) % 2 ^ 32)) := by
  obtain ⟨e1, e2, e3, e4⟩ := flush_fresh vm c v ha hn
  refine ⟨e3, e4, ?_, ?_⟩
  · rw [e1]
    split <;> omega
  · rw [e1, e2]
    by_cases hw : vm.uMaxAsid ≤ (c.uCurrentAsid + 1) % 2 ^ 32
    · rw [if_pos hw]
      exact Or.inl rfl
    · rw [if_neg hw, if_neg hw]
      exact Or.inr ⟨rfl, rfl⟩

/-- The invariant only looks at the ids of the physical CPUs, at ASID and
generation of physical CPU `k`, and at `idLastCpu`, generation snapshot and
ASID of the virtual CPUs. -/
theorem UniqInv_congr (k : Nat) (m m1 : Machine)
    (hid : ∀ k1, (m1.cpus k1).idCpu = (m.cpus k1).idCpu)
    (ha : (m1.cpus k).uCurrentAsid = (m.cpus k).uCurrentAsid)
    (hg : (m1.cpus k).cTlbFlushes = (m.cpus k).cTlbFlushes)
    (hv : ∀ j, (m1.vcpus j).idLastCpu = (m.vcpus j).idLastCpu ∧
      (m1.vcpus j).cTlbFlushes = (m.vcpus j).cTlbFlushes ∧
      (m1.vcpus j).uCurrentAsid = (m.vcpus j).uCurrentAsid)
    (h : UniqInv k m) : UniqInv k m1 := by
  obtain ⟨i1, i2, i3, i4⟩ := h
  have hcur : ∀ j, currentOn m1 k j → currentOn m k j := by
    intro j hj
    unfold currentOn at hj ⊢
    rw [(hv j).1, (hv j).2.1, hid k, hg] at hj
    exact hj
  refine ⟨fun k1 => (hid k1).trans (i1 k1), ?_, ?_, ?_⟩
  · intro j hj
    rw [(hv j).1] at hj
    rw [(hv j).2.1, hg]
    exact i2 j hj
  · intro j hj
    rw [(hv j).2.2, ha]
    exact i3 j (hcur j hj)
  · intro i j hij hi hj
    rw [(hv i).2.2, (hv j).2.2]
    exact i4 i j hij (hcur i hi) (hcur j hj)

/-- When the generation of physical CPU `k` moves ahead and nothing else the
invariant looks at changes, no virtual CPU is current on `k` any more and the
invariant holds. -/
theorem UniqInv_gen_ahead (k : Nat) (m m1 : Machine)
    (hid : ∀ k1, (m1.cpus k1).idCpu = (m.cpus k1).idCpu)
    (hg : (m.cpus k).cTlbFlushes < (m1.cpus k).cTlbFlushes)
    (hv : ∀ j, (m1.vcpus j).idLastCpu = (m.vcpus j).idLastCpu ∧
      (m1.vcpus j).cTlbFlushes = (m.vcpus j).cTlbFlushes)
    (h : UniqInv k m) : UniqInv k m1 := by
  obtain ⟨i1, i2, _, _⟩ := h
  have hno : ∀ j, ¬ currentOn m1 k j := by
    intro j hj
    unfold currentOn at hj
    rw [(hv j).1, (hv j).2, hid k, i1 k] at hj
    have := i2 j hj.1
    omega
  refine ⟨fun k1 => (hid k1).trans (i1 k1), ?_, ?_, ?_⟩
  · intro j hj
    rw [(hv j).1] at hj
    rw [(hv j).2]
    have := i2 j hj
    omega
  · intro j hj
    exact absurd hj (hno j)
  · intro i j _ hi _
    exact absurd hi (hno i)

/-- A generation that is not smaller after a 64-bit increment is the old one
plus one. -/
theorem gen_incr_of_le (g : Nat) (h : g ≤ (g + 1) % 2 ^ 64) : (g + 1) % 2 ^ 64 = g + 1 := by
  omega

/-- Every event keeps the ASID uniqueness invariant of physical CPU `k`, as
long as it does not make the generation counter of `k` wrap around. -/
theorem mstep_UniqInv (vm : VM) (k : Nat) (m : Machine) (e : MEvent)
    (ha : vm.fAlwaysFlushTLB = false) (h32 : vm.uMaxAsid < 2 ^ 32)
    (hov : (m.cpus k).cTlbFlushes ≤ ((mstep vm m e).cpus k).cTlbFlushes)
    (h : UniqInv k m) : UniqInv k (mstep vm m e) := by
  have i1 := h.1
  cases e with
  | flush k0 i0 =>
    have hidc := flush_cpu_idCpu vm (m.cpus k0) (m.vcpus i0)
    have hidv := flush_vcpu_idLastCpu vm (m.cpus k0) (m.vcpus i0)
    have hid : ∀ k1, ((mstep vm m (MEvent.flush k0 i0)).cpus k1).idCpu = (m.cpus k1).idCpu := by
      intro k1
      simp only [mstep, setCpuInfo]
      by_cases hk : k1 = k0
      · rw [if_pos hk, hk]; exact hidc
      · rw [if_neg hk]
    by_cases hk : k0 = k
    · subst hk
      cases hn : fNewAsid (m.cpus k0) (m.vcpus i0)
      · -- the virtual CPU is current: nothing the invariant looks at changes
        obtain ⟨r1, r2, r3, r4⟩ := flush_reuse vm (m.cpus k0) (m.vcpus i0) ha hn
        have hcur := (fNewAsid_eq_false_iff _ _).1 hn
        apply UniqInv_congr k0 m _ hid _ _ _ h
        · simp only [mstep, setCpuInfo, if_true]; exact r1
        · simp only [mstep, setCpuInfo, if_true]; exact r2
        · intro j
          simp only [mstep, setVcpu]
          by_cases hj : j = i0
          · rw [if_pos hj, hj]
            exact ⟨hidv.trans hcur.1.symm, r4, r3⟩
          · rw [if_neg hj]
            exact ⟨rfl, rfl, rfl⟩
      · obtain ⟨f1, f2, f3, f4⟩ := flush_fresh_uniq vm (m.cpus k0) (m.vcpus i0) ha h32 hn
        obtain ⟨_, i2, i3, i4⟩ := h
        simp only [mstep, setCpuInfo, if_true] at hov
        have hv0 : ((mstep vm m (MEvent.flush k0 i0)).vcpus i0) =
            (hmR0SvmFlushTaggedTlb vm (m.cpus k0) (m.vcpus i0)).vcpu := by
          simp [mstep, setVcpu]
        have hvj : ∀ j, j ≠ i0 → ((mstep vm m (MEvent.flush k0 i0)).vcpus j) = m.vcpus j := by
          intro j hj
          simp [mstep, setVcpu, hj]
        have hc0 : ((mstep vm m (MEvent.flush k0 i0)).cpus k0) =
            (hmR0SvmFlushTaggedTlb vm (m.cpus k0) (m.vcpus i0)).cpu := by
          simp [mstep, setCpuInfo]
        -- the other virtual CPUs current afterwards were current before, the
        -- generation is unchanged and the ASID went up by one
        have hother : ∀ j, j ≠ i0 → currentOn (mstep vm m (MEvent.flush k0 i0)) k0 j →
            currentOn m k0 j ∧
            (hmR0SvmFlushTaggedTlb vm (m.cpus k0) (m.vcpus i0)).cpu.uCurrentAsid =
              (m.cpus k0).uCurrentAsid + 1 := by
          intro j hj hcj
          unfold currentOn at hcj ⊢
          rw [hvj j hj, hc0, hidc, i1 k0] at hcj
          have hb := i2 j hcj.1
          rcases f4 with f4 | ⟨f4, f5⟩
          · rw [f4] at hov hcj
            have := gen_incr_of_le _ hov
            omega
          · rw [f4] at hcj
            have hcur : (m.vcpus j).idLastCpu = (m.cpus k0).idCpu ∧
                (m.vcpus j).cTlbFlushes = (m.cpus k0).cTlbFlushes := ⟨by rw [i1 k0]; exact hcj.1, hcj.2⟩
            refine ⟨hcur, ?_⟩
            have := (i3 j hcur).2
            rw [f5]
            omega
        refine ⟨fun k1 => (hid k1).trans (i1 k1), ?_, ?_, ?_⟩
        · intro j hj
          rw [hc0]
          by_cases hji : j = i0
          · rw [hji, hv0, f2]
          · rw [hvj j hji] at hj ⊢
            exact Nat.le_trans (i2 j hj) hov
        · intro j hj
          rw [hc0]
          refine ⟨?_, f3⟩
          by_cases hji : j = i0
          · rw [hji, hv0, f1]
          · obtain ⟨o1, o2⟩ := hother j hji hj
            rw [hvj j hji, o2]
            have := (i3 j o1).1
            omega
        · intro i j hij hi hj
          by_cases hi0 : i = i0
          · have hj0 : j ≠ i0 := fun e => hij (hi0.trans e.symm)
            obtain ⟨o1, o2⟩ := hother j hj0 hj
            rw [hi0, hv0, hvj j hj0, f1, o2]
            have := (i3 j o1).1
            omega
          · by_cases hj0 : j = i0
            · obtain ⟨o1, o2⟩ := hother i hi0 hi
              rw [hj0, hv0, hvj i hi0, f1, o2]
              have := (i3 i o1).1
              omega
            · rw [hvj i hi0, hvj j hj0]
              exact i4 i j hij (hother i hi0 hi).1 (hother j hj0 hj).1
    · -- a world switch on another physical CPU: the virtual CPU leaves `k`
      have hkk : ¬ k = k0 := fun e => hk e.symm
      have hck : (mstep vm m (MEvent.flush k0 i0)).cpus k = m.cpus k := by
        simp [mstep, setCpuInfo, hkk]
      have hv0 : ((mstep vm m (MEvent.flush k0 i0)).vcpus i0).idLastCpu = k0 := by
        simp only [mstep, setVcpu, if_true]
        rw [hidv, i1 k0]
      have hvj : ∀ j, j ≠ i0 → ((mstep vm m (MEvent.flush k0 i0)).vcpus j) = m.vcpus j := by
        intro j hj
        simp [mstep, setVcpu, hj]
      have hcur : ∀ j, currentOn (mstep vm m (MEvent.flush k0 i0)) k j →
          j ≠ i0 ∧ currentOn m k j := by
        intro j hj
        unfold currentOn at hj ⊢
        rw [hck] at hj
        by_cases hji : j = i0
        · rw [hji, hv0, i1 k] at hj
          exact absurd hj.1 hk
        · rw [hvj j hji] at hj
          exact ⟨hji, hj⟩
      obtain ⟨_, i2, i3, i4⟩ := h
      refine ⟨fun k1 => (hid k1).trans (i1 k1), ?_, ?_, ?_⟩
      · intro j hj
        rw [hck]
        by_cases hji : j = i0
        · rw [hji, hv0] at hj
          exact absurd hj hk
        · rw [hvj j hji] at hj ⊢
          exact i2 j hj
      · intro j hj
        obtain ⟨hji, hc⟩ := hcur j hj
        rw [hck, hvj j hji]
        exact i3 j hc
      · intro i j hij hi hj
        obtain ⟨hi0, hci⟩ := hcur i hi
        obtain ⟨hj0, hcj⟩ := hcur j hj
        rw [hvj i hi0, hvj j hj0]
        exact i4 i j hij hci hcj
  | enable k0 pVM pv phys fHost =>
    have he := enable_cpu_fields (m.hws k0) (m.cpus k0) pVM pv phys fHost
    have hid : ∀ k1, ((mstep vm m (MEvent.enable k0 pVM pv phys fHost)).cpus k1).idCpu =
        (m.cpus k1).idCpu := by
      intro k1
      simp only [mstep, setCpuInfo]
      by_cases hk : k1 = k0
      · rw [if_pos hk, hk]; exact he.1
      · rw [if_neg hk]
    by_cases hk : k = k0
    · subst hk
      simp only [mstep, setCpuInfo, if_true] at hov
      rcases he.2.2 with hg | hg
      · apply UniqInv_congr k m _ hid _ _ _ h
        · simp only [mstep, setCpuInfo, if_true]; exact he.2.1
        · simp only [mstep, setCpuInfo, if_true]; exact hg
        · intro j; exact ⟨rfl, rfl, rfl⟩
      · apply UniqInv_gen_ahead k m _ hid _ _ h
        · simp only [mstep, setCpuInfo, if_true]
          rw [hg] at hov ⊢
          have := gen_incr_of_le _ hov
          omega
        · intro j; exact ⟨rfl, rfl⟩
    · apply UniqInv_congr k m _ hid _ _ _ h
      · simp [mstep, setCpuInfo, hk]
      · simp [mstep, setCpuInfo, hk]
      · intro j; exact ⟨rfl, rfl, rfl⟩
  | disable k0 pv phys =>
    have hd := disable_cpu_eq (m.hws k0) (m.cpus k0) pv phys
    have hc : ∀ k1, (mstep vm m (MEvent.disable k0 pv phys)).cpus k1 = m.cpus k1 := by
      intro k1
      simp only [mstep, setCpuInfo]
      by_cases hk : k1 = k0
      · rw [if_pos hk, hk]; exact hd
      · rw [if_neg hk]
    apply UniqInv_congr k m _ (fun k1 => by rw [hc k1]) (by rw [hc k]) (by rw [hc k]) _ h
    intro j; exact ⟨rfl, rfl, rfl⟩
  | request i0 ff force sd pages =>
    apply UniqInv_congr k m (mstep vm m (MEvent.request i0 ff force sd pages))
      (fun k1 => rfl) rfl rfl _ h
    intro j
    simp only [mstep, setVcpu]
    by_cases hj : j = i0
    · rw [if_pos hj, hj]
      exact ⟨rfl, rfl, rfl⟩
    · rw [if_neg hj]
      exact ⟨rfl, rfl, rfl⟩

theorem mrun_UniqInv (vm : VM) (k : Nat) (evs : List MEvent) (m : Machine)
    (ha : vm.fAlwaysFlushTLB = false) (h32 : vm.uMaxAsid < 2 ^ 32)
    (hov : genNeverWraps vm k m evs = true)
    (h : UniqInv k m) : UniqInv k (mrun vm m evs) := by
  induction evs generalizing m with
  | nil => exact h
  | cons e evs ih =>
    simp only [genNeverWraps, Bool.and_eq_true, decide_eq_true_eq] at hov
    exact ih (mstep vm m e) hov.2 (mstep_UniqInv vm k m e ha h32 hov.1 h)

/-- C33 (amended): with the always-flush policy off and a 32-bit `uMaxAsid`,
start from a machine in which record `k1` carries CPU id `k1` and every
virtual CPU that last ran on physical CPU `k` holds a generation snapshot
strictly below that CPU's `cTlbFlushes` (so none is current on `k` and none is
ahead of it). After any sequence of world switches, `SVMR0EnableCpu` /
`SVMR0DisableCpu` calls and flush requests on any CPUs that does not make the
generation counter of `k` wrap around, two different virtual CPUs that are
both current on `k` hold different ASIDs, each at most the `uCurrentAsid` of
`k`. -/
theorem asid_unique_on_cpu (vm : VM) (m0 : Machine) (evs : List MEvent) (k : Nat)
    (ha : vm.fAlwaysFlushTLB = false) (h32 : vm.uMaxAsid < 2 ^ 32)
    (hid : ∀ k1, (m0.cpus k1).idCpu = k1)
    (h0 : ∀ j, (m0.vcpus j).idLastCpu = k →
      (m0.vcpus j).cTlbFlushes < (m0.cpus k).cTlbFlushes)
    (hov : genNeverWraps vm k m0 evs = true)
    (i j : Nat) (hij : i ≠ j)
    (hi : currentOn (mrun vm m0 evs) k i) (hj : currentOn (mrun vm m0 evs) k j) :
    ((mrun vm m0 evs).vcpus i).uCurrentAsid ≠ ((mrun vm m0 evs).vcpus j).uCurrentAsid ∧
    ((mrun vm m0 evs).vcpus i).uCurrentAsid ≤ ((mrun vm m0 evs).cpus k).uCurrentAsid ∧
    ((mrun vm m0 evs).vcpus j).uCurrentAsid ≤ ((mrun vm m0 evs).cpus k).uCurrentAsid := by
  have hno : ∀ j, ¬ currentOn m0 k j := by
    intro j hc
    unfold currentOn at hc
    rw [hid k] at hc
    have := h0 j hc.1
    omega
  have hinv0 : UniqInv k m0 :=
    ⟨hid, fun j hj => Nat.le_of_lt (h0 j hj), fun j hc => absurd hc (hno j),
      fun i _ _ hc _ => absurd hc (hno i)⟩
  obtain ⟨_, _, i3, i4⟩ := mrun_UniqInv vm k evs m0 ha h32 hov hinv0
  exact ⟨i4 i j hij hi hj, (i3 i hi).1, (i3 j hj).1⟩

/-- Witness for C33: AMD-V is enabled on physical CPU 0, then virtual CPUs 0
and 1, which have never run, are switched to on it: both are current on CPU 0,
with ASIDs 1 and 2. -/
theorem asid_unique_on_cpu_witness :
    currentOn (mrun ⟨false, 64, 0⟩ machine0
      [MEvent.enable 0 none 1 0x5000 false, MEvent.flush 0 0, MEvent.flush 0 1]) 0 0 ∧
    currentOn (mrun ⟨false, 64, 0⟩ machine0
      [MEvent.enable 0 none 1 0x5000 false, MEvent.flush 0 0, MEvent.flush 0 1]) 0 1 ∧
    ((mrun ⟨false, 64, 0⟩ machine0
      [MEvent.enable 0 none 1 0x5000 false, MEvent.flush 0 0, MEvent.flush 0 1]).vcpus 0).uCurrentAsid
      ≠
    ((mrun ⟨false, 64, 0⟩ machine0
      [MEvent.enable 0 none 1 0x5000 false, MEvent.flush 0 0, MEvent.flush 0 1]).vcpus 1).uCurrentAsid :=
  ⟨by decide, by decide,
   (asid_unique_on_cpu ⟨false, 64, 0⟩ machine0
      [MEvent.enable 0 none 1 0x5000 false, MEvent.flush 0 0, MEvent.flush 0 1] 0
      rfl (by decide) (fun _ => rfl)
      (fun _ h => absurd h (show ¬ ((0xFFFFFFFF : Nat) = 0) by decide))
      (by decide) 0 1 (by decide) (by decide) (by decide)).1⟩

/-- C33 as stated fails: in `machineAhead` no virtual CPU is current on any
physical CPU (virtual CPU 0 last ran on CPU 0 but its snapshot 5 differs from
the CPU's generation 4). With `uMaxAsid = 3` and the always-flush policy off,
one world switch of virtual CPU 1 on CPU 0 wraps the ASID to 1 and takes the
generation to 5, without counter overflow; afterwards virtual CPUs 0 and 1 are
both current on CPU 0 and both hold ASID 1. -/
theorem asid_unique_snapshot_ahead :
    (∀ k i, ¬ currentOn machineAhead k i) ∧
    genNeverWraps ⟨false, 3, 0⟩ 0 machineAhead [MEvent.flush 0 1] = true ∧
    ((mrun ⟨false, 3, 0⟩ machineAhead [MEvent.flush 0 1]).cpus 0).cTlbFlushes = 5 ∧
    currentOn (mrun ⟨false, 3, 0⟩ machineAhead [MEvent.flush 0 1]) 0 0 ∧
    currentOn (mrun ⟨false, 3, 0⟩ machineAhead [MEvent.flush 0 1]) 0 1 ∧
    ((mrun ⟨false, 3, 0⟩ machineAhead [MEvent.flush 0 1]).vcpus 0).uCurrentAsid = 1 ∧
    ((mrun ⟨false, 3, 0⟩ machineAhead [MEvent.flush 0 1]).vcpus 1).uCurrentAsid = 1 := by
  refine ⟨?_, by decide, by decide, by decide, by decide, by decide, by decide⟩
  intro k i
  unfold currentOn machineAhead
  by_cases hi : i = 0 <;> simp [hi]

/-! ## Tagged-TLB flush: explicit requests and the force flag -/

/-- C34: whenever `VMCPU_FF_TLB_FLUSH` is pending or `fForceTLBFlush` is set on
entry, after `hmR0SvmFlushTaggedTlb` either the VMCB directive is not
`SVM_TLB_FLUSH_NOTHING`, or the call took the fresh-ASID path: the always-flush
policy is off, the migration/generation test fired, the physical CPU's
`uCurrentAsid` was advanced (incremented, or wrapped to 1 at `uMaxAsid`) and
the virtual CPU and its VMCB hold that new ASID. -/
theorem flush_request_not_dropped (vm : VM) (pCpu : HMGLOBLCPUINFO) (pVCpu : VMCPU)
    (hf : pVCpu.ffTlbFlush = true ∨ pVCpu.fForceTLBFlush = true) :
    (hmR0SvmFlushTaggedTlb vm pCpu pVCpu).vcpu.u8TLBFlush ≠ SVM_TLB_FLUSH_NOTHING ∨
    (vm.fAlwaysFlushTLB = false ∧
      (pVCpu.idLastCpu ≠ pCpu.idCpu ∨ pVCpu.cTlbFlushes ≠ pCpu.cTlbFlushes) ∧
      (hmR0SvmFlushTaggedTlb vm pCpu pVCpu).cpu.uCurrentAsid =
        (if vm.uMaxAsid ≤ (pCpu.uCurrentAsid + 1) % 2 ^ 32 then 1
         else (pCpu.uCurrentAsid + 1) % 2 ^ 32) ∧
      (hmR0SvmFlushTaggedTlb vm pCpu pVCpu).vcpu.uCurrentAsid =
        (hmR0SvmFlushTaggedTlb vm pCpu pVCpu).cpu.uCurrentAsid ∧
      (hmR0SvmFlushTaggedTlb vm pCpu pVCpu).vcpu.u32ASID =
        (hmR0SvmFlushTaggedTlb vm pCpu pVCpu).cpu.uCurrentAsid) := by
  cases ha : vm.fAlwaysFlushTLB
  · cases hn : fNewAsid pCpu pVCpu
    · left
      unfold hmR0SvmFlushTaggedTlb flushByAsid
      cases h4 : pVCpu.ffTlbFlush <;> cases h5 : pVCpu.fForceTLBFlush <;>
      simp [hn, ha, h4, h5] at hf ⊢ <;> split <;> simp_all
    · right
      obtain ⟨e1, _, e3, _⟩ := flush_fresh vm pCpu pVCpu ha hn
      refine ⟨rfl, ?_, e1, e3, ?_⟩
      · simpa [fNewAsid] using hn
      · rw [flush_vmcb_asid, e3]
  · left
    rw [(flush_always vm pCpu pVCpu ha).2.2.2]
    decide

/-- Witness for C34: an explicit request on a virtual CPU that stays on its
physical CPU gives a full flush; on a migrated virtual CPU with
`fFlushAsidBeforeUse` clear the directive is "no flush" and the virtual CPU
gets the fresh ASID 6. -/
theorem flush_request_not_dropped_witness :
    (hmR0SvmFlushTaggedTlb ⟨false, 64, 0⟩ ⟨0, 5, 3, false, false⟩
        ⟨0, 3, 2, false, false, true, false, 0, [], SVM_TLB_FLUSH_NOTHING, 2⟩).vcpu.u8TLBFlush
      = SVM_TLB_FLUSH_ENTIRE ∧
    (hmR0SvmFlushTaggedTlb ⟨false, 64, 0⟩ ⟨0, 5, 3, false, false⟩
        ⟨9, 3, 2, false, false, true, false, 0, [], SVM_TLB_FLUSH_NOTHING, 2⟩).vcpu.u8TLBFlush
      = SVM_TLB_FLUSH_NOTHING ∧
    (hmR0SvmFlushTaggedTlb ⟨false, 64, 0⟩ ⟨0, 5, 3, false, false⟩
        ⟨9, 3, 2, false, false, true, false, 0, [], SVM_TLB_FLUSH_NOTHING, 2⟩).vcpu.u32ASID
      = 6 :=
  ⟨by decide, by decide,
   (flush_request_not_dropped ⟨false, 64, 0⟩ ⟨0, 5, 3, false, false⟩
      ⟨9, 3, 2, false, false, true, false, 0, [], SVM_TLB_FLUSH_NOTHING, 2⟩
      (Or.inl rfl)).elim (fun h => absurd (by decide) h)
      (fun h => h.2.2.2.2.trans (h.2.2.1.trans (by decide)))⟩

/-- The force flag after one call: cleared when the always-flush policy is
off; under the policy it is set when it was set on entry, when the
migration/generation test fires or when `VMCPU_FF_TLB_FLUSH` is pending. -/
theorem flush_fForceTLBFlush (vm : VM) (c : HMGLOBLCPUINFO) (v : VMCPU) :
    (hmR0SvmFlushTaggedTlb vm c v).vcpu.fForceTLBFlush =
      (vm.fAlwaysFlushTLB && (v.fForceTLBFlush || fNewAsid c v || v.ffTlbFlush)) := by
  unfold hmR0SvmFlushTaggedTlb flushNewAsid
  cases h3 : vm.fAlwaysFlushTLB <;> cases h0 : fNewAsid c v <;>
  cases h4 : v.ffTlbFlush <;> cases h5 : v.fForceTLBFlush <;>
  cases h6 : v.ffTlbShootdown <;>
  simp [h0, h3, h4, h5, h6]

/-- Under the always-flush policy no event clears a set force flag. -/
theorem mstep_fForceTLBFlush (vm : VM) (m : Machine) (e : MEvent) (i : Nat)
    (ha : vm.fAlwaysFlushTLB = true) (h : (m.vcpus i).fForceTLBFlush = true) :
    ((mstep vm m e).vcpus i).fForceTLBFlush = true := by
  cases e with
  | flush k0 i0 =>
    simp only [mstep, setVcpu]
    by_cases hi : i = i0
    · rw [if_pos hi, flush_fForceTLBFlush, ha, ← hi, h]
      rfl
    · rw [if_neg hi]
      exact h
  | enable k0 pVM pv phys fHost => exact h
  | disable k0 pv phys => exact h
  | request i0 ff force sd pages =>
    simp only [mstep, setVcpu]
    by_cases hi : i = i0
    · rw [if_pos hi]
      simp only []
      rw [← hi, h]
      rfl
    · rw [if_neg hi]
      exact h

theorem mrun_fForceTLBFlush (vm : VM) (evs : List MEvent) (m : Machine) (i : Nat)
    (ha : vm.fAlwaysFlushTLB = true) (h : (m.vcpus i).fForceTLBFlush = true) :
    ((mrun vm m evs).vcpus i).fForceTLBFlush = true := by
  induction evs generalizing m with
  | nil => exact h
  | cons e evs ih => exact ih (mstep vm m e) (mstep_fForceTLBFlush vm m e i ha h)

/-- C35: after a `hmR0SvmFlushTaggedTlb` call with the always-flush policy
off, `fForceTLBFlush` is false. With the policy on, the call leaves the flag
set when it was set on entry, when the virtual CPU migrated, when its
generation snapshot differs or when `VMCPU_FF_TLB_FLUSH` is pending, and clear
otherwise; it leaves the physical CPU's `cTlbFlushes` and
`fFlushAsidBeforeUse` as they were; and once the flag is set on a virtual CPU,
it is still set after any further sequence of world switches,
`SVMR0EnableCpu` / `SVMR0DisableCpu` calls and flush requests. -/
theorem force_flag_lifecycle (vm : VM) (pCpu : HMGLOBLCPUINFO) (pVCpu : VMCPU) :
    (vm.fAlwaysFlushTLB = false →
      (hmR0SvmFlushTaggedTlb vm pCpu pVCpu).vcpu.fForceTLBFlush = false) ∧
    (vm.fAlwaysFlushTLB = true →
      ((hmR0SvmFlushTaggedTlb vm pCpu pVCpu).vcpu.fForceTLBFlush = true ↔
        pVCpu.fForceTLBFlush = true ∨ pVCpu.idLastCpu ≠ pCpu.idCpu ∨
          pVCpu.cTlbFlushes ≠ pCpu.cTlbFlushes ∨ pVCpu.ffTlbFlush = true) ∧
      (hmR0SvmFlushTaggedTlb vm pCpu pVCpu).cpu.cTlbFlushes = pCpu.cTlbFlushes ∧
      (hmR0SvmFlushTaggedTlb vm pCpu pVCpu).cpu.fFlushAsidBeforeUse =
        pCpu.fFlushAsidBeforeUse ∧
      ∀ (m : Machine) (i : Nat) (evs : List MEvent),
        (m.vcpus i).fForceTLBFlush = true →
          ((mrun vm m evs).vcpus i).fForceTLBFlush = true) := by
  constructor
  · intro ha
    rw [flush_fForceTLBFlush, ha]
    rfl
  · intro ha
    refine ⟨?_, ?_, ?_, fun m i evs h => mrun_fForceTLBFlush vm evs m i ha h⟩
    · rw [flush_fForceTLBFlush, ha]
      simp only [fNewAsid, Bool.true_and, Bool.or_eq_true, bne_iff_ne, ne_eq]
      tauto
    · rw [(flush_always vm pCpu pVCpu ha).1]
    · rw [(flush_always vm pCpu pVCpu ha).1]

/-- Instances of C35: with the policy off an explicit request is consumed and
the flag ends clear; with the policy on, a migration sets the flag and it is
still set after two more world switches on the same physical CPU. -/
theorem force_flag_lifecycle_witness :
    (hmR0SvmFlushTaggedTlb ⟨false, 64, 0⟩ ⟨0, 5, 3, false, false⟩
        ⟨0, 3, 2, true, false, true, false, 0, [], SVM_TLB_FLUSH_NOTHING, 2⟩).vcpu.fForceTLBFlush
      = false ∧
    (hmR0SvmFlushTaggedTlb ⟨true, 64, 0⟩ ⟨0, 5, 3, true, false⟩
        ⟨9, 3, 2, false, false, false, false, 0, [], SVM_TLB_FLUSH_NOTHING, 2⟩).vcpu.fForceTLBFlush
      = true ∧
    ((mrun ⟨true, 64, 0⟩ machine0
      [MEvent.flush 0 0, MEvent.flush 0 0, MEvent.flush 0 0]).vcpus 0).fForceTLBFlush = true :=
  ⟨(force_flag_lifecycle ⟨false, 64, 0⟩ ⟨0, 5, 3, false, false⟩
      ⟨0, 3, 2, true, false, true, false, 0, [], SVM_TLB_FLUSH_NOTHING, 2⟩).1 rfl,
   ((force_flag_lifecycle ⟨true, 64, 0⟩ ⟨0, 5, 3, true, false⟩
      ⟨9, 3, 2, false, false, false, false, 0, [], SVM_TLB_FLUSH_NOTHING, 2⟩).2 rfl).1.2
      (Or.inr (Or.inl (by decide))),
   ((force_flag_lifecycle ⟨true, 64, 0⟩ ⟨0, 0, 0, false, false⟩ neverRun).2 rfl).2.2.2
      (mstep ⟨true, 64, 0⟩ machine0 (MEvent.flush 0 0)) 0 [MEvent.flush 0 0, MEvent.flush 0 0]
      (by decide)⟩

end HMSVMR0
